import Mathlib

/-!
Cursor trail animation core (`kitty/cursor_trail.c`)

A shallow embedding of the per-frame cursor-trail update of `kitty/cursor_trail.c`
and theorems about it.

Modelling conventions.

* C `float`/`double` quantities are idealised as exact rationals (`ℚ`): every
  arithmetic operator of the source is the corresponding field operation, in the
  same order as the source writes it.  Rounding error, infinities and `NaN` are
  outside this model; division by zero follows Lean's convention `x / 0 = 0`, so
  the model says nothing about the C program where a cell size or a decay
  constant is zero.  Three divisions are also modelled with their IEEE outcome:
  the quotients by `dx`, `dy` of `should_skip_cursor_trail_update`
  (`cells_between`), the quotient by `cursor_diag_2` of the alignment scores
  (`corner_dot_ieee`, where `none` is NaN) and the quotient `0/0` of a zero elapsed
  time by a zero `cursor_trail_decay_slow` (`opacity_change_ieee`).
* `monotonic_t` and the window positions are unbounded integers (`Int`); ids,
  counters, grid positions and cell sizes are natural numbers.  Their C
  declarations live in `state.h`, outside `cursor_trail.c`.  The `int` locals of
  `should_skip_cursor_trail_update` are 32-bit: conversion out of range and
  wrap-around are modelled explicitly.
* The libm functions `sqrtf` and `exp2f` are parameters (`Libm`).
* The fixed-size arrays `corner_x[4]`, `cursor_edge_x[2]`, ... are functions on
  `Fin 4` / `Fin 2`.
* Array indexing through `tabs[...]` / `windows[...]` is fallible: an index
  outside the array makes `update_cursor_trail` return `none`.
-/

namespace Kitty

/-- The constant `FLT_MAX` of `<float.h>`: `(2^24 - 1) * 2^104`. -/
def FLT_MAX : ℚ := (2 ^ 24 - 1) * 2 ^ 104

/-- The values of the `CursorShape` enum.  `NO_CURSOR_SHAPE` stands for every value
that reaches the `default:` label of the switches in `cursor_trail.c`. -/
inductive CursorShape where
  | NO_CURSOR_SHAPE
  | CURSOR_BLOCK
  | CURSOR_BEAM
  | CURSOR_UNDERLINE
  | CURSOR_HOLLOW
  deriving DecidableEq, Repr

/-- The fields of `screen->cursor_render_info` read by the trail code. -/
structure CursorRenderInfo where
  shape : CursorShape
  x : Nat
  y : Nat

/-- The fields of `screen->cell_size`. -/
structure CellPixelSize where
  width : Nat
  height : Nat

/-- The fields of `screen->modes` read by the trail code. -/
structure ScreenModes where
  mDECTCEM : Bool

/-- The fields of `screen->cursor` read by the trail code. -/
structure Cursor where
  position_changed_by_client_at : Int

/-- The fields of `screen->paused_rendering` read by the trail code. -/
structure PausedRendering where
  expires_at : Int

/-- The part of `Screen` read by the trail code. -/
structure Screen where
  cursor_render_info : CursorRenderInfo
  cell_size : CellPixelSize
  modes : ScreenModes
  cursor : Cursor
  paused_rendering : PausedRendering

/-- The part of `WindowRenderData` read by the trail code (the macro `WD`). -/
structure WindowRenderData where
  xstart : ℚ
  ystart : ℚ
  dx : ℚ
  dy : ℚ
  screen : Screen

/-- The part of `Window` read by the trail code. -/
structure Window where
  render_data : WindowRenderData

/-- The part of `Tab` read by the trail code. -/
structure Tab where
  windows : List Window
  active_window : Nat

/-- The fields of `os_window->live_resize` read by the trail code. -/
structure LiveResizeInfo where
  in_progress : Bool

/-- The fields of `os_window->before_fullscreen` read by the trail code. -/
structure WindowPosition where
  x : Int
  y : Int

/-- The part of `OSWindow` read by the trail code. -/
structure OSWindow where
  id : Nat
  last_focused_counter : Nat
  is_focused : Bool
  live_resize : LiveResizeInfo
  before_fullscreen : WindowPosition
  tabs : List Tab
  last_active_tab : Nat

/-- The configuration values read through the macro `OPT(...)`. -/
structure Options where
  cursor_beam_thickness : ℚ
  cursor_underline_thickness : ℚ
  cursor_trail_start_threshold : Int
  cursor_trail_decay_fast : ℚ
  cursor_trail_decay_slow : ℚ
  cursor_trail : Int
  cursor_trail_choreographed : Bool

/-- The part of `global_state` read or written by the trail code;
`num_os_windows` is the length of `os_windows`. -/
structure GlobalState where
  opts : Options
  os_windows : List OSWindow
  prev_focused_os_window : Nat
  origin_of_trail : Nat

/-- The trail state `CursorTrail`. -/
structure CursorTrail where
  needs_render : Bool
  updated_at : Int
  opacity : ℚ
  corner_x : Fin 4 → ℚ
  corner_y : Fin 4 → ℚ
  cursor_edge_x : Fin 2 → ℚ
  cursor_edge_y : Fin 2 → ℚ

/-- The libm functions used by `cursor_trail.c`, taken as parameters. -/
structure Libm where
  sqrtf : ℚ → ℚ
  exp2f : ℚ → ℚ

open CursorShape

/-- The function `norm` (lines 4-7). -/
def norm (m : Libm) (x y : ℚ) : ℚ :=
  m.sqrtf (x * x + y * y)

/-- The function `update_cursor_trail_target` (lines 9-47). -/
def update_cursor_trail_target (opts : Options) (ct : CursorTrail) (w : Window) : CursorTrail :=
  let WD := w.render_data
  let left : ℚ :=
    match WD.screen.cursor_render_info.shape with
    | CURSOR_BLOCK | CURSOR_HOLLOW | CURSOR_BEAM | CURSOR_UNDERLINE =>
        WD.xstart + (WD.screen.cursor_render_info.x : ℚ) * WD.dx
    | NO_CURSOR_SHAPE => FLT_MAX
  let bottom : ℚ :=
    match WD.screen.cursor_render_info.shape with
    | CURSOR_BLOCK | CURSOR_HOLLOW | CURSOR_BEAM | CURSOR_UNDERLINE =>
        WD.ystart - ((WD.screen.cursor_render_info.y + 1 : Nat) : ℚ) * WD.dy
    | NO_CURSOR_SHAPE => FLT_MAX
  let right : ℚ :=
    match WD.screen.cursor_render_info.shape with
    | CURSOR_BLOCK | CURSOR_HOLLOW => left + WD.dx
    | CURSOR_BEAM => left + WD.dx / (WD.screen.cell_size.width : ℚ) * opts.cursor_beam_thickness
    | CURSOR_UNDERLINE => left + WD.dx
    | NO_CURSOR_SHAPE => FLT_MAX
  let top : ℚ :=
    match WD.screen.cursor_render_info.shape with
    | CURSOR_BLOCK | CURSOR_HOLLOW => bottom + WD.dy
    | CURSOR_BEAM => bottom + WD.dy
    | CURSOR_UNDERLINE =>
        bottom + WD.dy / (WD.screen.cell_size.height : ℚ) * opts.cursor_underline_thickness
    | NO_CURSOR_SHAPE => FLT_MAX
  if left ≠ FLT_MAX then
    { ct with cursor_edge_x := ![left, right], cursor_edge_y := ![top, bottom] }
  else ct

/-- The function `update_cursor_trail_target_in_another_window` (lines 49-87). -/
def update_cursor_trail_target_in_another_window (opts : Options) (ct : CursorTrail)
    (tgt_w own_w : Window) (bias_x bias_y : Int) : CursorTrail :=
  let twd := tgt_w.render_data
  let owd := own_w.render_data
  let left : ℚ :=
    match owd.screen.cursor_render_info.shape with
    | CURSOR_BLOCK | CURSOR_HOLLOW | CURSOR_BEAM | CURSOR_UNDERLINE =>
        owd.xstart + (twd.screen.cursor_render_info.x : ℚ) * owd.dx
    | NO_CURSOR_SHAPE => FLT_MAX
  let bottom : ℚ :=
    match owd.screen.cursor_render_info.shape with
    | CURSOR_BLOCK | CURSOR_HOLLOW | CURSOR_BEAM | CURSOR_UNDERLINE =>
        owd.ystart - ((twd.screen.cursor_render_info.y + 1 : Nat) : ℚ) * owd.dy
    | NO_CURSOR_SHAPE => FLT_MAX
  let right : ℚ :=
    match owd.screen.cursor_render_info.shape with
    | CURSOR_BLOCK | CURSOR_HOLLOW => left + owd.dx
    | CURSOR_BEAM => left + owd.dx / (owd.screen.cell_size.width : ℚ) * opts.cursor_beam_thickness
    | CURSOR_UNDERLINE => left + owd.dx
    | NO_CURSOR_SHAPE => FLT_MAX
  let top : ℚ :=
    match owd.screen.cursor_render_info.shape with
    | CURSOR_BLOCK | CURSOR_HOLLOW => bottom + owd.dy
    | CURSOR_BEAM => bottom + owd.dy
    | CURSOR_UNDERLINE =>
        bottom + owd.dy / (owd.screen.cell_size.height : ℚ) * opts.cursor_underline_thickness
    | NO_CURSOR_SHAPE => FLT_MAX
  if left ≠ FLT_MAX then
    { ct with
      cursor_edge_x :=
        ![left + (bias_x : ℚ) * owd.dx / (owd.screen.cell_size.width : ℚ),
          right + (bias_x : ℚ) * owd.dx / (owd.screen.cell_size.width : ℚ)],
      cursor_edge_y :=
        ![top + (bias_y : ℚ) * owd.dy / (owd.screen.cell_size.height : ℚ),
          bottom + (bias_y : ℚ) * owd.dy / (owd.screen.cell_size.height : ℚ)] }
  else ct

/-- The static table `corner_index` (lines 109 and 181): row 0 selects the x edge and
row 1 the y edge of each of the four corners. -/
def corner_index : Fin 2 → Fin 4 → Fin 2 :=
  ![![1, 1, 0, 0], ![0, 1, 1, 0]]

/-- The constant `INT_MIN` of `<limits.h>` for the 32-bit `int`. -/
def INT_MIN : Int := -2147483648

/-- The constant `INT_MAX` of `<limits.h>` for the 32-bit `int`. -/
def INT_MAX : Int := 2147483647

/-- The C library `round` on an exact rational: the nearest integer, halfway cases away
from zero. -/
def c_round (q : ℚ) : Int :=
  if 0 ≤ q then ⌊q + 1 / 2⌋ else ⌈q - 1 / 2⌉

/-- The `(int)` conversion of an integral `double`.  C leaves the conversion of a value
outside the range of `int` undefined; the value taken here is the one the x86-64
conversion instruction returns, `INT_MIN`. -/
def double_to_int (v : Int) : Int :=
  if INT_MIN ≤ v ∧ v ≤ INT_MAX then v else INT_MIN

/-- Reduction of an integer to the 32-bit two's-complement `int` (wrap-around). -/
def wrap_int (v : Int) : Int :=
  (v - INT_MIN) % 4294967296 + INT_MIN

/-- The C library `abs` on the 32-bit `int`, with wrap-around: `abs(INT_MIN)` is
`INT_MIN`. -/
def int_abs (v : Int) : Int :=
  wrap_int |v|

/-- The expression `(int)round(q)` of lines 96-97 for a finite quotient `q`. -/
def round_to_int (q : ℚ) : Int :=
  double_to_int (c_round q)

/-- The locals `dx` and `dy` of lines 96-97, `(int)round(num / den)`.  With `den = 0`
the float quotient is an infinity or NaN, whose conversion is out of range. -/
def cells_between (num den : ℚ) : Int :=
  if den = 0 then INT_MIN else round_to_int (num / den)

/-- Modelled from the spec: `monotonic_t_to_s_double` is declared outside
`cursor_trail.c`; `dt` is "wall-clock seconds elapsed" (§4.3) and `monotonic_t`
counts nanoseconds. -/
def monotonic_t_to_s_double (t : Int) : ℚ :=
  (t : ℚ) / 1000000000

/-- The function `should_skip_cursor_trail_update` (lines 89-103). -/
def should_skip_cursor_trail_update (opts : Options) (ct : CursorTrail) (w : Window)
    (os_window : OSWindow) : Bool :=
  let WD := w.render_data
  if os_window.live_resize.in_progress then true
  else if 0 < opts.cursor_trail_start_threshold ∧ ct.needs_render = false then
    let dx : Int := cells_between (ct.corner_x 0 - ct.cursor_edge_x 1) WD.dx
    let dy : Int := cells_between (ct.corner_y 0 - ct.cursor_edge_y 0) WD.dy
    if wrap_int (int_abs dx + int_abs dy) ≤ opts.cursor_trail_start_threshold then true
    else false
  else false

/-- The local `cursor_center_x` (line 122). -/
def cursor_center_x (ct : CursorTrail) : ℚ :=
  (ct.cursor_edge_x 0 + ct.cursor_edge_x 1) * (1 / 2)

/-- The local `cursor_center_y` (line 123). -/
def cursor_center_y (ct : CursorTrail) : ℚ :=
  (ct.cursor_edge_y 0 + ct.cursor_edge_y 1) * (1 / 2)

/-- The local `cursor_diag_2` (line 124). -/
def cursor_diag_2 (m : Libm) (ct : CursorTrail) : ℚ :=
  norm m (ct.cursor_edge_x 1 - ct.cursor_edge_x 0) (ct.cursor_edge_y 1 - ct.cursor_edge_y 0)
    * (1 / 2)

/-- The test of line 135: both components of the displacement of corner `i` are below
`1e-6` in absolute value. -/
def corner_converged (ct : CursorTrail) (i : Fin 4) : Bool :=
  decide (|ct.cursor_edge_x (corner_index 0 i) - ct.corner_x i| < 1 / 1000000) &&
    decide (|ct.cursor_edge_y (corner_index 1 i) - ct.corner_y i| < 1 / 1000000)

/-- The local array `dx[4]` after the loop of lines 132-143. -/
def corner_dx (ct : CursorTrail) (i : Fin 4) : ℚ :=
  if corner_converged ct i then 0 else ct.cursor_edge_x (corner_index 0 i) - ct.corner_x i

/-- The local array `dy[4]` after the loop of lines 132-143. -/
def corner_dy (ct : CursorTrail) (i : Fin 4) : ℚ :=
  if corner_converged ct i then 0 else ct.cursor_edge_y (corner_index 1 i) - ct.corner_y i

/-- The local array `dot[4]` after the loop of lines 132-143. -/
def corner_dot (m : Libm) (ct : CursorTrail) (i : Fin 4) : ℚ :=
  if corner_converged ct i then 0
  else
    (corner_dx ct i * (ct.cursor_edge_x (corner_index 0 i) - cursor_center_x ct) +
        corner_dy ct i * (ct.cursor_edge_y (corner_index 1 i) - cursor_center_y ct)) /
      cursor_diag_2 m ct / norm m (corner_dx ct i) (corner_dy ct i)

/-- The minimum of `FLT_MAX` and the four scores read as exact quotients.  It is the
local `min_dot` after the loop of lines 144-148 (`fminf` is `min`) whenever no score is
NaN, and whenever the test `min_dot == FLT_MAX` of line 151 fails
(`min_max_dot_ieee_eq`). -/
def min_dot (m : Libm) (ct : CursorTrail) : ℚ :=
  (List.finRange 4).foldl (fun acc i => min acc (corner_dot m ct i)) FLT_MAX

/-- The maximum of `-FLT_MAX` and the four scores read as exact quotients.  It is the
local `max_dot` after the loop of lines 144-148 (`fmaxf` is `max`) whenever no score is
NaN, and whenever the test `min_dot == FLT_MAX` of line 151 fails
(`min_max_dot_ieee_eq`). -/
def max_dot (m : Libm) (ct : CursorTrail) : ℚ :=
  (List.finRange 4).foldl (fun acc i => max acc (corner_dot m ct i)) (-FLT_MAX)

/-- The score `dot[i]` of lines 132-143 as an IEEE value: `none` stands for the NaN that
lines 140-142 produce when they divide by a zero `cursor_diag_2` (the numerator is then
zero too).  The division by `norm(dx[i], dy[i])` is guarded by the test of line 135. -/
def corner_dot_ieee (m : Libm) (ct : CursorTrail) (i : Fin 4) : Option ℚ :=
  if corner_converged ct i then some 0
  else if cursor_diag_2 m ct = 0 then none
  else some (corner_dot m ct i)

/-- The C library `fminf` with a second argument that may be NaN: a NaN is skipped. -/
def fminf_ieee (acc : ℚ) (x : Option ℚ) : ℚ :=
  match x with
  | some d => min acc d
  | none => acc

/-- The C library `fmaxf` with a second argument that may be NaN: a NaN is skipped. -/
def fmaxf_ieee (acc : ℚ) (x : Option ℚ) : ℚ :=
  match x with
  | some d => max acc d
  | none => acc

/-- The local `min_dot` after the loop of lines 144-148, with NaN scores skipped by
`fminf`. -/
def min_dot_ieee (m : Libm) (ct : CursorTrail) : ℚ :=
  (List.finRange 4).foldl (fun acc i => fminf_ieee acc (corner_dot_ieee m ct i)) FLT_MAX

/-- The local `max_dot` after the loop of lines 144-148, with NaN scores skipped by
`fmaxf`. -/
def max_dot_ieee (m : Libm) (ct : CursorTrail) : ℚ :=
  (List.finRange 4).foldl (fun acc i => fmaxf_ieee acc (corner_dot_ieee m ct i)) (-FLT_MAX)

/-- The local `decay` of corner `i` (lines 155-157), for scores that are numbers; for
every corner that line 151 does not skip it is the value of `corner_decay_ieee`
(`corner_decay_ieee_of_eased`). -/
def corner_decay (m : Libm) (opts : Options) (ct : CursorTrail) (i : Fin 4) : ℚ :=
  let decay_fast := opts.cursor_trail_decay_fast
  let decay_slow := opts.cursor_trail_decay_slow
  if min_dot m ct = max_dot m ct then decay_slow
  else
    decay_slow +
      (decay_fast - decay_slow) * (corner_dot m ct i - min_dot m ct) /
        (max_dot m ct - min_dot m ct)

/-- The local `step` of corner `i` (line 158), for the elapsed time `dt`. -/
def corner_step (m : Libm) (opts : Options) (ct : CursorTrail) (dt : ℚ) (i : Fin 4) : ℚ :=
  1 - m.exp2f (-10 * dt / corner_decay m opts ct i)

/-- The test of line 151 under which corner `i` is left untouched.  The sentinel test
`min_dot == FLT_MAX` succeeds when no score is a number below `FLT_MAX`, in particular
when every score is NaN. -/
def corner_untouched (m : Libm) (ct : CursorTrail) (i : Fin 4) : Bool :=
  (decide (corner_dx ct i = 0) && decide (corner_dy ct i = 0)) ||
    decide (min_dot_ieee m ct = FLT_MAX)

/-- The local `decay` of corner `i` (lines 155-157) as an IEEE value: NaN (`none`) when
it is computed from a NaN score. -/
def corner_decay_ieee (m : Libm) (opts : Options) (ct : CursorTrail) (i : Fin 4) : Option ℚ :=
  let decay_fast := opts.cursor_trail_decay_fast
  let decay_slow := opts.cursor_trail_decay_slow
  if min_dot_ieee m ct = max_dot_ieee m ct then some decay_slow
  else
    match corner_dot_ieee m ct i with
    | some d =>
        some (decay_slow +
          (decay_fast - decay_slow) * (d - min_dot_ieee m ct) /
            (max_dot_ieee m ct - min_dot_ieee m ct))
    | none => none

/-- The local `step` of corner `i` (line 158) as an IEEE value. -/
def corner_step_ieee (m : Libm) (opts : Options) (ct : CursorTrail) (dt : ℚ) (i : Fin 4) :
    Option ℚ :=
  (corner_decay_ieee m opts ct i).map (fun decay => 1 - m.exp2f (-10 * dt / decay))

/-- The value stored in `corner_x[i]` by the loop of lines 150-161, as an IEEE value:
`none` would be a NaN written to the trail state. -/
def eased_corner_x_ieee (m : Libm) (opts : Options) (ct : CursorTrail) (dt : ℚ) (i : Fin 4) :
    Option ℚ :=
  if corner_untouched m ct i then some (ct.corner_x i)
  else (corner_step_ieee m opts ct dt i).map (fun step => ct.corner_x i + corner_dx ct i * step)

/-- The value stored in `corner_y[i]` by the loop of lines 150-161, as an IEEE value:
`none` would be a NaN written to the trail state. -/
def eased_corner_y_ieee (m : Libm) (opts : Options) (ct : CursorTrail) (dt : ℚ) (i : Fin 4) :
    Option ℚ :=
  if corner_untouched m ct i then some (ct.corner_y i)
  else (corner_step_ieee m opts ct dt i).map (fun step => ct.corner_y i + corner_dy ct i * step)

/-- The function `update_cursor_trail_corners` (lines 105-163). -/
def update_cursor_trail_corners (m : Libm) (opts : Options) (ct : CursorTrail) (w : Window)
    (now : Int) (os_window : OSWindow) : CursorTrail :=
  if should_skip_cursor_trail_update opts ct w os_window then
    { ct with
      corner_x := fun i => ct.cursor_edge_x (corner_index 0 i),
      corner_y := fun i => ct.cursor_edge_y (corner_index 1 i) }
  else if ct.updated_at < now then
    let dt : ℚ := monotonic_t_to_s_double (now - ct.updated_at)
    { ct with
      corner_x := fun i =>
        if corner_untouched m ct i then ct.corner_x i
        else ct.corner_x i + corner_dx ct i * corner_step m opts ct dt i,
      corner_y := fun i =>
        if corner_untouched m ct i then ct.corner_y i
        else ct.corner_y i + corner_dy ct i * corner_step m opts ct dt i }
  else ct

/-- The function `update_cursor_trail_opacity` (lines 165-177). -/
def update_cursor_trail_opacity (opts : Options) (ct : CursorTrail) (w : Window)
    (now : Int) : CursorTrail :=
  let WD := w.render_data
  let cursor_trail_always_visible : Bool := false
  if cursor_trail_always_visible then { ct with opacity := 1 }
  else if WD.screen.modes.mDECTCEM then
    { ct with
      opacity :=
        min (ct.opacity +
          monotonic_t_to_s_double (now - ct.updated_at) / opts.cursor_trail_decay_slow) 1 }
  else
    { ct with
      opacity :=
        max (ct.opacity -
          monotonic_t_to_s_double (now - ct.updated_at) / opts.cursor_trail_decay_slow) 0 }

/-- The quotient `(float)monotonic_t_to_s_double(now - ct->updated_at) /
OPT(cursor_trail_decay_slow)` of lines 171 and 174 as an IEEE value: `none` stands for
the NaN of `0/0`, a zero elapsed time over a zero decay.  (A non-zero elapsed time over
a zero decay gives an infinity, which stays outside the model.) -/
def opacity_change_ieee (opts : Options) (ct : CursorTrail) (now : Int) : Option ℚ :=
  if opts.cursor_trail_decay_slow = 0 ∧ monotonic_t_to_s_double (now - ct.updated_at) = 0 then
    none
  else some (monotonic_t_to_s_double (now - ct.updated_at) / opts.cursor_trail_decay_slow)

/-- The opacity that `update_cursor_trail_opacity` stores (lines 170-175) when the
quotient may be NaN: the sum or difference with a NaN is NaN, and `fminf`, `fmaxf`
return their other argument, `1.0f` or `0.0f`. -/
def update_cursor_trail_opacity_ieee (opts : Options) (ct : CursorTrail) (w : Window)
    (now : Int) : ℚ :=
  let WD := w.render_data
  if WD.screen.modes.mDECTCEM then
    fminf_ieee 1 ((opacity_change_ieee opts ct now).map (fun q => ct.opacity + q))
  else
    fmaxf_ieee 0 ((opacity_change_ieee opts ct now).map (fun q => ct.opacity - q))

/-- The local `dx_threshold` (line 185). -/
def dx_threshold (w : Window) : ℚ :=
  w.render_data.dx / (w.render_data.screen.cell_size.width : ℚ) * (1 / 2)

/-- The local `dy_threshold` (line 186). -/
def dy_threshold (w : Window) : ℚ :=
  w.render_data.dy / (w.render_data.screen.cell_size.height : ℚ) * (1 / 2)

/-- The body of the loop of lines 187-194: corner `i` is far from its target corner. -/
def corner_is_far (ct : CursorTrail) (w : Window) (i : Fin 4) : Bool :=
  decide (dx_threshold w ≤ |ct.cursor_edge_x (corner_index 0 i) - ct.corner_x i|) ||
    decide (dy_threshold w ≤ |ct.cursor_edge_y (corner_index 1 i) - ct.corner_y i|)

/-- The function `update_cursor_trail_needs_render` (lines 179-195). -/
def update_cursor_trail_needs_render (ct : CursorTrail) (w : Window) : CursorTrail :=
  { ct with needs_render := (List.finRange 4).any (corner_is_far ct w) }

/-- The loop of lines 209-214: the id of the OS window with the greatest
`last_focused_counter` (the first one reaching it), or 0 when no counter is positive. -/
def focused_os_window (gs : GlobalState) : Nat :=
  (gs.os_windows.foldl
    (fun (acc : Nat × Nat) (w : OSWindow) =>
      if w.last_focused_counter > acc.2 then (w.id, w.last_focused_counter) else acc)
    (0, 0)).1

/-- The loops of lines 222-227 and 251-256: the last OS window with the given id, or
`none` for the null pointer. -/
def find_os_window (gs : GlobalState) (id : Nat) : Option OSWindow :=
  gs.os_windows.foldl (fun acc osw => if osw.id = id then some osw else acc) none

/-- The window `tabs[last_active_tab].windows[active_window]` of an OS window
(lines 235-237 and 265-266); `none` when an index is outside its array. -/
def active_window_of (osw : OSWindow) : Option Window :=
  match osw.tabs.get? osw.last_active_tab with
  | some tab => tab.windows.get? tab.active_window
  | none => none

/-- The snapshot of lines 268-310: the four corners are overwritten from the cursor of
`prev_focused_window`, in the geometry of `w`. -/
def snapshot_corners (opts : Options) (ct : CursorTrail) (w : Window)
    (prev_focused_window : Window)
    (focused_window_pos_x focused_window_pos_y : Int)
    (prev_focused_window_pos_x prev_focused_window_pos_y : Int) : CursorTrail :=
  let x : ℚ :=
    (prev_focused_window.render_data.screen.cursor_render_info.x : ℚ) * w.render_data.dx
      + w.render_data.xstart
      + ((prev_focused_window_pos_x - focused_window_pos_x : Int) : ℚ) * w.render_data.dx /
          (w.render_data.screen.cell_size.width : ℚ)
  let y : ℚ :=
    0 - (prev_focused_window.render_data.screen.cursor_render_info.y : ℚ) * w.render_data.dy
      + (w.render_data.ystart - w.render_data.dy)
      - ((prev_focused_window_pos_y - focused_window_pos_y : Int) : ℚ) * w.render_data.dy /
          (w.render_data.screen.cell_size.height : ℚ)
  match prev_focused_window.render_data.screen.cursor_render_info.shape with
  | CURSOR_BLOCK | CURSOR_HOLLOW =>
      { ct with
        corner_x := ![x + w.render_data.dx, x + w.render_data.dx, x, x],
        corner_y := ![y + w.render_data.dy, y, y, y + w.render_data.dy] }
  | CURSOR_BEAM =>
      { ct with
        corner_x :=
          ![x + w.render_data.dx / (w.render_data.screen.cell_size.width : ℚ)
                * opts.cursor_beam_thickness,
            x + w.render_data.dx / (w.render_data.screen.cell_size.width : ℚ)
                * opts.cursor_beam_thickness,
            x, x],
        corner_y := ![y + w.render_data.dy, y, y, y + w.render_data.dy] }
  | CURSOR_UNDERLINE =>
      { ct with
        corner_x := ![x + w.render_data.dx, x + w.render_data.dx, x, x],
        corner_y :=
          ![y + w.render_data.dy / (w.render_data.screen.cell_size.height : ℚ)
                * opts.cursor_underline_thickness,
            y, y,
            y + w.render_data.dy / (w.render_data.screen.cell_size.height : ℚ)
                * opts.cursor_underline_thickness] }
  | NO_CURSOR_SHAPE => { ct with corner_x := ![x, x, x, x], corner_y := ![y, y, y, y] }

/-- The test of lines 217-219 that selects the cross-window branch. -/
def chasing_condition (gs : GlobalState) (w : Window) (now : Int) (os_window : OSWindow) :
    Bool :=
  gs.opts.cursor_trail_choreographed &&
    decide (gs.opts.cursor_trail ≤
      now - w.render_data.screen.cursor.position_changed_by_client_at) &&
    decide (os_window.id = gs.prev_focused_os_window)

/-- The test of lines 245-246 that lets the window project its own cursor. -/
def local_condition (gs : GlobalState) (w : Window) (now : Int) : Bool :=
  decide (w.render_data.screen.paused_rendering.expires_at = 0) &&
    decide (gs.opts.cursor_trail ≤
      now - w.render_data.screen.cursor.position_changed_by_client_at)

/-- The test of lines 247-249 that guards the snapshot. -/
def snapshot_condition (gs : GlobalState) (os_window : OSWindow) : Bool :=
  gs.opts.cursor_trail_choreographed && os_window.is_focused &&
    decide (os_window.id = focused_os_window gs) &&
    decide (gs.origin_of_trail ≠ gs.prev_focused_os_window)

/-- Lines 199-319 of `update_cursor_trail`: the choice of the target, with the snapshot
and the latch `origin_of_trail`.  The result is `none` when `tabs[...]` or
`windows[...]` is indexed outside the array. -/
def resolve_target (gs : GlobalState) (ct : CursorTrail) (w : Window) (now : Int)
    (os_window : OSWindow) : Option (CursorTrail × GlobalState) :=
  let prev_focused_os_window := gs.prev_focused_os_window
  if chasing_condition gs w now os_window then
    if w.render_data.screen.paused_rendering.expires_at = 0 then
      match find_os_window gs (focused_os_window gs) with
      | some focused_osw =>
          match active_window_of focused_osw with
          | some tgt_w =>
              some (update_cursor_trail_target_in_another_window gs.opts ct tgt_w w
                (focused_osw.before_fullscreen.x - os_window.before_fullscreen.x)
                (os_window.before_fullscreen.y - focused_osw.before_fullscreen.y), gs)
          | none => none
      | none => some (ct, gs)
    else some (ct, gs)
  else if local_condition gs w now then
    if snapshot_condition gs os_window then
      match find_os_window gs prev_focused_os_window with
      | some prev_focused_osw =>
          match active_window_of prev_focused_osw with
          | some prev_focused_window =>
              some (update_cursor_trail_target gs.opts
                (snapshot_corners gs.opts ct w prev_focused_window
                  os_window.before_fullscreen.x os_window.before_fullscreen.y
                  prev_focused_osw.before_fullscreen.x prev_focused_osw.before_fullscreen.y) w,
                { gs with origin_of_trail := prev_focused_os_window })
          | none => none
      | none => some (update_cursor_trail_target gs.opts ct w, gs)
    else some (update_cursor_trail_target gs.opts ct w, gs)
  else some (ct, gs)

/-- The outcome of one call of `update_cursor_trail`: the trail state and the global
state after the call, and the returned flag. -/
structure UpdateResult where
  ct : CursorTrail
  global_state : GlobalState
  returned : Bool

/-- Lines 321-330 of `update_cursor_trail`: easing, opacity, the dirty classifier,
the time stamp and the returned flag. -/
def finish_update (m : Libm) (gs : GlobalState) (ct : CursorTrail) (w : Window) (now : Int)
    (os_window : OSWindow) : UpdateResult :=
  let ct1 := update_cursor_trail_corners m gs.opts ct w now os_window
  let ct2 := update_cursor_trail_opacity gs.opts ct1 w now
  let needs_render_prev := ct2.needs_render
  let ct3 := update_cursor_trail_needs_render ct2 w
  let ct4 := { ct3 with updated_at := now }
  { ct := ct4, global_state := gs, returned := ct4.needs_render || needs_render_prev }

/-- The function `update_cursor_trail` (lines 197-331). -/
def update_cursor_trail (m : Libm) (gs : GlobalState) (ct : CursorTrail) (w : Window)
    (now : Int) (os_window : OSWindow) : Option UpdateResult :=
  match resolve_target gs ct w now os_window with
  | some (ct0, gs0) => some (finish_update m gs0 ct0 w now os_window)
  | none => none

/-- Every OS window of the global state has an active tab and an active window inside
its arrays, so that `tabs[last_active_tab].windows[active_window]` is a valid access. -/
def tabs_in_range (gs : GlobalState) : Bool :=
  gs.os_windows.all (fun osw => (active_window_of osw).isSome)

/-- The snapshot branch (lines 257-315) is entered: the cross-window branch is not
selected, the window may project its own cursor, the guard of lines 247-249 holds and
the previously focused OS window is found. -/
def snapshot_runs (gs : GlobalState) (w : Window) (now : Int) (os_window : OSWindow) : Bool :=
  !chasing_condition gs w now os_window && local_condition gs w now &&
    snapshot_condition gs os_window &&
    (find_os_window gs gs.prev_focused_os_window).isSome

/-! ## Concrete inputs used by the worked examples -/

/-- Example configuration: beam thickness `0.2`, underline thickness `0.1`, start
threshold `0`, decay `0.1` / `0.4` seconds, no activation delay, no choreography. -/
def example_options : Options :=
  { cursor_beam_thickness := 1 / 5
    cursor_underline_thickness := 1 / 10
    cursor_trail_start_threshold := 0
    cursor_trail_decay_fast := 1 / 10
    cursor_trail_decay_slow := 2 / 5
    cursor_trail := 0
    cursor_trail_choreographed := false }

/-- Example window: a cursor of the given shape at grid position `(col, row)` in a
window with the given origin and per-cell deltas, cells of 10 by 20 pixels, the cursor
shown, rendering not paused. -/
def example_window (shape : CursorShape) (col row : Nat) (xstart ystart dx dy : ℚ) : Window :=
  { render_data :=
      { xstart := xstart
        ystart := ystart
        dx := dx
        dy := dy
        screen :=
          { cursor_render_info := { shape := shape, x := col, y := row }
            cell_size := { width := 10, height := 20 }
            modes := { mDECTCEM := true }
            cursor := { position_changed_by_client_at := 0 }
            paused_rendering := { expires_at := 0 } } } }

/-- Example trail state: all corners and target edges at the origin, opacity one half,
last updated at time 0, no render need. -/
def example_trail : CursorTrail :=
  { needs_render := false
    updated_at := 0
    opacity := 1 / 2
    corner_x := fun _ => 0
    corner_y := fun _ => 0
    cursor_edge_x := fun _ => 0
    cursor_edge_y := fun _ => 0 }

/-- Example OS window with the given id, focus counter, flags and position, holding one
tab with the one given window. -/
def example_os_window (id counter : Nat) (is_focused in_progress : Bool) (x y : Int)
    (win : Window) : OSWindow :=
  { id := id
    last_focused_counter := counter
    is_focused := is_focused
    live_resize := { in_progress := in_progress }
    before_fullscreen := { x := x, y := y }
    tabs := [{ windows := [win], active_window := 0 }]
    last_active_tab := 0 }

/-- Example libm used where the eased branch is not reached. -/
def example_libm : Libm :=
  { sqrtf := fun x => x, exp2f := fun _ => 1 }

/-- Example global state with the given options, OS windows, previously focused id and
origin-of-trail latch. -/
def example_global_state (opts : Options) (os_windows : List OSWindow)
    (prev_focused_os_window origin_of_trail : Nat) : GlobalState :=
  { opts := opts
    os_windows := os_windows
    prev_focused_os_window := prev_focused_os_window
    origin_of_trail := origin_of_trail }

/-- Example trail state that has reached the target rectangle with edges left 0,
right 10, top 100, bottom 80 while `needs_render` is still true. -/
def settled_trail : CursorTrail :=
  { needs_render := true
    updated_at := 0
    opacity := 1 / 2
    corner_x := ![10, 10, 0, 0]
    corner_y := ![100, 80, 80, 100]
    cursor_edge_x := ![0, 10]
    cursor_edge_y := ![100, 80] }

/-- Example options with choreography enabled. -/
def choreographed_options : Options :=
  { example_options with cursor_trail_choreographed := true }

/-- Example focus state: OS window 1 at position (0,0) was focused before, OS window 2
at position (300,0) is focused now; each holds one window with a Block cursor, at grid
(2,1) and (0,0), in the geometry `dx=10`, `dy=20`, `xstart=0`, `ystart=100`.  The latch
`origin_of_trail` is still 0. -/
def two_window_state : GlobalState :=
  example_global_state choreographed_options
    [example_os_window 1 1 false false 0 0 (example_window CURSOR_BLOCK 2 1 0 100 10 20),
     example_os_window 2 2 true false 300 0 (example_window CURSOR_BLOCK 0 0 0 100 10 20)]
    1 0

/-- Example libm that returns the exact value wherever the real function has a rational
value of this form: `sqrtf` on squares of rationals, `exp2f` at integers (elsewhere it
returns the square root rounded down in the numerator, and `2 ^ ⌊x⌋`). -/
def exact_libm : Libm :=
  { sqrtf := fun q => (Nat.sqrt (q.num.toNat * q.den) : ℚ) / (q.den : ℚ)
    exp2f := fun q => (2 : ℚ) ^ ⌊q⌋ }

/-- Example trail state: the target rectangle has left 0, right 6, top 8, bottom 0;
corner 0 lies at the centre (3,4) of the rectangle, at distance 5 from its target corner
(6,8), and the other three corners are on their target corners.  Last update at time 0. -/
def leading_trail : CursorTrail :=
  { needs_render := true
    updated_at := 0
    opacity := 1 / 2
    corner_x := ![3, 6, 0, 0]
    corner_y := ![4, 0, 0, 8]
    cursor_edge_x := ![0, 6]
    cursor_edge_y := ![8, 0] }

/-- Example trail state: as `leading_trail`, but corner 2 lies `2^(-21)` (about `4.8e-7`)
to the right of its target corner (0,0). -/
def near_trail : CursorTrail :=
  { needs_render := true
    updated_at := 0
    opacity := 1 / 2
    corner_x := ![3, 6, 1 / 2097152, 0]
    corner_y := ![4, 0, 0, 8]
    cursor_edge_x := ![0, 6]
    cursor_edge_y := ![8, 0] }

/-- Example trail state with a target rectangle of zero area at (6,8): corner 0 lies at
(3,4), the other three corners are on the target. -/
def zero_area_trail : CursorTrail :=
  { needs_render := true
    updated_at := 0
    opacity := 1 / 2
    corner_x := ![3, 6, 6, 6]
    corner_y := ![4, 8, 8, 8]
    cursor_edge_x := ![6, 6]
    cursor_edge_y := ![8, 8] }

/-- Example trail state with a target rectangle of zero area at (6,8) and all four
corners at (3,4). -/
def stalled_trail : CursorTrail :=
  { needs_render := true
    updated_at := 0
    opacity := 1 / 2
    corner_x := ![3, 3, 3, 3]
    corner_y := ![4, 4, 4, 4]
    cursor_edge_x := ![6, 6]
    cursor_edge_y := ![8, 8] }

/-- Example configuration with decay constants that binary32 holds exactly:
`decay_fast = 0.125` s and `decay_slow = 0.5` s. -/
def binary_options : Options :=
  { example_options with cursor_trail_decay_fast := 1 / 8, cursor_trail_decay_slow := 1 / 2 }

/-- Example libm with the two binary32 results of `exp2f` that exact arithmetic cannot
give: 0 at and below -150 (underflow: the smallest positive binary32 value is `2^(-149)`)
and 1 from `-2^(-25)` to 0 (`2^x` is then nearer to 1 than to the next binary32 value
below 1); elsewhere as `exact_libm`. -/
def binary32_libm : Libm :=
  { sqrtf := exact_libm.sqrtf
    exp2f := fun q =>
      if q ≤ -150 then 0
      else if -1 / 33554432 ≤ q ∧ q ≤ 0 then 1
      else (2 : ℚ) ^ ⌊q⌋ }

/-- Example window as `example_window CURSOR_BLOCK 0 0 0 100 10 20`, but with the cursor
hidden (`mDECTCEM` off). -/
def hidden_cursor_window : Window :=
  { render_data :=
      { xstart := 0
        ystart := 100
        dx := 10
        dy := 20
        screen :=
          { cursor_render_info := { shape := CursorShape.CURSOR_BLOCK, x := 0, y := 0 }
            cell_size := { width := 10, height := 20 }
            modes := { mDECTCEM := false }
            cursor := { position_changed_by_client_at := 0 }
            paused_rendering := { expires_at := 0 } } } }

/-- Example trail state: as `example_trail`, last updated at 2 s. -/
def later_trail : CursorTrail :=
  { example_trail with updated_at := 2000000000 }

/-- Example trail state: as `example_trail`, with the opacity 1.5. -/
def overfull_trail : CursorTrail :=
  { example_trail with opacity := 3 / 2 }

/-- Example trail state: as `example_trail`, with the opacity -0.5. -/
def underfull_trail : CursorTrail :=
  { example_trail with opacity := -(1 / 2) }

/-- Example configuration: as `binary_options`, with `cursor_trail_decay_slow = 0`. -/
def zero_decay_options : Options :=
  { binary_options with cursor_trail_decay_slow := 0 }

/-! ## Frame lemmas: which fields each step leaves alone -/

@[simp] lemma update_cursor_trail_target_needs_render (opts : Options) (ct : CursorTrail)
    (w : Window) : (update_cursor_trail_target opts ct w).needs_render = ct.needs_render := by
  unfold update_cursor_trail_target; dsimp only; split_ifs <;> rfl

@[simp] lemma update_cursor_trail_target_corner_x (opts : Options) (ct : CursorTrail)
    (w : Window) : (update_cursor_trail_target opts ct w).corner_x = ct.corner_x := by
  unfold update_cursor_trail_target; dsimp only; split_ifs <;> rfl

@[simp] lemma update_cursor_trail_target_corner_y (opts : Options) (ct : CursorTrail)
    (w : Window) : (update_cursor_trail_target opts ct w).corner_y = ct.corner_y := by
  unfold update_cursor_trail_target; dsimp only; split_ifs <;> rfl

@[simp] lemma update_cursor_trail_target_in_another_window_needs_render (opts : Options)
    (ct : CursorTrail) (tgt_w own_w : Window) (bias_x bias_y : Int) :
    (update_cursor_trail_target_in_another_window opts ct tgt_w own_w bias_x bias_y).needs_render
      = ct.needs_render := by
  unfold update_cursor_trail_target_in_another_window; dsimp only; split_ifs <;> rfl

@[simp] lemma snapshot_corners_needs_render (opts : Options) (ct : CursorTrail)
    (w pw : Window) (fx fy px py : Int) :
    (snapshot_corners opts ct w pw fx fy px py).needs_render = ct.needs_render := by
  unfold snapshot_corners; dsimp only; split <;> rfl

@[simp] lemma update_cursor_trail_corners_cursor_edge_x (m : Libm) (opts : Options)
    (ct : CursorTrail) (w : Window) (now : Int) (os_window : OSWindow) :
    (update_cursor_trail_corners m opts ct w now os_window).cursor_edge_x = ct.cursor_edge_x := by
  unfold update_cursor_trail_corners; split_ifs <;> rfl

@[simp] lemma update_cursor_trail_corners_cursor_edge_y (m : Libm) (opts : Options)
    (ct : CursorTrail) (w : Window) (now : Int) (os_window : OSWindow) :
    (update_cursor_trail_corners m opts ct w now os_window).cursor_edge_y = ct.cursor_edge_y := by
  unfold update_cursor_trail_corners; split_ifs <;> rfl

@[simp] lemma update_cursor_trail_corners_needs_render (m : Libm) (opts : Options)
    (ct : CursorTrail) (w : Window) (now : Int) (os_window : OSWindow) :
    (update_cursor_trail_corners m opts ct w now os_window).needs_render = ct.needs_render := by
  unfold update_cursor_trail_corners; split_ifs <;> rfl

@[simp] lemma update_cursor_trail_corners_opacity (m : Libm) (opts : Options)
    (ct : CursorTrail) (w : Window) (now : Int) (os_window : OSWindow) :
    (update_cursor_trail_corners m opts ct w now os_window).opacity = ct.opacity := by
  unfold update_cursor_trail_corners; split_ifs <;> rfl

@[simp] lemma update_cursor_trail_corners_updated_at (m : Libm) (opts : Options)
    (ct : CursorTrail) (w : Window) (now : Int) (os_window : OSWindow) :
    (update_cursor_trail_corners m opts ct w now os_window).updated_at = ct.updated_at := by
  unfold update_cursor_trail_corners; split_ifs <;> rfl

@[simp] lemma update_cursor_trail_opacity_cursor_edge_x (opts : Options) (ct : CursorTrail)
    (w : Window) (now : Int) :
    (update_cursor_trail_opacity opts ct w now).cursor_edge_x = ct.cursor_edge_x := by
  unfold update_cursor_trail_opacity; dsimp only; split_ifs <;> rfl

@[simp] lemma update_cursor_trail_opacity_cursor_edge_y (opts : Options) (ct : CursorTrail)
    (w : Window) (now : Int) :
    (update_cursor_trail_opacity opts ct w now).cursor_edge_y = ct.cursor_edge_y := by
  unfold update_cursor_trail_opacity; dsimp only; split_ifs <;> rfl

@[simp] lemma update_cursor_trail_opacity_corner_x (opts : Options) (ct : CursorTrail)
    (w : Window) (now : Int) :
    (update_cursor_trail_opacity opts ct w now).corner_x = ct.corner_x := by
  unfold update_cursor_trail_opacity; dsimp only; split_ifs <;> rfl

@[simp] lemma update_cursor_trail_opacity_corner_y (opts : Options) (ct : CursorTrail)
    (w : Window) (now : Int) :
    (update_cursor_trail_opacity opts ct w now).corner_y = ct.corner_y := by
  unfold update_cursor_trail_opacity; dsimp only; split_ifs <;> rfl

@[simp] lemma update_cursor_trail_opacity_needs_render (opts : Options) (ct : CursorTrail)
    (w : Window) (now : Int) :
    (update_cursor_trail_opacity opts ct w now).needs_render = ct.needs_render := by
  unfold update_cursor_trail_opacity; dsimp only; split_ifs <;> rfl

/-- The target resolution of lines 199-319 never writes `needs_render`. -/
lemma resolve_target_needs_render (gs : GlobalState) (ct : CursorTrail) (w : Window)
    (now : Int) (os_window : OSWindow) (ct0 : CursorTrail) (gs0 : GlobalState)
    (h : resolve_target gs ct w now os_window = some (ct0, gs0)) :
    ct0.needs_render = ct.needs_render := by
  unfold resolve_target at h
  dsimp only at h
  split_ifs at h
  all_goals try split at h
  all_goals try split at h
  all_goals cases h
  all_goals simp

/-- A window returned by `find_os_window` is one of the OS windows of the global state. -/
lemma find_os_window_mem (gs : GlobalState) (id : Nat) (osw : OSWindow)
    (h : find_os_window gs id = some osw) : osw ∈ gs.os_windows := by
  unfold find_os_window at h
  have key : ∀ (l : List OSWindow) (acc : Option OSWindow),
      l.foldl (fun acc o => if o.id = id then some o else acc) acc = some osw →
        osw ∈ l ∨ acc = some osw := by
    intro l
    induction l with
    | nil => intro acc h; right; simpa using h
    | cons a t ih =>
      intro acc h
      rw [List.foldl_cons] at h
      rcases ih _ h with h1 | h1
      · left; exact List.mem_cons_of_mem _ h1
      · by_cases ha : a.id = id
        · rw [if_pos ha] at h1
          left
          simp only [Option.some.injEq] at h1
          rw [← h1]; exact List.mem_cons_self _ _
        · rw [if_neg ha] at h1
          right; exact h1
  rcases key _ _ h with h1 | h1
  · exact h1
  · simp at h1

/-- When every OS window has its active tab and window in range, the target resolution
returns a result. -/
lemma resolve_target_isSome (gs : GlobalState) (ct : CursorTrail) (w : Window) (now : Int)
    (os_window : OSWindow) (hwf : tabs_in_range gs = true) :
    (resolve_target gs ct w now os_window).isSome = true := by
  have hall : ∀ osw ∈ gs.os_windows, (active_window_of osw).isSome = true := by
    simpa [tabs_in_range, List.all_eq_true] using hwf
  unfold resolve_target
  dsimp only
  split_ifs
  all_goals first
    | rfl
    | (split
       · rename_i osw hfind
         have hs := hall osw (find_os_window_mem gs _ osw hfind)
         split
         · rfl
         · rename_i hnone
           rw [hnone] at hs
           simp at hs
       · rfl)

/-- When every OS window has its active tab and window in range, `update_cursor_trail`
returns a result. -/
lemma update_cursor_trail_isSome (m : Libm) (gs : GlobalState) (ct : CursorTrail)
    (w : Window) (now : Int) (os_window : OSWindow) (hwf : tabs_in_range gs = true) :
    (update_cursor_trail m gs ct w now os_window).isSome = true := by
  have h := resolve_target_isSome gs ct w now os_window hwf
  unfold update_cursor_trail
  cases hr : resolve_target gs ct w now os_window with
  | none => rw [hr] at h; simp at h
  | some p => rfl

/-- A result of `update_cursor_trail` is `finish_update` applied to a resolved target. -/
lemma update_cursor_trail_eq_some (m : Libm) (gs : GlobalState) (ct : CursorTrail)
    (w : Window) (now : Int) (os_window : OSWindow) (r : UpdateResult)
    (h : update_cursor_trail m gs ct w now os_window = some r) :
    ∃ ct0 gs0, resolve_target gs ct w now os_window = some (ct0, gs0) ∧
      r = finish_update m gs0 ct0 w now os_window := by
  unfold update_cursor_trail at h
  cases hr : resolve_target gs ct w now os_window with
  | none => rw [hr] at h; simp at h
  | some p =>
    rw [hr] at h
    obtain ⟨ct0, gs0⟩ := p
    simp only [Option.some.injEq] at h
    exact ⟨ct0, gs0, rfl, h.symm⟩

/-! ## Theorems -/

/-- C1 (counterexample): the claim "for every window geometry the stored left edge is
`xstart + col*dx`" fails for a Block cursor at grid (0,0) of a window whose `xstart` is
`FLT_MAX` (`dx=10`, `dy=20`, `ystart=100`): the computed left edge equals the sentinel,
the guard of line 41 is false and the cached left edge keeps its old value 0. -/
theorem update_cursor_trail_target_sentinel_counterexample :
    (update_cursor_trail_target example_options example_trail
        (example_window CURSOR_BLOCK 0 0 FLT_MAX 100 10 20)).cursor_edge_x 0 = 0 ∧
    (update_cursor_trail_target example_options example_trail
        (example_window CURSOR_BLOCK 0 0 FLT_MAX 100 10 20)).cursor_edge_x 0 ≠
      (example_window CURSOR_BLOCK 0 0 FLT_MAX 100 10 20).render_data.xstart +
        ((example_window CURSOR_BLOCK 0 0 FLT_MAX 100 10 20).render_data.screen.cursor_render_info.x
            : ℚ) *
          (example_window CURSOR_BLOCK 0 0 FLT_MAX 100 10 20).render_data.dx := by
  constructor
  · simp [update_cursor_trail_target, example_window, example_trail]
  · simp [update_cursor_trail_target, example_window, example_trail]
    norm_num [FLT_MAX]

/-- C1 (amended): whenever the computed left edge `xstart + col*dx` differs from the
sentinel `FLT_MAX`, `update_cursor_trail_target` stores, for each of the four shapes,
`cursor_edge_x = [left, right]` and `cursor_edge_y = [top, bottom]` with
`left = xstart + col*dx`, `bottom = ystart - (row+1)*dy`, Block and Hollow
`right = left + dx`, `top = bottom + dy`; Beam
`right = left + dx/cell_width*beam_thickness`, `top = bottom + dy`; Underline
`right = left + dx`, `top = bottom + dy/cell_height*underline_thickness`. -/
theorem update_cursor_trail_target_edges (opts : Options) (ct : CursorTrail) (w : Window)
    (hleft : w.render_data.xstart +
      (w.render_data.screen.cursor_render_info.x : ℚ) * w.render_data.dx ≠ FLT_MAX) :
    let WD := w.render_data
    let shape := WD.screen.cursor_render_info.shape
    let left : ℚ := WD.xstart + (WD.screen.cursor_render_info.x : ℚ) * WD.dx
    let bottom : ℚ := WD.ystart - ((WD.screen.cursor_render_info.y : ℚ) + 1) * WD.dy
    let ct1 := update_cursor_trail_target opts ct w
    (shape = CURSOR_BLOCK ∨ shape = CURSOR_HOLLOW →
        ct1.cursor_edge_x = ![left, left + WD.dx] ∧
        ct1.cursor_edge_y = ![bottom + WD.dy, bottom]) ∧
    (shape = CURSOR_BEAM →
        ct1.cursor_edge_x =
          ![left, left + WD.dx / (WD.screen.cell_size.width : ℚ) * opts.cursor_beam_thickness] ∧
        ct1.cursor_edge_y = ![bottom + WD.dy, bottom]) ∧
    (shape = CURSOR_UNDERLINE →
        ct1.cursor_edge_x = ![left, left + WD.dx] ∧
        ct1.cursor_edge_y =
          ![bottom + WD.dy / (WD.screen.cell_size.height : ℚ) * opts.cursor_underline_thickness,
            bottom]) := by
  intro WD shape left bottom ct1
  have hl : ¬ (WD.xstart + (WD.screen.cursor_render_info.x : ℚ) * WD.dx = FLT_MAX) := hleft
  refine ⟨?_, ?_, ?_⟩
  · rintro (h | h) <;>
      simp only [ct1, update_cursor_trail_target, show w.render_data.screen.cursor_render_info.shape = _ from h] <;>
      simp [hl, WD, left, bottom]
  · intro h
    simp only [ct1, update_cursor_trail_target, show w.render_data.screen.cursor_render_info.shape = _ from h]
    simp [hl, WD, left, bottom]
  · intro h
    simp only [ct1, update_cursor_trail_target, show w.render_data.screen.cursor_render_info.shape = _ from h]
    simp [hl, WD, left, bottom]

/-- C1 (witness): the two scenarios of the specification.  A Block cursor at grid (0,0)
with `dx=10`, `dy=20`, `xstart=0`, `ystart=100` gives left 0, right 10, top 100,
bottom 80; a Beam cursor with cell width 10 and beam thickness 0.2 in the same geometry
gives right 0.2 and top 100. -/
theorem update_cursor_trail_target_edges_witness :
    ((0 : ℚ) + ((0 : Nat) : ℚ) * 10 ≠ FLT_MAX) ∧
    (update_cursor_trail_target example_options example_trail
        (example_window CURSOR_BLOCK 0 0 0 100 10 20)).cursor_edge_x = ![0, 10] ∧
    (update_cursor_trail_target example_options example_trail
        (example_window CURSOR_BLOCK 0 0 0 100 10 20)).cursor_edge_y = ![100, 80] ∧
    (update_cursor_trail_target example_options example_trail
        (example_window CURSOR_BEAM 0 0 0 100 10 20)).cursor_edge_x = ![0, 1 / 5] ∧
    (update_cursor_trail_target example_options example_trail
        (example_window CURSOR_BEAM 0 0 0 100 10 20)).cursor_edge_y = ![100, 80] := by
  have hne : (0 : ℚ) + ((0 : Nat) : ℚ) * 10 ≠ FLT_MAX := by norm_num [FLT_MAX]
  have hblock := (update_cursor_trail_target_edges example_options example_trail
    (example_window CURSOR_BLOCK 0 0 0 100 10 20) hne).1 (Or.inl rfl)
  have hbeam := (update_cursor_trail_target_edges example_options example_trail
    (example_window CURSOR_BEAM 0 0 0 100 10 20) hne).2.1 rfl
  refine ⟨hne, ?_, ?_, ?_, ?_⟩
  · rw [hblock.1]; norm_num [example_window]
  · rw [hblock.2]; norm_num [example_window]
  · rw [hbeam.1]; norm_num [example_window, example_options]
  · rw [hbeam.2]; norm_num [example_window]

/-- C2 (the code at the failing input): the owning window shows a Block cursor, the
target window a Beam cursor at grid (0,0); geometry `dx=10`, `dy=20`, `xstart=0`,
`ystart=100`, cell width 10, beam thickness 0.2, bias (0,0).  The stored right edge is
`left + dx = 10`, the Block rule of the OWNING window's shape (lines 54 and 64 switch on
`owd`), not the Beam value `left + dx/cell_width*beam_thickness = 0.2` of the target
window's shape. -/
theorem update_cursor_trail_target_in_another_window_uses_owning_shape :
    (update_cursor_trail_target_in_another_window example_options example_trail
        (example_window CURSOR_BEAM 0 0 0 100 10 20)
        (example_window CURSOR_BLOCK 3 4 0 100 10 20) 0 0).cursor_edge_x = ![0, 10] ∧
    (update_cursor_trail_target example_options example_trail
        (example_window CURSOR_BEAM 0 0 0 100 10 20)).cursor_edge_x = ![0, 1 / 5] ∧
    (update_cursor_trail_target_in_another_window example_options example_trail
        (example_window CURSOR_BEAM 0 0 0 100 10 20)
        (example_window CURSOR_BLOCK 3 4 0 100 10 20) 0 0).cursor_edge_x 1 ≠
      (0 : ℚ) + 10 / 10 * example_options.cursor_beam_thickness := by
  refine ⟨?_, ?_, ?_⟩
  · norm_num [update_cursor_trail_target_in_another_window, example_window, example_trail,
      FLT_MAX]
  · norm_num [update_cursor_trail_target, example_window, example_trail, example_options,
      FLT_MAX]
  · norm_num [update_cursor_trail_target_in_another_window, example_window, example_trail,
      example_options, FLT_MAX]

/-- The snap branch of `update_cursor_trail_corners` (lines 115-120). -/
lemma update_cursor_trail_corners_of_skip (m : Libm) (opts : Options) (ct : CursorTrail)
    (w : Window) (now : Int) (os_window : OSWindow)
    (h : should_skip_cursor_trail_update opts ct w os_window = true) :
    update_cursor_trail_corners m opts ct w now os_window =
      { ct with
        corner_x := fun i => ct.cursor_edge_x (corner_index 0 i),
        corner_y := fun i => ct.cursor_edge_y (corner_index 1 i) } := by
  simp [update_cursor_trail_corners, h]

/-- A live resize makes the skip policy fire (lines 91-93). -/
lemma should_skip_of_live_resize (opts : Options) (ct : CursorTrail) (w : Window)
    (os_window : OSWindow) (h : os_window.live_resize.in_progress = true) :
    should_skip_cursor_trail_update opts ct w os_window = true := by
  simp [should_skip_cursor_trail_update, h]

/-- C3: in every state in which `should_skip_cursor_trail_update` returns true,
`update_cursor_trail_corners` leaves the target edges alone and sets corner 0 to
(right, top), corner 1 to (right, bottom), corner 2 to (left, bottom) and corner 3 to
(left, top); that is, `corner_x[i] = cursor_edge_x[cx[i]]` and
`corner_y[i] = cursor_edge_y[cy[i]]` for the table `corner_index`, and the residual
displacement of every corner is exactly zero. -/
theorem update_cursor_trail_corners_snap_exact (m : Libm) (opts : Options) (ct : CursorTrail)
    (w : Window) (now : Int) (os_window : OSWindow)
    (h : should_skip_cursor_trail_update opts ct w os_window = true) :
    let ct1 := update_cursor_trail_corners m opts ct w now os_window
    (ct1.cursor_edge_x = ct.cursor_edge_x ∧ ct1.cursor_edge_y = ct.cursor_edge_y) ∧
    (ct1.corner_x 0 = ct1.cursor_edge_x 1 ∧ ct1.corner_y 0 = ct1.cursor_edge_y 0) ∧
    (ct1.corner_x 1 = ct1.cursor_edge_x 1 ∧ ct1.corner_y 1 = ct1.cursor_edge_y 1) ∧
    (ct1.corner_x 2 = ct1.cursor_edge_x 0 ∧ ct1.corner_y 2 = ct1.cursor_edge_y 1) ∧
    (ct1.corner_x 3 = ct1.cursor_edge_x 0 ∧ ct1.corner_y 3 = ct1.cursor_edge_y 0) ∧
    (∀ i : Fin 4,
      ct1.corner_x i = ct1.cursor_edge_x (![1, 1, 0, 0] i) ∧
      ct1.corner_y i = ct1.cursor_edge_y (![0, 1, 1, 0] i) ∧
      ct1.cursor_edge_x (corner_index 0 i) - ct1.corner_x i = 0 ∧
      ct1.cursor_edge_y (corner_index 1 i) - ct1.corner_y i = 0) := by
  intro ct1
  have e : ct1 = _ := update_cursor_trail_corners_of_skip m opts ct w now os_window h
  rw [e]
  refine ⟨⟨rfl, rfl⟩, ⟨rfl, rfl⟩, ⟨rfl, rfl⟩, ⟨rfl, rfl⟩, ⟨rfl, rfl⟩, ?_⟩
  intro i
  fin_cases i <;> simp [corner_index]

/-- C3 (witness): during a live resize, corners lying at the origin snap onto the target
rectangle with edges left 0, right 10, top 100, bottom 80. -/
theorem update_cursor_trail_corners_snap_exact_witness :
    should_skip_cursor_trail_update example_options
        { example_trail with cursor_edge_x := ![0, 10], cursor_edge_y := ![100, 80] }
        (example_window CURSOR_BLOCK 0 0 0 100 10 20)
        (example_os_window 1 1 true true 0 0 (example_window CURSOR_BLOCK 0 0 0 100 10 20))
      = true ∧
    (update_cursor_trail_corners example_libm example_options
        { example_trail with cursor_edge_x := ![0, 10], cursor_edge_y := ![100, 80] }
        (example_window CURSOR_BLOCK 0 0 0 100 10 20) 5
        (example_os_window 1 1 true true 0 0
          (example_window CURSOR_BLOCK 0 0 0 100 10 20))).corner_x 0 = 10 ∧
    (update_cursor_trail_corners example_libm example_options
        { example_trail with cursor_edge_x := ![0, 10], cursor_edge_y := ![100, 80] }
        (example_window CURSOR_BLOCK 0 0 0 100 10 20) 5
        (example_os_window 1 1 true true 0 0
          (example_window CURSOR_BLOCK 0 0 0 100 10 20))).corner_y 0 = 100 := by
  have hs : should_skip_cursor_trail_update example_options
        { example_trail with cursor_edge_x := ![0, 10], cursor_edge_y := ![100, 80] }
        (example_window CURSOR_BLOCK 0 0 0 100 10 20)
        (example_os_window 1 1 true true 0 0 (example_window CURSOR_BLOCK 0 0 0 100 10 20))
      = true := by
    simp [should_skip_cursor_trail_update, example_os_window]
  have h := update_cursor_trail_corners_snap_exact example_libm example_options
    { example_trail with cursor_edge_x := ![0, 10], cursor_edge_y := ![100, 80] }
    (example_window CURSOR_BLOCK 0 0 0 100 10 20) 5
    (example_os_window 1 1 true true 0 0 (example_window CURSOR_BLOCK 0 0 0 100 10 20)) hs
  refine ⟨hs, ?_, ?_⟩
  · rw [h.2.1.1, h.1.1]; simp
  · rw [h.2.1.2, h.1.2]; simp

/-- After a snap no corner is far from its target when both thresholds are positive. -/
lemma corner_is_far_of_snapped (ct : CursorTrail) (w : Window)
    (hx : 0 < dx_threshold w) (hy : 0 < dy_threshold w)
    (hc : ∀ i, ct.corner_x i = ct.cursor_edge_x (corner_index 0 i) ∧
      ct.corner_y i = ct.cursor_edge_y (corner_index 1 i)) (i : Fin 4) :
    corner_is_far ct w i = false := by
  unfold corner_is_far
  rw [(hc i).1, (hc i).2]
  simp [hx, hy]

/-- C4 (counterexample): a live resize in a window whose per-cell delta `dx` is 0
(Block cursor at grid (0,0), `dy=20`, `xstart=0`, `ystart=100`, cells of 10 by 20
pixels).  The corners snap onto the target, the x threshold `dx/cell_width*0.5` is 0,
the test `dx_threshold <= 0` of line 190 succeeds and `needs_render` is true. -/
theorem update_cursor_trail_live_resize_counterexample :
    (example_os_window 1 1 true true 0 0
        (example_window CURSOR_BLOCK 0 0 0 100 0 20)).live_resize.in_progress = true ∧
    (update_cursor_trail example_libm
        (example_global_state example_options
          [example_os_window 1 1 true true 0 0 (example_window CURSOR_BLOCK 0 0 0 100 0 20)] 0 0)
        example_trail (example_window CURSOR_BLOCK 0 0 0 100 0 20) 5
        (example_os_window 1 1 true true 0 0
          (example_window CURSOR_BLOCK 0 0 0 100 0 20))).map (fun r => r.ct.needs_render)
      = some true := by
  refine ⟨rfl, ?_⟩
  simp [update_cursor_trail, resolve_target, chasing_condition, local_condition,
    snapshot_condition, example_global_state, example_options, example_window,
    finish_update, update_cursor_trail_needs_render, corner_is_far, dx_threshold]

/-- C4 (amended): when the live-resize flag of the owning OS window is set and both
thresholds `dx/cell_width*0.5` and `dy/cell_height*0.5` of the owning window are
positive, every result of `update_cursor_trail` has its four corners equal to the
(possibly just updated) target corners, whatever they were before, and `needs_render`
false; and a result exists whenever the active tab and window of every OS window are in
range. -/
theorem update_cursor_trail_live_resize (m : Libm) (gs : GlobalState) (ct : CursorTrail)
    (w : Window) (now : Int) (os_window : OSWindow)
    (hlive : os_window.live_resize.in_progress = true)
    (hx : 0 < w.render_data.dx / (w.render_data.screen.cell_size.width : ℚ) * (1 / 2))
    (hy : 0 < w.render_data.dy / (w.render_data.screen.cell_size.height : ℚ) * (1 / 2)) :
    (tabs_in_range gs = true → ∃ r, update_cursor_trail m gs ct w now os_window = some r) ∧
    (∀ r, update_cursor_trail m gs ct w now os_window = some r →
      (r.ct.corner_x 0 = r.ct.cursor_edge_x 1 ∧ r.ct.corner_y 0 = r.ct.cursor_edge_y 0) ∧
      (r.ct.corner_x 1 = r.ct.cursor_edge_x 1 ∧ r.ct.corner_y 1 = r.ct.cursor_edge_y 1) ∧
      (r.ct.corner_x 2 = r.ct.cursor_edge_x 0 ∧ r.ct.corner_y 2 = r.ct.cursor_edge_y 1) ∧
      (r.ct.corner_x 3 = r.ct.cursor_edge_x 0 ∧ r.ct.corner_y 3 = r.ct.cursor_edge_y 0) ∧
      r.ct.needs_render = false) := by
  constructor
  · intro hwf
    exact Option.isSome_iff_exists.mp (update_cursor_trail_isSome m gs ct w now os_window hwf)
  · intro r hr
    obtain ⟨ct0, gs0, -, rfl⟩ := update_cursor_trail_eq_some m gs ct w now os_window r hr
    have hs := should_skip_of_live_resize gs0.opts ct0 w os_window hlive
    have hc := update_cursor_trail_corners_of_skip m gs0.opts ct0 w now os_window hs
    have hfar : ∀ i, corner_is_far
        (update_cursor_trail_opacity gs0.opts
          (update_cursor_trail_corners m gs0.opts ct0 w now os_window) w now) w i = false := by
      intro i
      apply corner_is_far_of_snapped _ _ hx hy
      intro j
      simp [hc]
    refine ⟨?_, ?_, ?_, ?_, ?_⟩
    · simp [finish_update, update_cursor_trail_needs_render, hc, corner_index]
    · simp [finish_update, update_cursor_trail_needs_render, hc, corner_index]
    · simp [finish_update, update_cursor_trail_needs_render, hc, corner_index]
    · simp [finish_update, update_cursor_trail_needs_render, hc, corner_index]
    · simp only [finish_update, update_cursor_trail_needs_render]
      rw [List.any_eq_false]
      intro i _
      simp [hfar i]

/-- C4 (witness): a live resize in the geometry `dx=10`, `dy=20`, cells of 10 by 20
pixels: the call returns a result whose `needs_render` is false. -/
theorem update_cursor_trail_live_resize_witness :
    (example_os_window 1 1 true true 0 0
        (example_window CURSOR_BLOCK 0 0 0 100 10 20)).live_resize.in_progress = true ∧
    (0 : ℚ) < (example_window CURSOR_BLOCK 0 0 0 100 10 20).render_data.dx /
        ((example_window CURSOR_BLOCK 0 0 0 100 10 20).render_data.screen.cell_size.width : ℚ)
          * (1 / 2) ∧
    (0 : ℚ) < (example_window CURSOR_BLOCK 0 0 0 100 10 20).render_data.dy /
        ((example_window CURSOR_BLOCK 0 0 0 100 10 20).render_data.screen.cell_size.height : ℚ)
          * (1 / 2) ∧
    (update_cursor_trail example_libm
        (example_global_state example_options
          [example_os_window 1 1 true true 0 0 (example_window CURSOR_BLOCK 0 0 0 100 10 20)]
          0 0)
        example_trail (example_window CURSOR_BLOCK 0 0 0 100 10 20) 5
        (example_os_window 1 1 true true 0 0
          (example_window CURSOR_BLOCK 0 0 0 100 10 20))).map (fun r => r.ct.needs_render)
      = some false := by
  have hx : (0 : ℚ) < (example_window CURSOR_BLOCK 0 0 0 100 10 20).render_data.dx /
        ((example_window CURSOR_BLOCK 0 0 0 100 10 20).render_data.screen.cell_size.width : ℚ)
          * (1 / 2) := by
    norm_num [example_window]
  have hy : (0 : ℚ) < (example_window CURSOR_BLOCK 0 0 0 100 10 20).render_data.dy /
        ((example_window CURSOR_BLOCK 0 0 0 100 10 20).render_data.screen.cell_size.height : ℚ)
          * (1 / 2) := by
    norm_num [example_window]
  have h := update_cursor_trail_live_resize example_libm
    (example_global_state example_options
      [example_os_window 1 1 true true 0 0 (example_window CURSOR_BLOCK 0 0 0 100 10 20)] 0 0)
    example_trail (example_window CURSOR_BLOCK 0 0 0 100 10 20) 5
    (example_os_window 1 1 true true 0 0 (example_window CURSOR_BLOCK 0 0 0 100 10 20))
    rfl hx hy
  obtain ⟨r, hr⟩ := h.1 (by
    simp [tabs_in_range, example_global_state, example_os_window, active_window_of])
  refine ⟨rfl, hx, hy, ?_⟩
  rw [hr]
  simp [(h.2 r hr).2.2.2.2]

/-- The flag read at line 324 is the flag the trail had when the call began. -/
lemma finish_update_returned (m : Libm) (gs : GlobalState) (ct : CursorTrail) (w : Window)
    (now : Int) (os_window : OSWindow) :
    (finish_update m gs ct w now os_window).returned =
      (ct.needs_render || (finish_update m gs ct w now os_window).ct.needs_render) := by
  simp [finish_update, Bool.or_comm]

/-- C5: a result of `update_cursor_trail` exists whenever the active tab and window of
every OS window are in range, and for every result the returned flag is true iff
`needs_render` was true at entry or is true at exit.  Hence a call entered with
`needs_render` true in which the classifier finds no corner beyond the thresholds
(`needs_render` false at exit) still returns true, and a call directly following it, on
the state it left, that again ends with `needs_render` false returns false. -/
theorem update_cursor_trail_returned (m : Libm) (gs : GlobalState) (ct : CursorTrail)
    (w : Window) (now : Int) (os_window : OSWindow) :
    (tabs_in_range gs = true → ∃ r, update_cursor_trail m gs ct w now os_window = some r) ∧
    (∀ r, update_cursor_trail m gs ct w now os_window = some r →
      (r.returned = true ↔ (ct.needs_render = true ∨ r.ct.needs_render = true)) ∧
      (ct.needs_render = true → r.ct.needs_render = false → r.returned = true) ∧
      (∀ (w2 : Window) (now2 : Int) (os_window2 : OSWindow) (r2 : UpdateResult),
        update_cursor_trail m r.global_state r.ct w2 now2 os_window2 = some r2 →
        r.ct.needs_render = false → r2.ct.needs_render = false → r2.returned = false)) := by
  constructor
  · intro hwf
    exact Option.isSome_iff_exists.mp (update_cursor_trail_isSome m gs ct w now os_window hwf)
  · intro r hr
    obtain ⟨ct0, gs0, h0, rfl⟩ := update_cursor_trail_eq_some m gs ct w now os_window r hr
    have hn := resolve_target_needs_render gs ct w now os_window ct0 gs0 h0
    have hret := finish_update_returned m gs0 ct0 w now os_window
    rw [hn] at hret
    refine ⟨?_, ?_, ?_⟩
    · rw [hret]; simp
    · intro h1 _
      rw [hret, h1]; rfl
    · intro w2 now2 os_window2 r2 hr2 h1 h2
      obtain ⟨ct2, gs2, h02, rfl⟩ := update_cursor_trail_eq_some m _ _ w2 now2 os_window2 r2 hr2
      have hn2 := resolve_target_needs_render _ _ w2 now2 os_window2 ct2 gs2 h02
      have hret2 := finish_update_returned m gs2 ct2 w2 now2 os_window2
      rw [hret2, hn2, h1, h2]; rfl

/-- C5 (witness): a trail that has reached its target with `needs_render` still true
(Block cursor at grid (0,0), `dx=10`, `dy=20`, `xstart=0`, `ystart=100`): the call
returns true and leaves `needs_render` false. -/
theorem update_cursor_trail_returned_witness :
    tabs_in_range (example_global_state example_options
        [example_os_window 1 1 true false 0 0 (example_window CURSOR_BLOCK 0 0 0 100 10 20)]
        0 0) = true ∧
    (update_cursor_trail example_libm
        (example_global_state example_options
          [example_os_window 1 1 true false 0 0 (example_window CURSOR_BLOCK 0 0 0 100 10 20)]
          0 0)
        settled_trail (example_window CURSOR_BLOCK 0 0 0 100 10 20) 5
        (example_os_window 1 1 true false 0 0
          (example_window CURSOR_BLOCK 0 0 0 100 10 20))).map
        (fun r => (r.returned, r.ct.needs_render))
      = some (true, false) := by
  have hwf : tabs_in_range (example_global_state example_options
        [example_os_window 1 1 true false 0 0 (example_window CURSOR_BLOCK 0 0 0 100 10 20)]
        0 0) = true := by
    simp [tabs_in_range, example_global_state, example_os_window, active_window_of]
  have h := update_cursor_trail_returned example_libm
    (example_global_state example_options
      [example_os_window 1 1 true false 0 0 (example_window CURSOR_BLOCK 0 0 0 100 10 20)] 0 0)
    settled_trail (example_window CURSOR_BLOCK 0 0 0 100 10 20) 5
    (example_os_window 1 1 true false 0 0 (example_window CURSOR_BLOCK 0 0 0 100 10 20))
  obtain ⟨r, hr⟩ := h.1 hwf
  have hexit : r.ct.needs_render = false := by
    have hr2 := hr
    simp [update_cursor_trail, resolve_target, chasing_condition, local_condition,
      snapshot_condition, example_global_state, example_options, example_window] at hr2
    rw [← hr2]
    simp [finish_update, update_cursor_trail_needs_render, corner_is_far, dx_threshold,
      dy_threshold, update_cursor_trail_corners, should_skip_cursor_trail_update,
      example_os_window, example_options, update_cursor_trail_target, example_window,
      settled_trail, corner_untouched, corner_dx, corner_dy, corner_converged, corner_index,
      FLT_MAX]
    intro i
    fin_cases i <;> norm_num
  have hret := (h.2 r hr).2.1 rfl hexit
  refine ⟨hwf, ?_⟩
  rw [hr]
  simp [hret, hexit]

/-- C6 (counterexample): with `dx=10`, `dy=20` and cells of 10 by 20 pixels, a trail
whose corner 0 lies 2 units to the right of its target corner (all other corners on
target) gets `needs_render = true`, because the code's x threshold is
`dx/cell_width*0.5 = 0.5`; yet no corner is farther than `dx/2 = 5` from its target on
the x axis nor farther than `dy/2 = 10` on the y axis. -/
theorem update_cursor_trail_needs_render_half_cell_counterexample :
    (update_cursor_trail_needs_render { settled_trail with corner_x := ![12, 10, 0, 0] }
        (example_window CURSOR_BLOCK 0 0 0 100 10 20)).needs_render = true ∧
    ¬ ∃ i : Fin 4,
        (example_window CURSOR_BLOCK 0 0 0 100 10 20).render_data.dx / 2 <
            |({ settled_trail with corner_x := ![12, 10, 0, 0] } : CursorTrail).cursor_edge_x
                (corner_index 0 i) -
              ({ settled_trail with corner_x := ![12, 10, 0, 0] } : CursorTrail).corner_x i| ∨
        (example_window CURSOR_BLOCK 0 0 0 100 10 20).render_data.dy / 2 <
            |({ settled_trail with corner_x := ![12, 10, 0, 0] } : CursorTrail).cursor_edge_y
                (corner_index 1 i) -
              ({ settled_trail with corner_x := ![12, 10, 0, 0] } : CursorTrail).corner_y i| := by
  constructor
  · simp only [update_cursor_trail_needs_render, List.any_eq_true]
    refine ⟨0, List.mem_finRange 0, ?_⟩
    norm_num [corner_is_far, dx_threshold, dy_threshold, example_window, settled_trail,
      corner_index]
  · rintro ⟨i, hi⟩
    fin_cases i <;>
      norm_num [example_window, settled_trail, corner_index] at hi

/-- C6 (amended): `update_cursor_trail_needs_render` sets `needs_render` to true iff for
some corner `i` the absolute difference between the corner and its target corner is at
least `dx/cell_width*0.5` on the x axis or at least `dy/cell_height*0.5` on the y axis
(`dx`, `dy` and the cell size being the owning window's), and to false otherwise. -/
theorem update_cursor_trail_needs_render_iff (ct : CursorTrail) (w : Window) :
    (update_cursor_trail_needs_render ct w).needs_render = true ↔
      ∃ i : Fin 4,
        w.render_data.dx / (w.render_data.screen.cell_size.width : ℚ) * (1 / 2) ≤
            |ct.cursor_edge_x (corner_index 0 i) - ct.corner_x i| ∨
        w.render_data.dy / (w.render_data.screen.cell_size.height : ℚ) * (1 / 2) ≤
            |ct.cursor_edge_y (corner_index 1 i) - ct.corner_y i| := by
  simp only [update_cursor_trail_needs_render, List.any_eq_true, corner_is_far, dx_threshold,
    dy_threshold, Bool.or_eq_true, decide_eq_true_eq]
  constructor
  · rintro ⟨i, -, hi⟩
    exact ⟨i, hi⟩
  · rintro ⟨i, hi⟩
    exact ⟨i, List.mem_finRange i, hi⟩

/-- The conversion of a non-negative time span to seconds is non-negative. -/
lemma monotonic_t_to_s_double_nonneg (t : Int) (h : 0 ≤ t) : 0 ≤ monotonic_t_to_s_double t := by
  unfold monotonic_t_to_s_double
  apply div_nonneg
  · exact_mod_cast h
  · norm_num

/-- C7: for every prior opacity in [0,1], every positive `decay_slow` and every elapsed
time `now - updated_at >= 0` (converted to seconds as `dt`), however large,
`update_cursor_trail_opacity` leaves the opacity in [0,1]; when the cursor is shown the
result is `min(opacity + dt/decay_slow, 1)`, when hidden it is
`max(opacity - dt/decay_slow, 0)`. -/
theorem update_cursor_trail_opacity_clamped (opts : Options) (ct : CursorTrail) (w : Window)
    (now : Int) (h0 : 0 ≤ ct.opacity) (h1 : ct.opacity ≤ 1)
    (hdecay : 0 < opts.cursor_trail_decay_slow) (hdt : 0 ≤ now - ct.updated_at) :
    let dt : ℚ := monotonic_t_to_s_double (now - ct.updated_at)
    let ct1 := update_cursor_trail_opacity opts ct w now
    (0 ≤ ct1.opacity ∧ ct1.opacity ≤ 1) ∧
    (w.render_data.screen.modes.mDECTCEM = true →
      ct1.opacity = min (ct.opacity + dt / opts.cursor_trail_decay_slow) 1) ∧
    (w.render_data.screen.modes.mDECTCEM = false →
      ct1.opacity = max (ct.opacity - dt / opts.cursor_trail_decay_slow) 0) := by
  intro dt ct1
  have hq : 0 ≤ dt / opts.cursor_trail_decay_slow :=
    div_nonneg (monotonic_t_to_s_double_nonneg _ hdt) hdecay.le
  cases hm : w.render_data.screen.modes.mDECTCEM
  · have e : ct1.opacity = max (ct.opacity - dt / opts.cursor_trail_decay_slow) 0 := by
      simp [ct1, update_cursor_trail_opacity, hm, dt]
    refine ⟨⟨?_, ?_⟩, ?_, fun _ => e⟩
    · rw [e]; exact le_max_right _ _
    · rw [e]; exact max_le (by linarith) (by norm_num)
    · intro h; cases h
  · have e : ct1.opacity = min (ct.opacity + dt / opts.cursor_trail_decay_slow) 1 := by
      simp [ct1, update_cursor_trail_opacity, hm, dt]
    refine ⟨⟨?_, ?_⟩, fun _ => e, ?_⟩
    · rw [e]; exact le_min (by linarith) (by norm_num)
    · rw [e]; exact min_le_right _ _
    · intro h; cases h

/-- C7 (witness): opacity one half, `decay_slow = 0.4` s, one second elapsed, cursor
shown: the opacity becomes `min(0.5 + 1/0.4, 1) = 1`. -/
theorem update_cursor_trail_opacity_clamped_witness :
    ((0 : ℚ) ≤ example_trail.opacity ∧ example_trail.opacity ≤ 1 ∧
      0 < example_options.cursor_trail_decay_slow ∧
      (0 : Int) ≤ 1000000000 - example_trail.updated_at) ∧
    (update_cursor_trail_opacity example_options example_trail
        (example_window CURSOR_BLOCK 0 0 0 100 10 20) 1000000000).opacity = 1 := by
  have h0 : (0 : ℚ) ≤ example_trail.opacity := by norm_num [example_trail]
  have h1 : example_trail.opacity ≤ 1 := by norm_num [example_trail]
  have hdecay : 0 < example_options.cursor_trail_decay_slow := by norm_num [example_options]
  have hdt : (0 : Int) ≤ 1000000000 - example_trail.updated_at := by norm_num [example_trail]
  have h := update_cursor_trail_opacity_clamped example_options example_trail
    (example_window CURSOR_BLOCK 0 0 0 100 10 20) 1000000000 h0 h1 hdecay hdt
  refine ⟨⟨h0, h1, hdecay, hdt⟩, ?_⟩
  rw [h.2.1 rfl]
  norm_num [example_trail, example_options, monotonic_t_to_s_double]

/-- With the skip policy not firing and `now <= updated_at`, the branch of line 121 is
not taken and `update_cursor_trail_corners` changes nothing. -/
lemma update_cursor_trail_corners_of_not_later (m : Libm) (opts : Options) (ct : CursorTrail)
    (w : Window) (now : Int) (os_window : OSWindow)
    (hskip : should_skip_cursor_trail_update opts ct w os_window = false)
    (hnow : now ≤ ct.updated_at) :
    update_cursor_trail_corners m opts ct w now os_window = ct := by
  simp [update_cursor_trail_corners, hskip, not_lt.mpr hnow]

/-- C8 (counterexample): four calls with the skip policy not firing (no live resize,
start threshold 0) and `now <= updated_at`, `decay_fast = 0.125` s.  First,
`decay_slow = 0.5` s, opacity 0.5, cursor shown, `updated_at` = 2 s and `now` = 1 s:
`update_cursor_trail_corners` changes nothing, but `update_cursor_trail_opacity` adds
`dt/decay_slow = -2` and stores the opacity -1.5: `dt` is not treated as 0.  Second,
`now = updated_at`, `decay_slow = 0.5` s, opacity 1.5, cursor shown: the opacity
becomes `fminf(1.5, 1) = 1`.  Third, `now = updated_at`, `decay_slow = 0.5` s, opacity
-0.5, cursor hidden: the opacity becomes `fmaxf(-0.5, 0) = 0`.  Fourth,
`now = updated_at`, `decay_slow = 0`, opacity 0.5, cursor shown: the quotient `0/0` is
NaN and the opacity becomes `fminf(NaN, 1) = 1`. -/
theorem update_cursor_trail_not_later_counterexample :
    ((1000000000 : Int) ≤ later_trail.updated_at ∧
      should_skip_cursor_trail_update binary_options later_trail
        (example_window CURSOR_BLOCK 0 0 0 100 10 20)
        (example_os_window 1 1 true false 0 0 (example_window CURSOR_BLOCK 0 0 0 100 10 20))
          = false ∧
      update_cursor_trail_corners example_libm binary_options later_trail
        (example_window CURSOR_BLOCK 0 0 0 100 10 20) 1000000000
        (example_os_window 1 1 true false 0 0 (example_window CURSOR_BLOCK 0 0 0 100 10 20))
          = later_trail ∧
      later_trail.opacity = 1 / 2 ∧
      (update_cursor_trail_opacity binary_options later_trail
        (example_window CURSOR_BLOCK 0 0 0 100 10 20) 1000000000).opacity = -(3 / 2) ∧
      update_cursor_trail_opacity_ieee binary_options later_trail
        (example_window CURSOR_BLOCK 0 0 0 100 10 20) 1000000000 = -(3 / 2)) ∧
    ((0 : Int) = overfull_trail.updated_at ∧
      should_skip_cursor_trail_update binary_options overfull_trail
        (example_window CURSOR_BLOCK 0 0 0 100 10 20)
        (example_os_window 1 1 true false 0 0 (example_window CURSOR_BLOCK 0 0 0 100 10 20))
          = false ∧
      overfull_trail.opacity = 3 / 2 ∧
      (update_cursor_trail_opacity binary_options overfull_trail
        (example_window CURSOR_BLOCK 0 0 0 100 10 20) 0).opacity = 1 ∧
      update_cursor_trail_opacity_ieee binary_options overfull_trail
        (example_window CURSOR_BLOCK 0 0 0 100 10 20) 0 = 1) ∧
    ((0 : Int) = underfull_trail.updated_at ∧
      should_skip_cursor_trail_update binary_options underfull_trail hidden_cursor_window
        (example_os_window 1 1 true false 0 0 hidden_cursor_window) = false ∧
      underfull_trail.opacity = -(1 / 2) ∧
      (update_cursor_trail_opacity binary_options underfull_trail
        hidden_cursor_window 0).opacity = 0 ∧
      update_cursor_trail_opacity_ieee binary_options underfull_trail
        hidden_cursor_window 0 = 0) ∧
    ((0 : Int) = example_trail.updated_at ∧
      should_skip_cursor_trail_update zero_decay_options example_trail
        (example_window CURSOR_BLOCK 0 0 0 100 10 20)
        (example_os_window 1 1 true false 0 0 (example_window CURSOR_BLOCK 0 0 0 100 10 20))
          = false ∧
      example_trail.opacity = 1 / 2 ∧
      opacity_change_ieee zero_decay_options example_trail 0 = none ∧
      update_cursor_trail_opacity_ieee zero_decay_options example_trail
        (example_window CURSOR_BLOCK 0 0 0 100 10 20) 0 = 1) := by
  have hskip : should_skip_cursor_trail_update binary_options later_trail
        (example_window CURSOR_BLOCK 0 0 0 100 10 20)
        (example_os_window 1 1 true false 0 0 (example_window CURSOR_BLOCK 0 0 0 100 10 20))
      = false := by
    simp [should_skip_cursor_trail_update, example_os_window, binary_options, example_options]
  refine ⟨⟨?_, hskip, ?_, ?_, ?_, ?_⟩, ⟨?_, ?_, ?_, ?_, ?_⟩, ⟨?_, ?_, ?_, ?_, ?_⟩,
    ?_, ?_, ?_, ?_, ?_⟩
  · norm_num [later_trail]
  · apply update_cursor_trail_corners_of_not_later _ _ _ _ _ _ hskip
    norm_num [later_trail]
  · norm_num [later_trail, example_trail]
  · norm_num [update_cursor_trail_opacity, example_window, later_trail, example_trail,
      binary_options, example_options, monotonic_t_to_s_double]
  · norm_num [update_cursor_trail_opacity_ieee, opacity_change_ieee, fminf_ieee,
      example_window, later_trail, example_trail, binary_options, example_options,
      monotonic_t_to_s_double]
  · norm_num [overfull_trail, example_trail]
  · simp [should_skip_cursor_trail_update, example_os_window, binary_options, example_options]
  · norm_num [overfull_trail, example_trail]
  · norm_num [update_cursor_trail_opacity, example_window, overfull_trail, example_trail,
      binary_options, example_options, monotonic_t_to_s_double]
  · norm_num [update_cursor_trail_opacity_ieee, opacity_change_ieee, fminf_ieee,
      example_window, overfull_trail, example_trail, binary_options, example_options,
      monotonic_t_to_s_double]
  · norm_num [underfull_trail, example_trail]
  · simp [should_skip_cursor_trail_update, example_os_window, binary_options, example_options]
  · norm_num [underfull_trail, example_trail]
  · norm_num [update_cursor_trail_opacity, hidden_cursor_window, underfull_trail,
      example_trail, binary_options, example_options, monotonic_t_to_s_double]
  · norm_num [update_cursor_trail_opacity_ieee, opacity_change_ieee, fmaxf_ieee,
      hidden_cursor_window, underfull_trail, example_trail, binary_options, example_options,
      monotonic_t_to_s_double]
  · norm_num [example_trail]
  · simp [should_skip_cursor_trail_update, example_os_window, zero_decay_options,
      binary_options, example_options]
  · norm_num [example_trail]
  · norm_num [opacity_change_ieee, zero_decay_options, example_trail,
      monotonic_t_to_s_double]
  · norm_num [update_cursor_trail_opacity_ieee, opacity_change_ieee, fminf_ieee,
      example_window, zero_decay_options, example_trail, monotonic_t_to_s_double]

/-- C8 (amended): for every state and every `now <= updated_at` (`dt <= 0`), with the
skip/snap policy not firing, `update_cursor_trail_corners` leaves the trail, and so all
four corners, unchanged; `update_cursor_trail_opacity` leaves the opacity unchanged
when `now = updated_at` (`dt = 0`), `cursor_trail_decay_slow` is not zero, and the
opacity is at most 1 with the cursor shown, at least 0 with the cursor hidden (the
quotient is then the number 0). -/
theorem update_cursor_trail_not_later (m : Libm) (opts : Options) (ct : CursorTrail)
    (w : Window) (now : Int) (os_window : OSWindow)
    (hskip : should_skip_cursor_trail_update opts ct w os_window = false)
    (hnow : now ≤ ct.updated_at) :
    update_cursor_trail_corners m opts ct w now os_window = ct ∧
    (∀ i, (update_cursor_trail_corners m opts ct w now os_window).corner_x i = ct.corner_x i ∧
      (update_cursor_trail_corners m opts ct w now os_window).corner_y i = ct.corner_y i) ∧
    (now = ct.updated_at → opts.cursor_trail_decay_slow ≠ 0 →
      (w.render_data.screen.modes.mDECTCEM = true → ct.opacity ≤ 1) →
      (w.render_data.screen.modes.mDECTCEM = false → 0 ≤ ct.opacity) →
      opacity_change_ieee opts ct now = some 0 ∧
      update_cursor_trail_opacity opts ct w now = ct ∧
      update_cursor_trail_opacity_ieee opts ct w now = ct.opacity) := by
  have hc := update_cursor_trail_corners_of_not_later m opts ct w now os_window hskip hnow
  refine ⟨hc, ?_, ?_⟩
  · intro i
    rw [hc]
    exact ⟨rfl, rfl⟩
  · intro heq hdecay hshown hhidden
    have hdt : monotonic_t_to_s_double (now - ct.updated_at) = 0 := by
      rw [heq, sub_self]
      simp [monotonic_t_to_s_double]
    have hq : opacity_change_ieee opts ct now = some 0 := by
      unfold opacity_change_ieee
      rw [if_neg (fun h => hdecay h.1), hdt, zero_div]
    refine ⟨hq, ?_, ?_⟩
    · unfold update_cursor_trail_opacity
      rw [hdt]
      cases hm : w.render_data.screen.modes.mDECTCEM
      · have h0 := hhidden hm
        simp [hm, h0]
      · have h1 := hshown hm
        simp [hm, h1]
    · unfold update_cursor_trail_opacity_ieee
      rw [hq]
      cases hm : w.render_data.screen.modes.mDECTCEM
      · have h0 := hhidden hm
        simp [hm, fmaxf_ieee, h0]
      · have h1 := hshown hm
        simp [hm, fminf_ieee, h1]

/-- C8 (witness): `example_trail` (opacity 0.5, last updated at 0) with `now = 0`, cursor
shown, `decay_slow = 0.5` s, no live resize and start threshold 0: the corners and the
opacity are those at entry. -/
theorem update_cursor_trail_not_later_witness :
    update_cursor_trail_corners example_libm binary_options example_trail
        (example_window CURSOR_BLOCK 0 0 0 100 10 20) 0
        (example_os_window 1 1 true false 0 0 (example_window CURSOR_BLOCK 0 0 0 100 10 20))
      = example_trail ∧
    (update_cursor_trail_opacity binary_options example_trail
        (example_window CURSOR_BLOCK 0 0 0 100 10 20) 0).opacity = 1 / 2 := by
  have h := update_cursor_trail_not_later example_libm binary_options example_trail
    (example_window CURSOR_BLOCK 0 0 0 100 10 20) 0
    (example_os_window 1 1 true false 0 0 (example_window CURSOR_BLOCK 0 0 0 100 10 20))
    (by simp [should_skip_cursor_trail_update, example_os_window, binary_options,
      example_options])
    (by norm_num [example_trail])
  refine ⟨h.1, ?_⟩
  rw [(h.2.2 (by norm_num [example_trail]) (by norm_num [binary_options])
    (fun _ => by norm_num [example_trail]) (fun _ => by norm_num [example_trail])).2.1]
  norm_num [example_trail]

/-- C9: in every call of `update_cursor_trail` in which rendering is paused
(`paused_rendering.expires_at` non-zero) or the activation delay has not elapsed
(`cursor_trail > now - position_changed_by_client_at`), whatever the focus state and the
choreography flag, the call returns a result whose four target edges are those at
entry, the global state with the latch `origin_of_trail` is unchanged, and the corners
are those that `update_cursor_trail_corners` computes from the corners at entry (no
snapshot has overwritten them). -/
theorem update_cursor_trail_idle_keeps_target (m : Libm) (gs : GlobalState)
    (ct : CursorTrail) (w : Window) (now : Int) (os_window : OSWindow)
    (hidle : w.render_data.screen.paused_rendering.expires_at ≠ 0 ∨
      gs.opts.cursor_trail > now - w.render_data.screen.cursor.position_changed_by_client_at) :
    ∃ r, update_cursor_trail m gs ct w now os_window = some r ∧
      r.ct.cursor_edge_x = ct.cursor_edge_x ∧ r.ct.cursor_edge_y = ct.cursor_edge_y ∧
      r.global_state = gs ∧ r.global_state.origin_of_trail = gs.origin_of_trail ∧
      r.ct.corner_x = (update_cursor_trail_corners m gs.opts ct w now os_window).corner_x ∧
      r.ct.corner_y = (update_cursor_trail_corners m gs.opts ct w now os_window).corner_y := by
  have hres : resolve_target gs ct w now os_window = some (ct, gs) := by
    unfold resolve_target
    dsimp only
    rcases hidle with hp | hd
    · have hl : local_condition gs w now = false := by simp [local_condition, hp]
      rw [hl, if_neg hp]
      simp
    · have hc : chasing_condition gs w now os_window = false := by
        simp only [chasing_condition, Bool.and_eq_false_iff, decide_eq_false_iff_not, not_le]
        exact Or.inl (Or.inr hd)
      have hl : local_condition gs w now = false := by
        simp only [local_condition, Bool.and_eq_false_iff, decide_eq_false_iff_not, not_le]
        exact Or.inr hd
      rw [hc, hl]
      simp
  refine ⟨finish_update m gs ct w now os_window, ?_, ?_, ?_, rfl, rfl, ?_, ?_⟩
  · simp [update_cursor_trail, hres]
  · simp [finish_update, update_cursor_trail_needs_render]
  · simp [finish_update, update_cursor_trail_needs_render]
  · simp [finish_update, update_cursor_trail_needs_render]
  · simp [finish_update, update_cursor_trail_needs_render]

/-- C9 (witness): an activation delay of 100 with the cursor last moved at time 0 and
`now = 5`: the target edges `[0,10]`, `[100,80]` of the settled trail survive the call
although the window's cursor sits at grid (3,4). -/
theorem update_cursor_trail_idle_keeps_target_witness :
    ((example_window CURSOR_BLOCK 3 4 0 100 10 20).render_data.screen.paused_rendering.expires_at
        ≠ 0 ∨
      (example_global_state { choreographed_options with cursor_trail := 100 }
          [example_os_window 1 1 true false 0 0 (example_window CURSOR_BLOCK 3 4 0 100 10 20)]
          1 0).opts.cursor_trail >
        5 - (example_window CURSOR_BLOCK 3 4 0 100 10 20).render_data.screen.cursor.position_changed_by_client_at) ∧
    ∃ r, update_cursor_trail example_libm
        (example_global_state { choreographed_options with cursor_trail := 100 }
          [example_os_window 1 1 true false 0 0 (example_window CURSOR_BLOCK 3 4 0 100 10 20)]
          1 0)
        settled_trail (example_window CURSOR_BLOCK 3 4 0 100 10 20) 5
        (example_os_window 1 1 true false 0 0 (example_window CURSOR_BLOCK 3 4 0 100 10 20))
          = some r ∧
      r.ct.cursor_edge_x = ![0, 10] ∧ r.ct.cursor_edge_y = ![100, 80] ∧
      r.global_state.origin_of_trail = 0 := by
  have hidle : (example_window CURSOR_BLOCK 3 4 0 100 10 20).render_data.screen.paused_rendering.expires_at
        ≠ 0 ∨
      (example_global_state { choreographed_options with cursor_trail := 100 }
          [example_os_window 1 1 true false 0 0 (example_window CURSOR_BLOCK 3 4 0 100 10 20)]
          1 0).opts.cursor_trail >
        5 - (example_window CURSOR_BLOCK 3 4 0 100 10 20).render_data.screen.cursor.position_changed_by_client_at := by
    right
    norm_num [example_global_state, example_window]
  obtain ⟨r, hr, hx, hy, -, ho, -, -⟩ := update_cursor_trail_idle_keeps_target example_libm
    (example_global_state { choreographed_options with cursor_trail := 100 }
      [example_os_window 1 1 true false 0 0 (example_window CURSOR_BLOCK 3 4 0 100 10 20)] 1 0)
    settled_trail (example_window CURSOR_BLOCK 3 4 0 100 10 20) 5
    (example_os_window 1 1 true false 0 0 (example_window CURSOR_BLOCK 3 4 0 100 10 20)) hidle
  exact ⟨hidle, r, hr, hx, hy, ho⟩

/-- C10: in every focus state in which the snapshot branch of `update_cursor_trail`
runs, a result exists whenever the active tab and window of every OS window are in
range, and every result has the global state of entry with `origin_of_trail` set to the
previously focused id, the corners having been overwritten by the snapshot of the
previously focused window's cursor before the easing.  A second call in the state the
first one left, for the same owning OS window (any trail state, window contents and
time), does not run the snapshot branch: the cross-window branch is not selected, the
result is the easing applied to the trail with at most the projection of the window's
own cursor onto the target (when rendering is not paused and the activation delay has
elapsed), and the global state with its latch is unchanged.  With the same window and
a time not earlier than the first call, exactly that projection is applied. -/
theorem origin_of_trail_latch_one_shot (m : Libm) (gs : GlobalState) (ct : CursorTrail)
    (w : Window) (now : Int) (os_window : OSWindow)
    (hrun : snapshot_runs gs w now os_window = true) :
    (tabs_in_range gs = true → ∃ r, update_cursor_trail m gs ct w now os_window = some r) ∧
    (∀ r, update_cursor_trail m gs ct w now os_window = some r →
      r.global_state = { gs with origin_of_trail := gs.prev_focused_os_window } ∧
      r.global_state.origin_of_trail = gs.prev_focused_os_window ∧
      (∃ prev_focused_osw prev_focused_window,
        find_os_window gs gs.prev_focused_os_window = some prev_focused_osw ∧
        active_window_of prev_focused_osw = some prev_focused_window ∧
        r = finish_update m { gs with origin_of_trail := gs.prev_focused_os_window }
              (update_cursor_trail_target gs.opts
                (snapshot_corners gs.opts ct w prev_focused_window
                  os_window.before_fullscreen.x os_window.before_fullscreen.y
                  prev_focused_osw.before_fullscreen.x prev_focused_osw.before_fullscreen.y) w)
              w now os_window) ∧
      (∀ (ct2 : CursorTrail) (w2 : Window) (now2 : Int),
        snapshot_runs r.global_state w2 now2 os_window = false ∧
        chasing_condition r.global_state w2 now2 os_window = false ∧
        update_cursor_trail m r.global_state ct2 w2 now2 os_window =
          some (finish_update m r.global_state
            (if local_condition r.global_state w2 now2 then
              update_cursor_trail_target gs.opts ct2 w2
            else ct2) w2 now2 os_window) ∧
        (finish_update m r.global_state
            (if local_condition r.global_state w2 now2 then
              update_cursor_trail_target gs.opts ct2 w2
            else ct2) w2 now2 os_window).global_state = r.global_state) ∧
      (∀ (ct2 : CursorTrail) (now2 : Int), now ≤ now2 →
        update_cursor_trail m r.global_state ct2 w now2 os_window =
          some (finish_update m r.global_state (update_cursor_trail_target gs.opts ct2 w)
            w now2 os_window))) := by
  simp only [snapshot_runs, Bool.and_eq_true, Bool.not_eq_true', Option.isSome_iff_exists]
    at hrun
  obtain ⟨⟨⟨hchase, hlocal⟩, hsnap⟩, posw, hfind⟩ := hrun
  have hchoreo : gs.opts.cursor_trail_choreographed = true := by
    simp only [snapshot_condition, Bool.and_eq_true] at hsnap
    exact hsnap.1.1.1
  have hdelay : gs.opts.cursor_trail ≤
      now - w.render_data.screen.cursor.position_changed_by_client_at := by
    simp only [local_condition, Bool.and_eq_true, decide_eq_true_eq] at hlocal
    exact hlocal.2
  have hid : os_window.id ≠ gs.prev_focused_os_window := by
    intro hEq
    simp [chasing_condition, hchoreo, hdelay, hEq] at hchase
  constructor
  · intro hwf
    exact Option.isSome_iff_exists.mp (update_cursor_trail_isSome m gs ct w now os_window hwf)
  · intro r hr
    obtain ⟨ct0, gs0, h0, rfl⟩ := update_cursor_trail_eq_some m gs ct w now os_window r hr
    have h0a : resolve_target gs ct w now os_window =
        match active_window_of posw with
        | some prev_focused_window =>
            some (update_cursor_trail_target gs.opts
              (snapshot_corners gs.opts ct w prev_focused_window
                os_window.before_fullscreen.x os_window.before_fullscreen.y
                posw.before_fullscreen.x posw.before_fullscreen.y) w,
              { gs with origin_of_trail := gs.prev_focused_os_window })
        | none => none := by
      unfold resolve_target
      simp only [hchase, hlocal, hsnap, hfind, if_true]
      simp
    rw [h0a] at h0
    cases hw : active_window_of posw with
    | none => rw [hw] at h0; simp at h0
    | some pw =>
      rw [hw] at h0
      simp only [Option.some.injEq, Prod.mk.injEq] at h0
      obtain ⟨rfl, rfl⟩ := h0
      have hsecond : ∀ (ct2 : CursorTrail) (w2 : Window) (now2 : Int),
          snapshot_runs ({ gs with origin_of_trail := gs.prev_focused_os_window } : GlobalState)
            w2 now2 os_window = false ∧
          chasing_condition ({ gs with origin_of_trail := gs.prev_focused_os_window } : GlobalState)
            w2 now2 os_window = false ∧
          update_cursor_trail m
              ({ gs with origin_of_trail := gs.prev_focused_os_window } : GlobalState)
              ct2 w2 now2 os_window =
            some (finish_update m
              ({ gs with origin_of_trail := gs.prev_focused_os_window } : GlobalState)
              (if local_condition
                  ({ gs with origin_of_trail := gs.prev_focused_os_window } : GlobalState)
                  w2 now2 then
                update_cursor_trail_target gs.opts ct2 w2
              else ct2) w2 now2 os_window) ∧
          (finish_update m
              ({ gs with origin_of_trail := gs.prev_focused_os_window } : GlobalState)
              (if local_condition
                  ({ gs with origin_of_trail := gs.prev_focused_os_window } : GlobalState)
                  w2 now2 then
                update_cursor_trail_target gs.opts ct2 w2
              else ct2) w2 now2 os_window).global_state =
            ({ gs with origin_of_trail := gs.prev_focused_os_window } : GlobalState) := ?_
      · refine ⟨rfl, rfl, ⟨posw, pw, hfind, hw, rfl⟩, hsecond, ?_⟩
        intro ct2 now2 hnow
        have hl2 : local_condition
            ({ gs with origin_of_trail := gs.prev_focused_os_window } : GlobalState) w now2
              = true := by
          simp only [local_condition, Bool.and_eq_true, decide_eq_true_eq] at hlocal ⊢
          exact ⟨hlocal.1, by linarith⟩
        have h2 := (hsecond ct2 w now2).2.2.1
        rw [hl2] at h2
        simpa using h2
      intro ct2 w2 now2
      have hsnap2 : snapshot_condition
          ({ gs with origin_of_trail := gs.prev_focused_os_window } : GlobalState) os_window
            = false := by
        simp [snapshot_condition]
      have hchase2 : chasing_condition
          ({ gs with origin_of_trail := gs.prev_focused_os_window } : GlobalState) w2 now2
            os_window = false := by
        simp [chasing_condition, hid]
      refine ⟨?_, hchase2, ?_, rfl⟩
      · simp [snapshot_runs, finish_update, hsnap2]
      · have hres2 : resolve_target
            ({ gs with origin_of_trail := gs.prev_focused_os_window } : GlobalState) ct2 w2 now2
              os_window =
            some (if local_condition
                ({ gs with origin_of_trail := gs.prev_focused_os_window } : GlobalState) w2 now2
              then update_cursor_trail_target gs.opts ct2 w2 else ct2,
              { gs with origin_of_trail := gs.prev_focused_os_window }) := by
          unfold resolve_target
          dsimp only
          rw [hchase2, hsnap2]
          simp only [Bool.false_eq_true, if_false]
          split_ifs <;> rfl
        simp only [finish_update, update_cursor_trail]
        rw [hres2]

/-- C10 (witness): OS window 1 was focused before and OS window 2 is focused now, with
choreography enabled and the latch still 0.  The call for window 2 runs the snapshot
branch and leaves `origin_of_trail = 1`. -/
theorem origin_of_trail_latch_one_shot_witness :
    snapshot_runs two_window_state (example_window CURSOR_BLOCK 0 0 0 100 10 20) 5
        (example_os_window 2 2 true false 300 0 (example_window CURSOR_BLOCK 0 0 0 100 10 20))
      = true ∧
    (update_cursor_trail example_libm two_window_state example_trail
        (example_window CURSOR_BLOCK 0 0 0 100 10 20) 5
        (example_os_window 2 2 true false 300 0
          (example_window CURSOR_BLOCK 0 0 0 100 10 20))).map
        (fun r => r.global_state.origin_of_trail) = some 1 := by
  have hrun : snapshot_runs two_window_state (example_window CURSOR_BLOCK 0 0 0 100 10 20) 5
        (example_os_window 2 2 true false 300 0 (example_window CURSOR_BLOCK 0 0 0 100 10 20))
      = true := by
    simp [snapshot_runs, chasing_condition, local_condition, snapshot_condition,
      focused_os_window, find_os_window, two_window_state, example_global_state,
      choreographed_options, example_options, example_os_window, example_window]
  have h := origin_of_trail_latch_one_shot example_libm two_window_state example_trail
    (example_window CURSOR_BLOCK 0 0 0 100 10 20) 5
    (example_os_window 2 2 true false 300 0 (example_window CURSOR_BLOCK 0 0 0 100 10 20)) hrun
  obtain ⟨r, hr⟩ := h.1 (by
    simp [tabs_in_range, two_window_state, example_global_state, example_os_window,
      active_window_of])
  refine ⟨hrun, ?_⟩
  rw [hr]
  simp only [Option.map_some', (h.2 r hr).2.1]
  rfl

/-- C11 (counterexample): choreography is enabled, the delay has elapsed, rendering is
not paused and the owning OS window (id 1, Block cursor at grid (0,0), `dx=10`,
`dy=20`, `xstart=0`, `ystart=100`) is the previously focused one and the only OS window,
so it is the one with the greatest `last_focused_counter`, which is 0.  The loop of lines
209-214 only accepts counters greater than 0, the focused id stays 0, no OS window has
that id and the guard of line 228 skips the projection: the target keeps its old edges
`[0,0]`, while the cross-window projection of that window's cursor has x edges
`[0,10]`. -/
theorem update_cursor_trail_chasing_counterexample :
    chasing_condition
        (example_global_state choreographed_options
          [example_os_window 1 0 false false 0 0 (example_window CURSOR_BLOCK 0 0 0 100 10 20)]
          1 0)
        (example_window CURSOR_BLOCK 0 0 0 100 10 20) 5
        (example_os_window 1 0 false false 0 0 (example_window CURSOR_BLOCK 0 0 0 100 10 20))
      = true ∧
    (update_cursor_trail example_libm
        (example_global_state choreographed_options
          [example_os_window 1 0 false false 0 0 (example_window CURSOR_BLOCK 0 0 0 100 10 20)]
          1 0)
        example_trail (example_window CURSOR_BLOCK 0 0 0 100 10 20) 5
        (example_os_window 1 0 false false 0 0
          (example_window CURSOR_BLOCK 0 0 0 100 10 20))).map
        (fun r => (r.ct.cursor_edge_x 0, r.ct.cursor_edge_x 1)) = some (0, 0) ∧
    (update_cursor_trail_target_in_another_window choreographed_options example_trail
        (example_window CURSOR_BLOCK 0 0 0 100 10 20)
        (example_window CURSOR_BLOCK 0 0 0 100 10 20) (0 - 0) (0 - 0)).cursor_edge_x 1 = 10 := by
  refine ⟨?_, ?_, ?_⟩
  · simp [chasing_condition, example_global_state, choreographed_options, example_options,
      example_os_window, example_window]
  · simp [update_cursor_trail, resolve_target, chasing_condition, focused_os_window,
      find_os_window, example_global_state, choreographed_options, example_options,
      example_os_window, example_window, finish_update, update_cursor_trail_needs_render,
      example_trail]
  · norm_num [update_cursor_trail_target_in_another_window, example_window, example_trail,
      FLT_MAX]

/-- The loop of lines 209-214, started from any accumulator: the final counter bounds
the initial one and every counter in the list, and the final pair is either the initial
one or the id and counter of a window of the list. -/
lemma focused_fold_spec (l : List OSWindow) :
    ∀ acc : Nat × Nat,
      acc.2 ≤ (l.foldl
          (fun (acc : Nat × Nat) (w : OSWindow) =>
            if w.last_focused_counter > acc.2 then (w.id, w.last_focused_counter) else acc)
          acc).2 ∧
      (∀ o ∈ l, o.last_focused_counter ≤ (l.foldl
          (fun (acc : Nat × Nat) (w : OSWindow) =>
            if w.last_focused_counter > acc.2 then (w.id, w.last_focused_counter) else acc)
          acc).2) ∧
      ((l.foldl
          (fun (acc : Nat × Nat) (w : OSWindow) =>
            if w.last_focused_counter > acc.2 then (w.id, w.last_focused_counter) else acc)
          acc) = acc ∨
        ∃ o ∈ l, (l.foldl
          (fun (acc : Nat × Nat) (w : OSWindow) =>
            if w.last_focused_counter > acc.2 then (w.id, w.last_focused_counter) else acc)
          acc) = (o.id, o.last_focused_counter)) := by
  induction l with
  | nil => intro acc; simp
  | cons a t ih =>
    intro acc
    rw [List.foldl_cons]
    by_cases ha : a.last_focused_counter > acc.2
    · rw [if_pos ha]
      obtain ⟨h1, h2, h3⟩ := ih (a.id, a.last_focused_counter)
      refine ⟨le_trans (le_of_lt ha) h1, ?_, ?_⟩
      · intro o ho
        rcases List.mem_cons.mp ho with rfl | ho
        · exact h1
        · exact h2 o ho
      · right
        rcases h3 with h3 | ⟨o, ho, h3⟩
        · exact ⟨a, List.mem_cons_self _ _, h3⟩
        · exact ⟨o, List.mem_cons_of_mem _ ho, h3⟩
    · rw [if_neg ha]
      obtain ⟨h1, h2, h3⟩ := ih acc
      refine ⟨h1, ?_, ?_⟩
      · intro o ho
        rcases List.mem_cons.mp ho with rfl | ho
        · exact le_trans (not_lt.mp ha) h1
        · exact h2 o ho
      · rcases h3 with h3 | ⟨o, ho, h3⟩
        · exact Or.inl h3
        · exact Or.inr ⟨o, List.mem_cons_of_mem _ ho, h3⟩

/-- The loop of lines 209-214 yields the id of the OS window whose positive
`last_focused_counter` is strictly the greatest. -/
lemma focused_os_window_eq (gs : GlobalState) (focused_osw : OSWindow)
    (hmem : focused_osw ∈ gs.os_windows) (hpos : 0 < focused_osw.last_focused_counter)
    (hmax : ∀ o ∈ gs.os_windows, o ≠ focused_osw →
      o.last_focused_counter < focused_osw.last_focused_counter) :
    focused_os_window gs = focused_osw.id := by
  unfold focused_os_window
  obtain ⟨-, h2, h3⟩ := focused_fold_spec gs.os_windows (0, 0)
  have hge := h2 focused_osw hmem
  rcases h3 with h3 | ⟨o, ho, h3⟩
  · rw [h3] at hge
    simp at hge
    omega
  · rw [h3] at hge ⊢
    by_cases hEq : o = focused_osw
    · rw [hEq]
    · have := hmax o ho hEq
      simp at hge
      omega

/-- The loops of lines 222-227 and 251-256 find the OS window with the given id when
that id belongs to exactly one OS window. -/
lemma find_os_window_eq (gs : GlobalState) (osw : OSWindow) (hmem : osw ∈ gs.os_windows)
    (hid : ∀ o ∈ gs.os_windows, o.id = osw.id → o = osw) :
    find_os_window gs osw.id = some osw := by
  unfold find_os_window
  have key : ∀ (l : List OSWindow) (acc : Option OSWindow),
      (∀ o ∈ l, o.id = osw.id → o = osw) → (osw ∈ l ∨ acc = some osw) →
        l.foldl (fun acc o => if o.id = osw.id then some o else acc) acc = some osw := by
    intro l
    induction l with
    | nil =>
      intro acc _ h
      rcases h with h | h
      · simp at h
      · simpa using h
    | cons a t ih =>
      intro acc hl h
      rw [List.foldl_cons]
      apply ih _ (fun o ho => hl o (List.mem_cons_of_mem _ ho))
      by_cases ha : a.id = osw.id
      · right
        rw [if_pos ha, hl a (List.mem_cons_self _ _) ha]
      · rw [if_neg ha]
        rcases h with h | h
        · rcases List.mem_cons.mp h with h | h
          · exact absurd (by rw [h]) ha
          · exact Or.inl h
        · exact Or.inr h
  exact key _ _ hid (Or.inl hmem)

/-- C11 (amended): in every call of `update_cursor_trail` in which choreography is
enabled, the activation delay has elapsed, the owning OS window's id equals the
previously focused id (`chasing_condition`) and rendering is not paused, and in which
the focused OS window `focused_osw` is an OS window with a positive
`last_focused_counter` strictly greater than that of every other OS window and with an
id of its own, the call returns a result whose target is the cross-window projection
(`update_cursor_trail_target_in_another_window`) of the cursor of the active window of
the active tab of `focused_osw` into the owning window's geometry, with
`bias_x = focused.x - owning.x` and `bias_y = owning.y - focused.y` taken from the
`before_fullscreen` positions; the window's own cursor is not projected, the corners are
not overwritten before the easing and the global state is unchanged. -/
theorem update_cursor_trail_chasing (m : Libm) (gs : GlobalState) (ct : CursorTrail)
    (w : Window) (now : Int) (os_window : OSWindow) (focused_osw : OSWindow) (tgt_w : Window)
    (hchoreo : gs.opts.cursor_trail_choreographed = true)
    (hdelay : gs.opts.cursor_trail ≤
      now - w.render_data.screen.cursor.position_changed_by_client_at)
    (hprev : os_window.id = gs.prev_focused_os_window)
    (hpaused : w.render_data.screen.paused_rendering.expires_at = 0)
    (hmem : focused_osw ∈ gs.os_windows) (hpos : 0 < focused_osw.last_focused_counter)
    (hmax : ∀ o ∈ gs.os_windows, o ≠ focused_osw →
      o.last_focused_counter < focused_osw.last_focused_counter)
    (hid : ∀ o ∈ gs.os_windows, o.id = focused_osw.id → o = focused_osw)
    (hactive : active_window_of focused_osw = some tgt_w) :
    let projected := update_cursor_trail_target_in_another_window gs.opts ct tgt_w w
      (focused_osw.before_fullscreen.x - os_window.before_fullscreen.x)
      (os_window.before_fullscreen.y - focused_osw.before_fullscreen.y)
    ∃ r, update_cursor_trail m gs ct w now os_window = some r ∧
      r = finish_update m gs projected w now os_window ∧
      r.ct.cursor_edge_x = projected.cursor_edge_x ∧
      r.ct.cursor_edge_y = projected.cursor_edge_y ∧
      r.global_state = gs := by
  intro projected
  have hchase : chasing_condition gs w now os_window = true := by
    simp [chasing_condition, hchoreo, hdelay, hprev]
  have hfocus := focused_os_window_eq gs focused_osw hmem hpos hmax
  have hfind := find_os_window_eq gs focused_osw hmem hid
  have hres : resolve_target gs ct w now os_window = some (projected, gs) := by
    unfold resolve_target
    simp only [hchase, hpaused, hfocus, hfind, hactive, if_true]
  refine ⟨finish_update m gs projected w now os_window, ?_, rfl, ?_, ?_, rfl⟩
  · simp [update_cursor_trail, hres]
  · simp [finish_update, update_cursor_trail_needs_render]
  · simp [finish_update, update_cursor_trail_needs_render]

/-- C11 (witness): in `two_window_state` OS window 2 (counter 2, position (300,0), cursor
at grid (0,0)) is focused and OS window 1 (position (0,0)) was focused before.  The call
for window 1 returns a result whose target is the projection of window 2's cursor with
`bias_x = 300`, `bias_y = 0`: x edges `[300, 310]`, y edges `[100, 80]`. -/
theorem update_cursor_trail_chasing_witness :
    (example_os_window 2 2 true false 300 0 (example_window CURSOR_BLOCK 0 0 0 100 10 20))
      ∈ two_window_state.os_windows ∧
    (0 < (example_os_window 2 2 true false 300 0
      (example_window CURSOR_BLOCK 0 0 0 100 10 20)).last_focused_counter) ∧
    ∃ r, update_cursor_trail example_libm two_window_state example_trail
        (example_window CURSOR_BLOCK 2 1 0 100 10 20) 5
        (example_os_window 1 1 false false 0 0 (example_window CURSOR_BLOCK 2 1 0 100 10 20))
          = some r ∧
      r.ct.cursor_edge_x = ![300, 310] ∧ r.ct.cursor_edge_y = ![100, 80] ∧
      r.global_state = two_window_state := by
  have hmem : (example_os_window 2 2 true false 300 0
      (example_window CURSOR_BLOCK 0 0 0 100 10 20)) ∈ two_window_state.os_windows := by
    simp [two_window_state, example_global_state]
  have hpos : 0 < (example_os_window 2 2 true false 300 0
      (example_window CURSOR_BLOCK 0 0 0 100 10 20)).last_focused_counter := by
    simp [example_os_window]
  have hmax : ∀ o ∈ two_window_state.os_windows,
      o ≠ example_os_window 2 2 true false 300 0 (example_window CURSOR_BLOCK 0 0 0 100 10 20) →
      o.last_focused_counter <
        (example_os_window 2 2 true false 300 0
          (example_window CURSOR_BLOCK 0 0 0 100 10 20)).last_focused_counter := by
    intro o ho hne
    simp only [two_window_state, example_global_state, List.mem_cons, List.mem_singleton,
      List.not_mem_nil, or_false] at ho
    rcases ho with rfl | rfl
    · simp [example_os_window]
    · exact absurd rfl hne
  have hid : ∀ o ∈ two_window_state.os_windows,
      o.id = (example_os_window 2 2 true false 300 0
        (example_window CURSOR_BLOCK 0 0 0 100 10 20)).id →
      o = example_os_window 2 2 true false 300 0
        (example_window CURSOR_BLOCK 0 0 0 100 10 20) := by
    intro o ho hoid
    simp only [two_window_state, example_global_state, List.mem_cons, List.mem_singleton,
      List.not_mem_nil, or_false] at ho
    rcases ho with rfl | rfl
    · simp [example_os_window] at hoid
    · rfl
  obtain ⟨r, hr, -, hx, hy, hg⟩ := update_cursor_trail_chasing example_libm two_window_state
    example_trail (example_window CURSOR_BLOCK 2 1 0 100 10 20) 5
    (example_os_window 1 1 false false 0 0 (example_window CURSOR_BLOCK 2 1 0 100 10 20))
    (example_os_window 2 2 true false 300 0 (example_window CURSOR_BLOCK 0 0 0 100 10 20))
    (example_window CURSOR_BLOCK 0 0 0 100 10 20)
    rfl (by norm_num [two_window_state, example_global_state, choreographed_options,
      example_options, example_window]) rfl rfl hmem hpos hmax hid rfl
  refine ⟨hmem, hpos, r, hr, ?_, ?_, hg⟩
  · rw [hx]
    norm_num [update_cursor_trail_target_in_another_window, example_window, example_os_window,
      FLT_MAX]
  · rw [hy]
    norm_num [update_cursor_trail_target_in_another_window, example_window, example_os_window,
      FLT_MAX]

/-- C12: for every window whose cursor shape is none of Block, Hollow, Beam and
Underline, `update_cursor_trail_target` returns the trail state it was given: the four
cached target edges `cursor_edge_x[0..1]`, `cursor_edge_y[0..1]` are exactly as they
were.  The function is total, so the call does not fail. -/
theorem update_cursor_trail_target_unrecognized_shape (opts : Options) (ct : CursorTrail)
    (w : Window)
    (hshape : w.render_data.screen.cursor_render_info.shape ≠ CURSOR_BLOCK ∧
      w.render_data.screen.cursor_render_info.shape ≠ CURSOR_HOLLOW ∧
      w.render_data.screen.cursor_render_info.shape ≠ CURSOR_BEAM ∧
      w.render_data.screen.cursor_render_info.shape ≠ CURSOR_UNDERLINE) :
    update_cursor_trail_target opts ct w = ct ∧
    (update_cursor_trail_target opts ct w).cursor_edge_x 0 = ct.cursor_edge_x 0 ∧
    (update_cursor_trail_target opts ct w).cursor_edge_x 1 = ct.cursor_edge_x 1 ∧
    (update_cursor_trail_target opts ct w).cursor_edge_y 0 = ct.cursor_edge_y 0 ∧
    (update_cursor_trail_target opts ct w).cursor_edge_y 1 = ct.cursor_edge_y 1 := by
  have h : update_cursor_trail_target opts ct w = ct := by
    obtain ⟨h1, h2, h3, h4⟩ := hshape
    cases hs : w.render_data.screen.cursor_render_info.shape
    · simp only [update_cursor_trail_target, hs]
      simp
    · exact absurd hs h1
    · exact absurd hs h3
    · exact absurd hs h4
    · exact absurd hs h2
  rw [h]
  exact ⟨rfl, rfl, rfl, rfl, rfl⟩

/-- C12 (witness): a window without a recognised cursor shape leaves the target edges
`[0,10]`, `[100,80]` of the settled trail in place. -/
theorem update_cursor_trail_target_unrecognized_shape_witness :
    (update_cursor_trail_target example_options settled_trail
        (example_window NO_CURSOR_SHAPE 3 4 0 100 10 20)).cursor_edge_x = ![0, 10] ∧
    (update_cursor_trail_target example_options settled_trail
        (example_window NO_CURSOR_SHAPE 3 4 0 100 10 20)).cursor_edge_y = ![100, 80] := by
  have h := (update_cursor_trail_target_unrecognized_shape example_options settled_trail
    (example_window NO_CURSOR_SHAPE 3 4 0 100 10 20)
    ⟨by simp [example_window], by simp [example_window], by simp [example_window],
      by simp [example_window]⟩).1
  rw [h]
  exact ⟨rfl, rfl⟩

/-- C13 (counterexample): a trail last updated at 2 s is updated with `now` = 1 s (in
nanoseconds; Block cursor at grid (0,0), `dx=10`, `dy=20`, no live resize).  Line 327
stores `now` unconditionally, so `updated_at` drops from 2000000000 to 1000000000. -/
theorem update_cursor_trail_updated_at_counterexample :
    (update_cursor_trail example_libm
        (example_global_state example_options
          [example_os_window 1 1 true false 0 0 (example_window CURSOR_BLOCK 0 0 0 100 10 20)]
          0 0)
        { example_trail with updated_at := 2000000000 }
        (example_window CURSOR_BLOCK 0 0 0 100 10 20) 1000000000
        (example_os_window 1 1 true false 0 0
          (example_window CURSOR_BLOCK 0 0 0 100 10 20))).map (fun r => r.ct.updated_at)
      = some 1000000000 ∧
    (1000000000 : Int) < ({ example_trail with updated_at := 2000000000 } : CursorTrail).updated_at := by
  constructor
  · simp [update_cursor_trail, resolve_target, chasing_condition, local_condition,
      snapshot_condition, example_global_state, example_options, example_window,
      finish_update, update_cursor_trail_needs_render]
  · norm_num

/-- C13 (amended): a result of `update_cursor_trail` exists whenever the active tab and
window of every OS window are in range, and in every result `updated_at` equals `now`;
hence for every call with `now` not earlier than `updated_at` before the call,
`updated_at` after the call is greater than or equal to `updated_at` before it. -/
theorem update_cursor_trail_updated_at (m : Libm) (gs : GlobalState) (ct : CursorTrail)
    (w : Window) (now : Int) (os_window : OSWindow) :
    (tabs_in_range gs = true → ∃ r, update_cursor_trail m gs ct w now os_window = some r) ∧
    (∀ r, update_cursor_trail m gs ct w now os_window = some r →
      r.ct.updated_at = now ∧ (ct.updated_at ≤ now → ct.updated_at ≤ r.ct.updated_at)) := by
  constructor
  · intro hwf
    exact Option.isSome_iff_exists.mp (update_cursor_trail_isSome m gs ct w now os_window hwf)
  · intro r hr
    obtain ⟨ct0, gs0, -, rfl⟩ := update_cursor_trail_eq_some m gs ct w now os_window r hr
    have h : (finish_update m gs0 ct0 w now os_window).ct.updated_at = now := by
      simp [finish_update, update_cursor_trail_needs_render]
    exact ⟨h, fun hle => by rw [h]; exact hle⟩

/-- C13 (witness): a trail last updated at time 0 is updated at `now = 5`; the call
returns a result and `updated_at` becomes 5. -/
theorem update_cursor_trail_updated_at_witness :
    example_trail.updated_at ≤ 5 ∧
    (update_cursor_trail example_libm
        (example_global_state example_options
          [example_os_window 1 1 true false 0 0 (example_window CURSOR_BLOCK 0 0 0 100 10 20)]
          0 0)
        example_trail (example_window CURSOR_BLOCK 0 0 0 100 10 20) 5
        (example_os_window 1 1 true false 0 0
          (example_window CURSOR_BLOCK 0 0 0 100 10 20))).map (fun r => r.ct.updated_at)
      = some 5 := by
  have h := update_cursor_trail_updated_at example_libm
    (example_global_state example_options
      [example_os_window 1 1 true false 0 0 (example_window CURSOR_BLOCK 0 0 0 100 10 20)] 0 0)
    example_trail (example_window CURSOR_BLOCK 0 0 0 100 10 20) 5
    (example_os_window 1 1 true false 0 0 (example_window CURSOR_BLOCK 0 0 0 100 10 20))
  obtain ⟨r, hr⟩ := h.1 (by
    simp [tabs_in_range, example_global_state, example_os_window, active_window_of])
  refine ⟨by norm_num [example_trail], ?_⟩
  rw [hr]
  simp [(h.2 r hr).1]

/-- The rounding of `c_round` moves its argument by at most one half. -/
lemma c_round_near (q : ℚ) : |((c_round q : Int) : ℚ) - q| ≤ 1 / 2 := by
  unfold c_round
  split_ifs with h
  · have h1 := Int.floor_le (q + 1 / 2)
    have h2 := Int.lt_floor_add_one (q + 1 / 2)
    rw [abs_le]
    constructor <;> linarith
  · have h1 := Int.le_ceil (q - 1 / 2)
    have h2 := Int.ceil_lt_add_one (q - 1 / 2)
    rw [abs_le]
    constructor <;> linarith

/-- A value between 0 and `INT_MAX` is not changed by the 32-bit wrap-around. -/
lemma wrap_int_of_range (v : Int) (h0 : 0 ≤ v) (h1 : v ≤ INT_MAX) : wrap_int v = v := by
  unfold wrap_int
  unfold INT_MAX at h1
  unfold INT_MIN
  omega

/-- A value of absolute value at most `INT_MAX` survives the `(int)` conversion, and
its `abs` is its absolute value. -/
lemma int_abs_double_to_int (v : Int) (h : |v| ≤ INT_MAX) :
    int_abs (double_to_int v) = |v| := by
  have h2 : INT_MIN ≤ v ∧ v ≤ INT_MAX := by
    have h3 := abs_le.mp h
    simp only [INT_MIN, INT_MAX] at h3 ⊢
    constructor <;> omega
  unfold double_to_int int_abs
  rw [if_pos h2]
  exact wrap_int_of_range _ (abs_nonneg v) h

/-- C14 (counterexample): start threshold 1, `needs_render` false, no live resize, target
edges at 0.  First, `dx = dy = 1` and corner 0 at (3000000000, 0): the x quotient rounds
to 3000000000, outside the range of `int`; the conversion gives `INT_MIN`, whose `abs`
is `INT_MIN`, the sum is negative and the policy fires although the distance in cells
exceeds the threshold.  Second, `dx = 0`, `dy = 1` and corner 0 at (5,5): the x quotient
is infinite, its conversion again gives `INT_MIN` and the policy fires although the y
distance alone, 5 cells, exceeds the threshold. -/
theorem should_skip_cursor_trail_update_int_counterexample :
    (should_skip_cursor_trail_update { example_options with cursor_trail_start_threshold := 1 }
        { example_trail with corner_x := ![3000000000, 0, 0, 0] }
        (example_window CURSOR_BLOCK 0 0 0 100 1 1)
        (example_os_window 1 1 true false 0 0 (example_window CURSOR_BLOCK 0 0 0 100 1 1))
      = true ∧
    ¬ (|c_round (((3000000000 : ℚ) - 0) / 1)| + |c_round (((0 : ℚ) - 0) / 1)| ≤ 1)) ∧
    (should_skip_cursor_trail_update { example_options with cursor_trail_start_threshold := 1 }
        { example_trail with corner_x := ![5, 0, 0, 0], corner_y := ![5, 0, 0, 0] }
        (example_window CURSOR_BLOCK 0 0 0 100 0 1)
        (example_os_window 1 1 true false 0 0 (example_window CURSOR_BLOCK 0 0 0 100 0 1))
      = true ∧
    ¬ (|c_round (((5 : ℚ) - 0) / 1)| ≤ 1)) := by
  refine ⟨⟨?_, ?_⟩, ?_, ?_⟩
  · norm_num [should_skip_cursor_trail_update, cells_between, round_to_int, double_to_int,
      c_round, wrap_int, int_abs, INT_MIN, INT_MAX, example_options, example_trail,
      example_window, example_os_window]
  · norm_num [c_round]
  · norm_num [should_skip_cursor_trail_update, cells_between, round_to_int, double_to_int,
      c_round, wrap_int, int_abs, INT_MIN, INT_MAX, example_options, example_trail,
      example_window, example_os_window]
  · norm_num [c_round]

/-- C14 (amended): for every state in which the owning window's `dx` and `dy` are
non-zero and the two quotients, rounded to whole cells (halfway cases away from zero),
have absolute values whose sum is at most `INT_MAX`,
`should_skip_cursor_trail_update` returns true iff the live-resize flag of the OS window
is set, or `cursor_trail_start_threshold > 0` and `needs_render` is false and
`|round((corner_x[0] - target_right)/dx)| + |round((corner_y[0] - target_top)/dy)|` is
at most the threshold, where the target right edge is `cursor_edge_x[1]`, the target top
edge is `cursor_edge_y[0]`, and each rounded quotient is within one half of the exact
quotient. -/
theorem should_skip_cursor_trail_update_iff (opts : Options) (ct : CursorTrail) (w : Window)
    (os_window : OSWindow)
    (hdx : w.render_data.dx ≠ 0) (hdy : w.render_data.dy ≠ 0)
    (hrange : |c_round ((ct.corner_x 0 - ct.cursor_edge_x 1) / w.render_data.dx)| +
      |c_round ((ct.corner_y 0 - ct.cursor_edge_y 0) / w.render_data.dy)| ≤ INT_MAX) :
    (should_skip_cursor_trail_update opts ct w os_window = true ↔
      (os_window.live_resize.in_progress = true ∨
        (0 < opts.cursor_trail_start_threshold ∧ ct.needs_render = false ∧
          |c_round ((ct.corner_x 0 - ct.cursor_edge_x 1) / w.render_data.dx)| +
            |c_round ((ct.corner_y 0 - ct.cursor_edge_y 0) / w.render_data.dy)| ≤
              opts.cursor_trail_start_threshold))) ∧
    |((c_round ((ct.corner_x 0 - ct.cursor_edge_x 1) / w.render_data.dx) : Int) : ℚ) -
        (ct.corner_x 0 - ct.cursor_edge_x 1) / w.render_data.dx| ≤ 1 / 2 ∧
    |((c_round ((ct.corner_y 0 - ct.cursor_edge_y 0) / w.render_data.dy) : Int) : ℚ) -
        (ct.corner_y 0 - ct.cursor_edge_y 0) / w.render_data.dy| ≤ 1 / 2 := by
  refine ⟨?_, c_round_near _, c_round_near _⟩
  have hx0 := abs_nonneg (c_round ((ct.corner_x 0 - ct.cursor_edge_x 1) / w.render_data.dx))
  have hy0 := abs_nonneg (c_round ((ct.corner_y 0 - ct.cursor_edge_y 0) / w.render_data.dy))
  have hx := int_abs_double_to_int
    (c_round ((ct.corner_x 0 - ct.cursor_edge_x 1) / w.render_data.dx)) (by linarith)
  have hy := int_abs_double_to_int
    (c_round ((ct.corner_y 0 - ct.cursor_edge_y 0) / w.render_data.dy)) (by linarith)
  have hsum : wrap_int
      (int_abs (cells_between (ct.corner_x 0 - ct.cursor_edge_x 1) w.render_data.dx) +
        int_abs (cells_between (ct.corner_y 0 - ct.cursor_edge_y 0) w.render_data.dy)) =
      |c_round ((ct.corner_x 0 - ct.cursor_edge_x 1) / w.render_data.dx)| +
        |c_round ((ct.corner_y 0 - ct.cursor_edge_y 0) / w.render_data.dy)| := by
    simp only [cells_between, if_neg hdx, if_neg hdy, round_to_int]
    rw [hx, hy]
    exact wrap_int_of_range _ (by linarith) hrange
  unfold should_skip_cursor_trail_update
  dsimp only
  rw [hsum]
  by_cases hl : os_window.live_resize.in_progress = true
  · simp [hl]
  · by_cases hc : 0 < opts.cursor_trail_start_threshold ∧ ct.needs_render = false
    · simp [hl, hc.1, hc.2]
    · rw [if_neg hl, if_neg hc]
      constructor
      · intro h; cases h
      · rintro (h | ⟨h1, h2, -⟩)
        · exact absurd h hl
        · exact absurd ⟨h1, h2⟩ hc

/-- C14 (witness): no live resize, `needs_render` false, target edges `[0,10]`,
`[100,80]`, `dx=10`, `dy=20`, corner 0 on the target top edge.  With threshold 2 and
corner 0 at x = 25 the quotient 1.5 rounds to 2 and the policy fires.  With threshold 1
and corner 0 at x = -5 the quotient -1.5 rounds away from zero to -2 (rounding half up
would give -1) and the policy does not fire.  With threshold 2 and corner 0 at x = 35
the quotient 2.5 rounds away from zero to 3 (rounding half to even would give 2) and the
policy does not fire. -/
theorem should_skip_cursor_trail_update_iff_witness :
    should_skip_cursor_trail_update { example_options with cursor_trail_start_threshold := 2 }
        { example_trail with
          corner_x := ![25, 10, 0, 0], corner_y := ![100, 80, 80, 100],
          cursor_edge_x := ![0, 10], cursor_edge_y := ![100, 80] }
        (example_window CURSOR_BLOCK 0 0 0 100 10 20)
        (example_os_window 1 1 true false 0 0 (example_window CURSOR_BLOCK 0 0 0 100 10 20))
      = true ∧
    should_skip_cursor_trail_update { example_options with cursor_trail_start_threshold := 1 }
        { example_trail with
          corner_x := ![-5, 10, 0, 0], corner_y := ![100, 80, 80, 100],
          cursor_edge_x := ![0, 10], cursor_edge_y := ![100, 80] }
        (example_window CURSOR_BLOCK 0 0 0 100 10 20)
        (example_os_window 1 1 true false 0 0 (example_window CURSOR_BLOCK 0 0 0 100 10 20))
      = false ∧
    should_skip_cursor_trail_update { example_options with cursor_trail_start_threshold := 2 }
        { example_trail with
          corner_x := ![35, 10, 0, 0], corner_y := ![100, 80, 80, 100],
          cursor_edge_x := ![0, 10], cursor_edge_y := ![100, 80] }
        (example_window CURSOR_BLOCK 0 0 0 100 10 20)
        (example_os_window 1 1 true false 0 0 (example_window CURSOR_BLOCK 0 0 0 100 10 20))
      = false := by
  refine ⟨?_, ?_, ?_⟩
  · rw [(should_skip_cursor_trail_update_iff _ _ _ _
      (by norm_num [example_window]) (by norm_num [example_window])
      (by norm_num [example_trail, example_window, c_round, INT_MAX, Int.ceil_neg])).1]
    right
    norm_num [example_options, example_trail, example_window, c_round]
  · rw [← Bool.not_eq_true, (should_skip_cursor_trail_update_iff _ _ _ _
      (by norm_num [example_window]) (by norm_num [example_window])
      (by norm_num [example_trail, example_window, c_round, INT_MAX, Int.ceil_neg])).1]
    norm_num [example_options, example_trail, example_window, example_os_window, c_round,
      Int.ceil_neg]
  · rw [← Bool.not_eq_true, (should_skip_cursor_trail_update_iff _ _ _ _
      (by norm_num [example_window]) (by norm_num [example_window])
      (by norm_num [example_trail, example_window, c_round, INT_MAX, Int.ceil_neg])).1]
    norm_num [example_options, example_trail, example_window, example_os_window, c_round,
      Int.ceil_neg]

/-- C19: when the snapshot branch of `update_cursor_trail` runs, with `prev` the
previously focused OS window found by the loop of lines 251-256 and `pw` its active
window, the call returns the easing of lines 321-330 applied to a trail whose corners
are, for each of the four shapes of `pw`'s cursor, the corners (0 = right/top,
1 = right/bottom, 2 = left/bottom, 3 = left/top) of the rectangle
`left = xstart + col*dx`, `bottom = ystart - (row+1)*dy`, `right`/`top` as in the Edge
Projector, computed from `pw`'s shape and grid position in the owning window's geometry
and translated by `x += (prev.x - own.x)*dx/cell_width`,
`y -= (prev.y - own.y)*dy/cell_height`; the projection of the window's own cursor that
follows does not move the corners, and the latch `origin_of_trail` of the result is the
previously focused id. -/
theorem update_cursor_trail_snapshot_geometry (m : Libm) (gs : GlobalState)
    (ct : CursorTrail) (w : Window) (now : Int) (os_window : OSWindow)
    (prev : OSWindow) (pw : Window)
    (hrun : snapshot_runs gs w now os_window = true)
    (hfind : find_os_window gs gs.prev_focused_os_window = some prev)
    (hactive : active_window_of prev = some pw) :
    let WD := w.render_data
    let shape := pw.render_data.screen.cursor_render_info.shape
    let tx : ℚ := ((prev.before_fullscreen.x - os_window.before_fullscreen.x : Int) : ℚ) *
      WD.dx / (WD.screen.cell_size.width : ℚ)
    let ty : ℚ := ((prev.before_fullscreen.y - os_window.before_fullscreen.y : Int) : ℚ) *
      WD.dy / (WD.screen.cell_size.height : ℚ)
    let left : ℚ := WD.xstart + (pw.render_data.screen.cursor_render_info.x : ℚ) * WD.dx
    let bottom : ℚ :=
      WD.ystart - ((pw.render_data.screen.cursor_render_info.y : ℚ) + 1) * WD.dy
    let snap := snapshot_corners gs.opts ct w pw
      os_window.before_fullscreen.x os_window.before_fullscreen.y
      prev.before_fullscreen.x prev.before_fullscreen.y
    let before_easing := update_cursor_trail_target gs.opts snap w
    update_cursor_trail m gs ct w now os_window =
      some (finish_update m { gs with origin_of_trail := gs.prev_focused_os_window }
        before_easing w now os_window) ∧
    (finish_update m { gs with origin_of_trail := gs.prev_focused_os_window }
        before_easing w now os_window).global_state.origin_of_trail =
      gs.prev_focused_os_window ∧
    (before_easing.corner_x = snap.corner_x ∧ before_easing.corner_y = snap.corner_y) ∧
    (shape = CURSOR_BLOCK ∨ shape = CURSOR_HOLLOW →
      snap.corner_x = ![left + WD.dx + tx, left + WD.dx + tx, left + tx, left + tx] ∧
      snap.corner_y =
        ![bottom + WD.dy - ty, bottom - ty, bottom - ty, bottom + WD.dy - ty]) ∧
    (shape = CURSOR_BEAM →
      snap.corner_x =
        ![left + WD.dx / (WD.screen.cell_size.width : ℚ) * gs.opts.cursor_beam_thickness + tx,
          left + WD.dx / (WD.screen.cell_size.width : ℚ) * gs.opts.cursor_beam_thickness + tx,
          left + tx, left + tx] ∧
      snap.corner_y =
        ![bottom + WD.dy - ty, bottom - ty, bottom - ty, bottom + WD.dy - ty]) ∧
    (shape = CURSOR_UNDERLINE →
      snap.corner_x = ![left + WD.dx + tx, left + WD.dx + tx, left + tx, left + tx] ∧
      snap.corner_y =
        ![bottom + WD.dy / (WD.screen.cell_size.height : ℚ) *
              gs.opts.cursor_underline_thickness - ty,
          bottom - ty, bottom - ty,
          bottom + WD.dy / (WD.screen.cell_size.height : ℚ) *
              gs.opts.cursor_underline_thickness - ty]) := by
  intro WD shape tx ty left bottom snap before_easing
  simp only [snapshot_runs, Bool.and_eq_true, Bool.not_eq_true'] at hrun
  obtain ⟨⟨⟨hchase, hlocal⟩, hsnap⟩, -⟩ := hrun
  have hres : resolve_target gs ct w now os_window =
      some (before_easing, { gs with origin_of_trail := gs.prev_focused_os_window }) := by
    unfold resolve_target
    simp only [hchase, hlocal, hsnap, hfind, hactive, if_true]
    simp [before_easing, snap]
  refine ⟨?_, rfl, ⟨?_, ?_⟩, ?_, ?_, ?_⟩
  · simp [update_cursor_trail, hres]
  · simp [before_easing]
  · simp [before_easing]
  · rintro (h | h) <;>
      simp only [snap, snapshot_corners, show pw.render_data.screen.cursor_render_info.shape = _
        from h] <;>
      constructor <;> funext i <;> fin_cases i <;>
      simp [WD, left, bottom, tx, ty] <;> ring
  · intro h
    simp only [snap, snapshot_corners, show pw.render_data.screen.cursor_render_info.shape = _
        from h]
    constructor <;> funext i <;> fin_cases i <;>
      simp [WD, left, bottom, tx, ty] <;> ring
  · intro h
    simp only [snap, snapshot_corners, show pw.render_data.screen.cursor_render_info.shape = _
        from h]
    constructor <;> funext i <;> fin_cases i <;>
      simp [WD, left, bottom, tx, ty] <;> ring

/-- C19 (witness): in `two_window_state` the call for the focused OS window 2 (position
(300,0)) takes its snapshot from OS window 1 (position (0,0), Block cursor at grid
(2,1)): with `dx=10`, `dy=20`, `xstart=0`, `ystart=100` and cells of 10 by 20 pixels the
rectangle has left 20, right 30, top 80, bottom 60 and is translated by -300 in x, so
the corners are (-270,80), (-270,60), (-280,60), (-280,80). -/
theorem update_cursor_trail_snapshot_geometry_witness :
    snapshot_runs two_window_state (example_window CURSOR_BLOCK 0 0 0 100 10 20) 5
        (example_os_window 2 2 true false 300 0 (example_window CURSOR_BLOCK 0 0 0 100 10 20))
      = true ∧
    (snapshot_corners two_window_state.opts example_trail
        (example_window CURSOR_BLOCK 0 0 0 100 10 20)
        (example_window CURSOR_BLOCK 2 1 0 100 10 20) 300 0 0 0).corner_x
      = ![-270, -270, -280, -280] ∧
    (snapshot_corners two_window_state.opts example_trail
        (example_window CURSOR_BLOCK 0 0 0 100 10 20)
        (example_window CURSOR_BLOCK 2 1 0 100 10 20) 300 0 0 0).corner_y
      = ![80, 60, 60, 80] := by
  have hrun : snapshot_runs two_window_state (example_window CURSOR_BLOCK 0 0 0 100 10 20) 5
        (example_os_window 2 2 true false 300 0 (example_window CURSOR_BLOCK 0 0 0 100 10 20))
      = true := by
    simp [snapshot_runs, chasing_condition, local_condition, snapshot_condition,
      focused_os_window, find_os_window, two_window_state, example_global_state,
      choreographed_options, example_options, example_os_window, example_window]
  have hfind : find_os_window two_window_state two_window_state.prev_focused_os_window =
      some (example_os_window 1 1 false false 0 0
        (example_window CURSOR_BLOCK 2 1 0 100 10 20)) := by
    simp [find_os_window, two_window_state, example_global_state, example_os_window]
  have h := update_cursor_trail_snapshot_geometry example_libm two_window_state example_trail
    (example_window CURSOR_BLOCK 0 0 0 100 10 20) 5
    (example_os_window 2 2 true false 300 0 (example_window CURSOR_BLOCK 0 0 0 100 10 20))
    (example_os_window 1 1 false false 0 0 (example_window CURSOR_BLOCK 2 1 0 100 10 20))
    (example_window CURSOR_BLOCK 2 1 0 100 10 20) hrun hfind rfl
  have hb := h.2.2.2.1 (Or.inl rfl)
  refine ⟨hrun, ?_, ?_⟩
  · have hx := hb.1
    simp only [example_os_window] at hx
    rw [hx]
    norm_num [example_window]
  · have hy := hb.2
    simp only [example_os_window] at hy
    rw [hy]
    norm_num [example_window]

/-- The square root of `exact_libm` at 100 and at 25. -/
lemma exact_libm_sqrtf_values : exact_libm.sqrtf 100 = 10 ∧ exact_libm.sqrtf 25 = 5 := by
  have h100 : Nat.sqrt 100 = 10 := Nat.sqrt_eq 10
  have h25 : Nat.sqrt 25 = 5 := Nat.sqrt_eq 5
  constructor
  · simp [exact_libm, h100]
  · simp [exact_libm, h25]

/-- The alignment scores of `leading_trail`: 1 for corner 0, 0 for the corners that are
on their target. -/
lemma leading_trail_dot :
    corner_dot exact_libm leading_trail 0 = 1 ∧ corner_dot exact_libm leading_trail 1 = 0 ∧
    corner_dot exact_libm leading_trail 2 = 0 ∧ corner_dot exact_libm leading_trail 3 = 0 := by
  obtain ⟨h100, h25⟩ := exact_libm_sqrtf_values
  refine ⟨?_, ?_, ?_, ?_⟩
  · norm_num [corner_dot, corner_converged, corner_dx, corner_dy, cursor_center_x,
      cursor_center_y, cursor_diag_2, norm, leading_trail, corner_index, h100, h25]
  · norm_num [corner_dot, corner_converged, leading_trail, corner_index]
  · norm_num [corner_dot, corner_converged, leading_trail, corner_index]
  · norm_num [corner_dot, corner_converged, leading_trail, corner_index]

/-- The loop of lines 144-148 for `min_dot`, written out. -/
lemma min_dot_eq (m : Libm) (ct : CursorTrail) :
    min_dot m ct =
      min (min (min (min FLT_MAX (corner_dot m ct 0)) (corner_dot m ct 1)) (corner_dot m ct 2))
        (corner_dot m ct 3) := rfl

/-- The loop of lines 144-148 for `max_dot`, written out. -/
lemma max_dot_eq (m : Libm) (ct : CursorTrail) :
    max_dot m ct =
      max (max (max (max (-FLT_MAX) (corner_dot m ct 0)) (corner_dot m ct 1))
        (corner_dot m ct 2)) (corner_dot m ct 3) := rfl

/-- The minimum `min_dot` is a lower bound of every score. -/
lemma min_dot_le (m : Libm) (ct : CursorTrail) (i : Fin 4) :
    min_dot m ct ≤ corner_dot m ct i := by
  rw [min_dot_eq]
  fin_cases i <;> simp

/-- The maximum `max_dot` is an upper bound of every score. -/
lemma le_max_dot (m : Libm) (ct : CursorTrail) (i : Fin 4) :
    corner_dot m ct i ≤ max_dot m ct := by
  rw [max_dot_eq]
  fin_cases i <;> simp

/-- The decay constant of every corner lies between `decay_fast` and `decay_slow`. -/
lemma corner_decay_between (m : Libm) (opts : Options) (ct : CursorTrail) (i : Fin 4) :
    min opts.cursor_trail_decay_fast opts.cursor_trail_decay_slow ≤ corner_decay m opts ct i ∧
    corner_decay m opts ct i ≤ max opts.cursor_trail_decay_fast opts.cursor_trail_decay_slow := by
  unfold corner_decay
  dsimp only
  split_ifs with h
  · exact ⟨min_le_right _ _, le_max_right _ _⟩
  · have hlo := min_dot_le m ct i
    have hhi := le_max_dot m ct i
    have hpos : 0 < max_dot m ct - min_dot m ct := by
      have : min_dot m ct ≤ max_dot m ct := le_trans hlo hhi
      rcases lt_or_eq_of_le this with h1 | h1
      · linarith
      · exact absurd h1 h
    have ht0 : 0 ≤ (corner_dot m ct i - min_dot m ct) / (max_dot m ct - min_dot m ct) :=
      div_nonneg (by linarith) hpos.le
    have ht1 : (corner_dot m ct i - min_dot m ct) / (max_dot m ct - min_dot m ct) ≤ 1 := by
      rw [div_le_one hpos]; linarith
    have e : opts.cursor_trail_decay_slow +
        (opts.cursor_trail_decay_fast - opts.cursor_trail_decay_slow) *
          (corner_dot m ct i - min_dot m ct) / (max_dot m ct - min_dot m ct) =
        opts.cursor_trail_decay_slow +
          (opts.cursor_trail_decay_fast - opts.cursor_trail_decay_slow) *
            ((corner_dot m ct i - min_dot m ct) / (max_dot m ct - min_dot m ct)) := by
      rw [mul_div_assoc]
    rw [e]
    rcases le_total opts.cursor_trail_decay_fast opts.cursor_trail_decay_slow with hfs | hfs
    · rw [min_eq_left hfs, max_eq_right hfs]
      constructor <;> nlinarith
    · rw [min_eq_right hfs, max_eq_left hfs]
      constructor <;> nlinarith

/-- The extreme scores of `leading_trail`: `min_dot = 0` and `max_dot = 1`. -/
lemma leading_trail_min_max :
    min_dot exact_libm leading_trail = 0 ∧ max_dot exact_libm leading_trail = 1 := by
  obtain ⟨h0, h1, h2, h3⟩ := leading_trail_dot
  constructor
  · rw [min_dot_eq, h0, h1, h2, h3]
    norm_num [FLT_MAX]
  · rw [max_dot_eq, h0, h1, h2, h3]
    norm_num [FLT_MAX]

/-- The loop of lines 144-148 for `min_dot` with NaN scores skipped, written out. -/
lemma min_dot_ieee_eq (m : Libm) (ct : CursorTrail) :
    min_dot_ieee m ct =
      fminf_ieee (fminf_ieee (fminf_ieee (fminf_ieee FLT_MAX (corner_dot_ieee m ct 0))
        (corner_dot_ieee m ct 1)) (corner_dot_ieee m ct 2)) (corner_dot_ieee m ct 3) := rfl

/-- The loop of lines 144-148 for `max_dot` with NaN scores skipped, written out. -/
lemma max_dot_ieee_eq (m : Libm) (ct : CursorTrail) :
    max_dot_ieee m ct =
      fmaxf_ieee (fmaxf_ieee (fmaxf_ieee (fmaxf_ieee (-FLT_MAX) (corner_dot_ieee m ct 0))
        (corner_dot_ieee m ct 1)) (corner_dot_ieee m ct 2)) (corner_dot_ieee m ct 3) := rfl

/-- With a non-zero half-diagonal every score is a number, the one of `corner_dot`. -/
lemma corner_dot_ieee_of_diag_ne_zero (m : Libm) (ct : CursorTrail)
    (hd : cursor_diag_2 m ct ≠ 0) (i : Fin 4) :
    corner_dot_ieee m ct i = some (corner_dot m ct i) := by
  unfold corner_dot_ieee corner_dot
  split_ifs <;> rfl

/-- With a zero half-diagonal the score of a converged corner is 0 and the score of
every other corner is NaN. -/
lemma corner_dot_ieee_of_diag_zero (m : Libm) (ct : CursorTrail)
    (hd : cursor_diag_2 m ct = 0) (i : Fin 4) :
    corner_dot_ieee m ct i = if corner_converged ct i then some 0 else none := by
  unfold corner_dot_ieee
  split_ifs <;> rfl

/-- With a zero half-diagonal every score read as an exact quotient is 0. -/
lemma corner_dot_of_diag_zero (m : Libm) (ct : CursorTrail)
    (hd : cursor_diag_2 m ct = 0) (i : Fin 4) : corner_dot m ct i = 0 := by
  unfold corner_dot
  split_ifs
  · rfl
  · rw [hd, div_zero, zero_div]

/-- With a non-zero half-diagonal the extremes with NaN skipped are `min_dot` and
`max_dot`. -/
lemma min_max_dot_ieee_of_diag_ne_zero (m : Libm) (ct : CursorTrail)
    (hd : cursor_diag_2 m ct ≠ 0) :
    min_dot_ieee m ct = min_dot m ct ∧ max_dot_ieee m ct = max_dot m ct := by
  constructor
  · rw [min_dot_ieee_eq, min_dot_eq]
    simp only [corner_dot_ieee_of_diag_ne_zero m ct hd, fminf_ieee]
  · rw [max_dot_ieee_eq, max_dot_eq]
    simp only [corner_dot_ieee_of_diag_ne_zero m ct hd, fmaxf_ieee]

/-- With a zero half-diagonal either no corner has converged, every score is NaN and the
extremes keep their initial values, or some corner has converged and both extremes are
0. -/
lemma min_max_dot_ieee_of_diag_zero (m : Libm) (ct : CursorTrail)
    (hd : cursor_diag_2 m ct = 0) :
    ((∀ i, corner_converged ct i = false) ∧
        min_dot_ieee m ct = FLT_MAX ∧ max_dot_ieee m ct = -FLT_MAX) ∨
    ((∃ i, corner_converged ct i = true) ∧
        min_dot_ieee m ct = 0 ∧ max_dot_ieee m ct = 0) := by
  rw [min_dot_ieee_eq, max_dot_ieee_eq]
  simp only [corner_dot_ieee_of_diag_zero m ct hd]
  have hF : min FLT_MAX (0 : ℚ) = 0 := by norm_num [FLT_MAX]
  have hG : max (-FLT_MAX) (0 : ℚ) = 0 := by norm_num [FLT_MAX]
  cases h0 : corner_converged ct 0 <;> cases h1 : corner_converged ct 1 <;>
    cases h2 : corner_converged ct 2 <;> cases h3 : corner_converged ct 3
  · left
    refine ⟨?_, ?_, ?_⟩
    · intro i; fin_cases i <;> assumption
    · simp [fminf_ieee]
    · simp [fmaxf_ieee]
  all_goals
    right
    refine ⟨?_, ?_, ?_⟩
    · first
        | exact ⟨0, h0⟩
        | exact ⟨1, h1⟩
        | exact ⟨2, h2⟩
        | exact ⟨3, h3⟩
    · simp [fminf_ieee, hF]
    · simp [fmaxf_ieee, hG]

/-- Whenever the sentinel test `min_dot == FLT_MAX` of line 151 fails, the extremes with
NaN skipped are `min_dot` and `max_dot`. -/
lemma min_max_dot_ieee_eq (m : Libm) (ct : CursorTrail)
    (hs : min_dot_ieee m ct ≠ FLT_MAX) :
    min_dot_ieee m ct = min_dot m ct ∧ max_dot_ieee m ct = max_dot m ct := by
  by_cases hd : cursor_diag_2 m ct = 0
  · rcases min_max_dot_ieee_of_diag_zero m ct hd with ⟨-, h, -⟩ | ⟨-, h1, h2⟩
    · exact absurd h hs
    · rw [h1, h2, min_dot_eq, max_dot_eq]
      simp only [corner_dot_of_diag_zero m ct hd]
      constructor <;> norm_num [FLT_MAX]
  · exact min_max_dot_ieee_of_diag_ne_zero m ct hd

/-- For every corner that line 151 does not skip, the decay as an IEEE value is the
number `corner_decay`. -/
lemma corner_decay_ieee_of_eased (m : Libm) (opts : Options) (ct : CursorTrail) (i : Fin 4)
    (heased : corner_untouched m ct i = false) :
    corner_decay_ieee m opts ct i = some (corner_decay m opts ct i) := by
  have hs : min_dot_ieee m ct ≠ FLT_MAX := by
    intro h
    simp [corner_untouched, h] at heased
  obtain ⟨hmin, hmax⟩ := min_max_dot_ieee_eq m ct hs
  unfold corner_decay_ieee corner_decay
  dsimp only
  rw [hmin, hmax]
  by_cases he : min_dot m ct = max_dot m ct
  · rw [if_pos he, if_pos he]
  · rw [if_neg he, if_neg he]
    have hd : cursor_diag_2 m ct ≠ 0 := by
      intro hd
      rcases min_max_dot_ieee_of_diag_zero m ct hd with ⟨-, h, -⟩ | ⟨-, h1, h2⟩
      · exact hs h
      · exact he (by rw [← hmin, ← hmax, h1, h2])
    rw [corner_dot_ieee_of_diag_ne_zero m ct hd]

/-- The values that the loop of lines 150-161 stores are numbers, whatever the state: as
IEEE values they are the corners of `update_cursor_trail_corners`. -/
lemma eased_corner_ieee_eq (m : Libm) (opts : Options) (ct : CursorTrail) (dt : ℚ)
    (i : Fin 4) :
    eased_corner_x_ieee m opts ct dt i =
      some (if corner_untouched m ct i then ct.corner_x i
        else ct.corner_x i + corner_dx ct i * corner_step m opts ct dt i) ∧
    eased_corner_y_ieee m opts ct dt i =
      some (if corner_untouched m ct i then ct.corner_y i
        else ct.corner_y i + corner_dy ct i * corner_step m opts ct dt i) := by
  unfold eased_corner_x_ieee eased_corner_y_ieee
  cases hun : corner_untouched m ct i
  · constructor <;>
      simp only [Bool.false_eq_true, if_false, corner_step_ieee,
        corner_decay_ieee_of_eased m opts ct i hun, Option.map_some', corner_step]
  · simp

/-- A corner that the loop of lines 150-161 does not skip has failed the test of line
135, so its `dx[i]` and `dy[i]` are the displacement to its target corner. -/
lemma corner_dx_dy_of_eased (m : Libm) (ct : CursorTrail) (i : Fin 4)
    (heased : corner_untouched m ct i = false) :
    corner_dx ct i = ct.cursor_edge_x (corner_index 0 i) - ct.corner_x i ∧
    corner_dy ct i = ct.cursor_edge_y (corner_index 1 i) - ct.corner_y i := by
  have hconv : corner_converged ct i = false := by
    by_contra hc
    rw [Bool.not_eq_false] at hc
    simp [corner_untouched, corner_dx, corner_dy, hc] at heased
  simp [corner_dx, corner_dy, hconv]

/-- The eased branch (lines 121-162) moves a corner that is not skipped by its
displacement times its step and leaves the target edges alone. -/
lemma update_cursor_trail_corners_eased (m : Libm) (opts : Options) (ct : CursorTrail)
    (w : Window) (now : Int) (os_window : OSWindow) (i : Fin 4)
    (hskip : should_skip_cursor_trail_update opts ct w os_window = false)
    (hnow : ct.updated_at < now) (heased : corner_untouched m ct i = false) :
    (update_cursor_trail_corners m opts ct w now os_window).corner_x i =
      ct.corner_x i +
        (ct.cursor_edge_x (corner_index 0 i) - ct.corner_x i) *
          corner_step m opts ct (monotonic_t_to_s_double (now - ct.updated_at)) i ∧
    (update_cursor_trail_corners m opts ct w now os_window).corner_y i =
      ct.corner_y i +
        (ct.cursor_edge_y (corner_index 1 i) - ct.corner_y i) *
          corner_step m opts ct (monotonic_t_to_s_double (now - ct.updated_at)) i := by
  obtain ⟨hx, hy⟩ := corner_dx_dy_of_eased m ct i heased
  simp [update_cursor_trail_corners, hskip, hnow, heased, hx, hy]

/-- The residual of an eased corner after the step is its residual before the step times
`exp2f(-10*dt/decay)`. -/
lemma eased_residual (m : Libm) (opts : Options) (ct : CursorTrail)
    (w : Window) (now : Int) (os_window : OSWindow) (i : Fin 4)
    (hskip : should_skip_cursor_trail_update opts ct w os_window = false)
    (hnow : ct.updated_at < now) (heased : corner_untouched m ct i = false) :
    (update_cursor_trail_corners m opts ct w now os_window).cursor_edge_x (corner_index 0 i) -
        (update_cursor_trail_corners m opts ct w now os_window).corner_x i =
      (ct.cursor_edge_x (corner_index 0 i) - ct.corner_x i) *
        m.exp2f (-10 * monotonic_t_to_s_double (now - ct.updated_at) /
          corner_decay m opts ct i) ∧
    (update_cursor_trail_corners m opts ct w now os_window).cursor_edge_y (corner_index 1 i) -
        (update_cursor_trail_corners m opts ct w now os_window).corner_y i =
      (ct.cursor_edge_y (corner_index 1 i) - ct.corner_y i) *
        m.exp2f (-10 * monotonic_t_to_s_double (now - ct.updated_at) /
          corner_decay m opts ct i) := by
  obtain ⟨hx, hy⟩ := update_cursor_trail_corners_eased m opts ct w now os_window i hskip hnow
    heased
  rw [hx, hy, update_cursor_trail_corners_cursor_edge_x,
    update_cursor_trail_corners_cursor_edge_y]
  unfold corner_step
  constructor <;> ring

/-- With positive decay constants the decay of every corner is positive. -/
lemma corner_decay_pos (m : Libm) (opts : Options) (ct : CursorTrail) (i : Fin 4)
    (hfast : 0 < opts.cursor_trail_decay_fast) (hslow : 0 < opts.cursor_trail_decay_slow) :
    0 < corner_decay m opts ct i :=
  lt_of_lt_of_le (lt_min hfast hslow) (corner_decay_between m opts ct i).1

/-- The `exp2f` of `exact_libm` is at most `1/1024` on arguments not above -10. -/
lemma exact_libm_exp2f_le (x : ℚ) (h : x ≤ -10) :
    0 ≤ exact_libm.exp2f x ∧ exact_libm.exp2f x ≤ 1 / 1024 := by
  have hf : ⌊x⌋ ≤ -10 := by
    have h1 := Int.floor_le x
    have h2 : ((⌊x⌋ : Int) : ℚ) ≤ ((-10 : Int) : ℚ) := by push_cast; linarith
    exact_mod_cast h2
  constructor
  · simp only [exact_libm]; positivity
  · simp only [exact_libm]
    calc (2 : ℚ) ^ ⌊x⌋ ≤ (2 : ℚ) ^ (-10 : Int) := zpow_le_zpow_right₀ (by norm_num) hf
      _ = 1 / 1024 := by norm_num

/-- The half-diagonal of `leading_trail` is 5, and with NaN skipped its extreme scores
are 0 and 1. -/
lemma leading_trail_ieee :
    cursor_diag_2 exact_libm leading_trail = 5 ∧
    min_dot_ieee exact_libm leading_trail = 0 ∧ max_dot_ieee exact_libm leading_trail = 1 := by
  obtain ⟨h100, -⟩ := exact_libm_sqrtf_values
  have hd : cursor_diag_2 exact_libm leading_trail = 5 := by
    norm_num [cursor_diag_2, norm, leading_trail, h100]
  obtain ⟨h1, h2⟩ := min_max_dot_ieee_of_diag_ne_zero exact_libm leading_trail
    (by rw [hd]; norm_num)
  obtain ⟨hmin, hmax⟩ := leading_trail_min_max
  exact ⟨hd, by rw [h1, hmin], by rw [h2, hmax]⟩

/-- In `leading_trail` the skip policy of the example configuration does not fire, corner
0 is eased, and its decay is `decay_fast` whatever the two decay constants are. -/
lemma leading_trail_facts (opts : Options) (w : Window) :
    should_skip_cursor_trail_update example_options leading_trail w
      (example_os_window 1 1 true false 0 0 w) = false ∧
    corner_untouched exact_libm leading_trail 0 = false ∧
    corner_decay exact_libm opts leading_trail 0 = opts.cursor_trail_decay_fast := by
  obtain ⟨h0, -, -, -⟩ := leading_trail_dot
  obtain ⟨hmin, hmax⟩ := leading_trail_min_max
  obtain ⟨-, hmini, -⟩ := leading_trail_ieee
  refine ⟨?_, ?_, ?_⟩
  · simp [should_skip_cursor_trail_update, example_os_window, example_options]
  · simp only [corner_untouched, hmini]
    norm_num [corner_dx, corner_converged, leading_trail, corner_index, FLT_MAX]
  · simp [corner_decay, hmin, hmax, h0]

/-- The scores, the skip test and the decay do not depend on `exp2f`: for
`binary32_libm` they are those of `exact_libm`. -/
lemma binary32_libm_scores (opts : Options) (ct : CursorTrail) (i : Fin 4) :
    corner_untouched binary32_libm ct i = corner_untouched exact_libm ct i ∧
    corner_decay binary32_libm opts ct i = corner_decay exact_libm opts ct i :=
  ⟨rfl, rfl⟩

/-- A positive elapsed time in seconds comes from a later `now`. -/
lemma pos_of_monotonic_t_to_s_double_pos (t : Int) (h : 0 < monotonic_t_to_s_double t) :
    0 < t := by
  unfold monotonic_t_to_s_double at h
  by_contra hc
  push_neg at hc
  have h1 : (t : ℚ) ≤ 0 := by exact_mod_cast hc
  have h2 : (t : ℚ) / 1000000000 ≤ 0 := div_nonpos_of_nonpos_of_nonneg h1 (by norm_num)
  linarith

/-- C17: provided `exp2f(-10) = 1/1024`, as for the real `2^x`: for every corner eased
by `update_cursor_trail_corners` (skip policy not firing) whose decay is positive, a
step whose elapsed time `dt` equals that corner's decay has step fraction `1023/1024`,
advances the corner by its displacement times `1023/1024` on each axis and leaves
exactly `1/1024` of the displacement on each axis. -/
theorem eased_step_one_decay (m : Libm) (opts : Options) (ct : CursorTrail) (w : Window)
    (now : Int) (os_window : OSWindow) (i : Fin 4)
    (hexp : m.exp2f (-10) = 1 / 1024)
    (hskip : should_skip_cursor_trail_update opts ct w os_window = false)
    (heased : corner_untouched m ct i = false)
    (hdecay : 0 < corner_decay m opts ct i)
    (hdt : monotonic_t_to_s_double (now - ct.updated_at) = corner_decay m opts ct i) :
    let ct1 := update_cursor_trail_corners m opts ct w now os_window
    let rx : ℚ := ct.cursor_edge_x (corner_index 0 i) - ct.corner_x i
    let ry : ℚ := ct.cursor_edge_y (corner_index 1 i) - ct.corner_y i
    corner_step m opts ct (monotonic_t_to_s_double (now - ct.updated_at)) i = 1023 / 1024 ∧
    ct1.corner_x i = ct.corner_x i + rx * (1023 / 1024) ∧
    ct1.corner_y i = ct.corner_y i + ry * (1023 / 1024) ∧
    ct1.cursor_edge_x (corner_index 0 i) - ct1.corner_x i = rx / 1024 ∧
    ct1.cursor_edge_y (corner_index 1 i) - ct1.corner_y i = ry / 1024 := by
  intro ct1 rx ry
  have hnow : ct.updated_at < now := by
    have := pos_of_monotonic_t_to_s_double_pos (now - ct.updated_at) (by rw [hdt]; exact hdecay)
    linarith
  have hexpo : -10 * monotonic_t_to_s_double (now - ct.updated_at) /
      corner_decay m opts ct i = -10 := by
    rw [hdt]
    field_simp
  have hstep : corner_step m opts ct (monotonic_t_to_s_double (now - ct.updated_at)) i
      = 1023 / 1024 := by
    unfold corner_step
    rw [hexpo, hexp]
    norm_num
  obtain ⟨hx, hy⟩ := update_cursor_trail_corners_eased m opts ct w now os_window i hskip hnow
    heased
  obtain ⟨hrx, hry⟩ := eased_residual m opts ct w now os_window i hskip hnow heased
  rw [hexpo, hexp] at hrx hry
  rw [hstep] at hx hy
  refine ⟨hstep, hx, hy, ?_, ?_⟩
  · rw [hrx]; ring
  · rw [hry]; ring

/-- C17 (witness): `leading_trail` with `decay_fast = 0.1`, eased 0.1 s after its last
update: corner 0 has decay 0.1, moves from (3,4) to (6141/1024, 2047/256) and keeps the
residual (3/1024, 4/1024) of its displacement (3,4). -/
theorem eased_step_one_decay_witness :
    (update_cursor_trail_corners exact_libm example_options leading_trail
        (example_window CURSOR_BLOCK 0 0 0 100 10 20) 100000000
        (example_os_window 1 1 true false 0 0
          (example_window CURSOR_BLOCK 0 0 0 100 10 20))).corner_x 0 = 6141 / 1024 ∧
    (update_cursor_trail_corners exact_libm example_options leading_trail
        (example_window CURSOR_BLOCK 0 0 0 100 10 20) 100000000
        (example_os_window 1 1 true false 0 0
          (example_window CURSOR_BLOCK 0 0 0 100 10 20))).corner_y 0 = 2047 / 256 := by
  obtain ⟨hskip, heased, hdecay⟩ :=
    leading_trail_facts example_options (example_window CURSOR_BLOCK 0 0 0 100 10 20)
  have h := eased_step_one_decay exact_libm example_options leading_trail
    (example_window CURSOR_BLOCK 0 0 0 100 10 20) 100000000
    (example_os_window 1 1 true false 0 0 (example_window CURSOR_BLOCK 0 0 0 100 10 20)) 0
    (by norm_num [exact_libm]) hskip heased
    (by rw [hdecay]; norm_num [example_options])
    (by rw [hdecay]; norm_num [example_options, leading_trail, monotonic_t_to_s_double])
  constructor
  · rw [h.2.1]
    norm_num [leading_trail, corner_index]
  · rw [h.2.2.1]
    norm_num [leading_trail, corner_index]

/-- A corner that passes the test of line 151 is not moved by
`update_cursor_trail_corners` when the skip policy does not fire. -/
lemma update_cursor_trail_corners_untouched (m : Libm) (opts : Options) (ct : CursorTrail)
    (w : Window) (now : Int) (os_window : OSWindow) (i : Fin 4)
    (hskip : should_skip_cursor_trail_update opts ct w os_window = false)
    (hun : corner_untouched m ct i = true) :
    (update_cursor_trail_corners m opts ct w now os_window).corner_x i = ct.corner_x i ∧
    (update_cursor_trail_corners m opts ct w now os_window).corner_y i = ct.corner_y i := by
  unfold update_cursor_trail_corners
  rw [hskip]
  simp only [Bool.false_eq_true, if_false]
  split_ifs
  · simp [hun]
  · exact ⟨rfl, rfl⟩

/-- The half-diagonal of the zero-area targets of `stalled_trail` and `zero_area_trail`
is 0. -/
lemma zero_area_diag :
    cursor_diag_2 exact_libm stalled_trail = 0 ∧ cursor_diag_2 exact_libm zero_area_trail = 0 := by
  constructor
  · norm_num [cursor_diag_2, norm, stalled_trail, exact_libm]
  · norm_num [cursor_diag_2, norm, zero_area_trail, exact_libm]

/-- In `stalled_trail` no corner has converged, so every score is NaN, `min_dot` keeps
the sentinel `FLT_MAX` and every corner is skipped by line 151. -/
lemma stalled_trail_untouched (i : Fin 4) :
    corner_converged stalled_trail i = false ∧
    corner_untouched exact_libm stalled_trail i = true := by
  have hconv : ∀ j, corner_converged stalled_trail j = false := by
    intro j
    fin_cases j <;> norm_num [corner_converged, stalled_trail, corner_index]
  rcases min_max_dot_ieee_of_diag_zero exact_libm stalled_trail zero_area_diag.1 with
    ⟨-, h, -⟩ | ⟨⟨j, hj⟩, -, -⟩
  · exact ⟨hconv i, by simp [corner_untouched, h]⟩
  · rw [hconv j] at hj
    cases hj

/-- C18 (counterexample): three single steps with `dt = 10*decay_slow`, skip not firing.
First, `leading_trail` with `decay_fast = 10` s and `decay_slow = 0.1` s, `dt` = 1 s:
corner 0 has the highest score, so its decay is `decay_fast`, the factor is
`2^(-10*1/10) = 1/2` and its residual goes from (3,4) to (3/2,2), more than 1/1024 of
the distance before.  Second, `decay_fast = 0.125` s, `decay_slow = 0.5` s, `dt` = 5 s
and `stalled_trail`, whose target has zero half-diagonal and whose corners all lie at
(3,4): every score is NaN, `min_dot` keeps the sentinel `FLT_MAX`, line 151 skips every
corner and corner 0 keeps its residual (3,4).  Third, the same decays and `dt` with
`near_trail`, whose corner 2 lies `2^(-21)` right of its target corner: the test of line
135 treats it as converged, the corner is not moved and its residual stays
`-2^(-21)`. -/
theorem eased_step_convergence_counterexample :
    (monotonic_t_to_s_double (1000000000 - leading_trail.updated_at) =
      10 * ({ example_options with
        cursor_trail_decay_fast := 10, cursor_trail_decay_slow := 1 / 10 } :
          Options).cursor_trail_decay_slow ∧
    (leading_trail.cursor_edge_x (corner_index 0 0) - leading_trail.corner_x 0 = 3 ∧
      leading_trail.cursor_edge_y (corner_index 1 0) - leading_trail.corner_y 0 = 4) ∧
    (update_cursor_trail_corners exact_libm
        { example_options with cursor_trail_decay_fast := 10, cursor_trail_decay_slow := 1 / 10 }
        leading_trail (example_window CURSOR_BLOCK 0 0 0 100 10 20) 1000000000
        (example_os_window 1 1 true false 0 0
          (example_window CURSOR_BLOCK 0 0 0 100 10 20))).cursor_edge_x (corner_index 0 0) -
      (update_cursor_trail_corners exact_libm
        { example_options with cursor_trail_decay_fast := 10, cursor_trail_decay_slow := 1 / 10 }
        leading_trail (example_window CURSOR_BLOCK 0 0 0 100 10 20) 1000000000
        (example_os_window 1 1 true false 0 0
          (example_window CURSOR_BLOCK 0 0 0 100 10 20))).corner_x 0 = 3 / 2 ∧
    (update_cursor_trail_corners exact_libm
        { example_options with cursor_trail_decay_fast := 10, cursor_trail_decay_slow := 1 / 10 }
        leading_trail (example_window CURSOR_BLOCK 0 0 0 100 10 20) 1000000000
        (example_os_window 1 1 true false 0 0
          (example_window CURSOR_BLOCK 0 0 0 100 10 20))).cursor_edge_y (corner_index 1 0) -
      (update_cursor_trail_corners exact_libm
        { example_options with cursor_trail_decay_fast := 10, cursor_trail_decay_slow := 1 / 10 }
        leading_trail (example_window CURSOR_BLOCK 0 0 0 100 10 20) 1000000000
        (example_os_window 1 1 true false 0 0
          (example_window CURSOR_BLOCK 0 0 0 100 10 20))).corner_y 0 = 2) ∧
    (monotonic_t_to_s_double (5000000000 - stalled_trail.updated_at) =
      10 * binary_options.cursor_trail_decay_slow ∧
    (stalled_trail.cursor_edge_x (corner_index 0 0) - stalled_trail.corner_x 0 = 3 ∧
      stalled_trail.cursor_edge_y (corner_index 1 0) - stalled_trail.corner_y 0 = 4) ∧
    (update_cursor_trail_corners exact_libm binary_options stalled_trail
        (example_window CURSOR_BLOCK 0 0 0 100 10 20) 5000000000
        (example_os_window 1 1 true false 0 0
          (example_window CURSOR_BLOCK 0 0 0 100 10 20))).cursor_edge_x (corner_index 0 0) -
      (update_cursor_trail_corners exact_libm binary_options stalled_trail
        (example_window CURSOR_BLOCK 0 0 0 100 10 20) 5000000000
        (example_os_window 1 1 true false 0 0
          (example_window CURSOR_BLOCK 0 0 0 100 10 20))).corner_x 0 = 3 ∧
    (update_cursor_trail_corners exact_libm binary_options stalled_trail
        (example_window CURSOR_BLOCK 0 0 0 100 10 20) 5000000000
        (example_os_window 1 1 true false 0 0
          (example_window CURSOR_BLOCK 0 0 0 100 10 20))).cursor_edge_y (corner_index 1 0) -
      (update_cursor_trail_corners exact_libm binary_options stalled_trail
        (example_window CURSOR_BLOCK 0 0 0 100 10 20) 5000000000
        (example_os_window 1 1 true false 0 0
          (example_window CURSOR_BLOCK 0 0 0 100 10 20))).corner_y 0 = 4) ∧
    (monotonic_t_to_s_double (5000000000 - near_trail.updated_at) =
      10 * binary_options.cursor_trail_decay_slow ∧
    near_trail.cursor_edge_x (corner_index 0 2) - near_trail.corner_x 2 = -(1 / 2097152) ∧
    (update_cursor_trail_corners exact_libm binary_options near_trail
        (example_window CURSOR_BLOCK 0 0 0 100 10 20) 5000000000
        (example_os_window 1 1 true false 0 0
          (example_window CURSOR_BLOCK 0 0 0 100 10 20))).cursor_edge_x (corner_index 0 2) -
      (update_cursor_trail_corners exact_libm binary_options near_trail
        (example_window CURSOR_BLOCK 0 0 0 100 10 20) 5000000000
        (example_os_window 1 1 true false 0 0
          (example_window CURSOR_BLOCK 0 0 0 100 10 20))).corner_x 2 = -(1 / 2097152)) := by
  have hskipb : ∀ ct : CursorTrail, should_skip_cursor_trail_update binary_options ct
      (example_window CURSOR_BLOCK 0 0 0 100 10 20)
      (example_os_window 1 1 true false 0 0 (example_window CURSOR_BLOCK 0 0 0 100 10 20))
        = false := by
    intro ct
    simp [should_skip_cursor_trail_update, example_os_window, binary_options, example_options]
  refine ⟨⟨?_, ⟨?_, ?_⟩, ?_, ?_⟩, ⟨?_, ⟨?_, ?_⟩, ?_, ?_⟩, ?_, ?_, ?_⟩
  · norm_num [monotonic_t_to_s_double, leading_trail]
  · norm_num [leading_trail, corner_index]
  · norm_num [leading_trail, corner_index]
  · obtain ⟨-, heased, hdecay⟩ := leading_trail_facts
      { example_options with cursor_trail_decay_fast := 10, cursor_trail_decay_slow := 1 / 10 }
      (example_window CURSOR_BLOCK 0 0 0 100 10 20)
    have hskip : should_skip_cursor_trail_update
        { example_options with cursor_trail_decay_fast := 10, cursor_trail_decay_slow := 1 / 10 }
        leading_trail (example_window CURSOR_BLOCK 0 0 0 100 10 20)
        (example_os_window 1 1 true false 0 0 (example_window CURSOR_BLOCK 0 0 0 100 10 20))
          = false := by
      simp [should_skip_cursor_trail_update, example_os_window, example_options]
    rw [(eased_residual exact_libm _ leading_trail _ 1000000000 _ 0 hskip
      (by norm_num [leading_trail]) heased).1, hdecay]
    norm_num [exact_libm, leading_trail, corner_index, monotonic_t_to_s_double]
  · obtain ⟨-, heased, hdecay⟩ := leading_trail_facts
      { example_options with cursor_trail_decay_fast := 10, cursor_trail_decay_slow := 1 / 10 }
      (example_window CURSOR_BLOCK 0 0 0 100 10 20)
    have hskip : should_skip_cursor_trail_update
        { example_options with cursor_trail_decay_fast := 10, cursor_trail_decay_slow := 1 / 10 }
        leading_trail (example_window CURSOR_BLOCK 0 0 0 100 10 20)
        (example_os_window 1 1 true false 0 0 (example_window CURSOR_BLOCK 0 0 0 100 10 20))
          = false := by
      simp [should_skip_cursor_trail_update, example_os_window, example_options]
    rw [(eased_residual exact_libm _ leading_trail _ 1000000000 _ 0 hskip
      (by norm_num [leading_trail]) heased).2, hdecay]
    norm_num [exact_libm, leading_trail, corner_index, monotonic_t_to_s_double]
  · norm_num [monotonic_t_to_s_double, stalled_trail, binary_options]
  · norm_num [stalled_trail, corner_index]
  · norm_num [stalled_trail, corner_index]
  · rw [(update_cursor_trail_corners_untouched exact_libm binary_options stalled_trail _
      5000000000 _ 0 (hskipb _) (stalled_trail_untouched 0).2).1,
      update_cursor_trail_corners_cursor_edge_x]
    norm_num [stalled_trail, corner_index]
  · rw [(update_cursor_trail_corners_untouched exact_libm binary_options stalled_trail _
      5000000000 _ 0 (hskipb _) (stalled_trail_untouched 0).2).2,
      update_cursor_trail_corners_cursor_edge_y]
    norm_num [stalled_trail, corner_index]
  · norm_num [monotonic_t_to_s_double, near_trail, binary_options]
  · norm_num [near_trail, corner_index]
  · have hconv : corner_converged near_trail 2 = true := by
      unfold corner_converged
      rw [Bool.and_eq_true, decide_eq_true_eq, decide_eq_true_eq]
      constructor <;> rw [abs_lt] <;> constructor <;> norm_num [near_trail, corner_index]
    have hun : corner_untouched exact_libm near_trail 2 = true := by
      simp [corner_untouched, corner_dx, corner_dy, hconv]
    rw [(update_cursor_trail_corners_untouched exact_libm binary_options near_trail _
      5000000000 _ 2 (hskipb _) hun).1, update_cursor_trail_corners_cursor_edge_x]
    norm_num [near_trail, corner_index]

/-- C18 (amended): provided `exp2f` maps every argument not above -10 into `[0, 1/1024]`,
as the binary32 `exp2f` does: for every positive `decay_fast` and `decay_slow` with
`decay_fast <= 10*decay_slow`, every target and every starting corners, after a single
`update_cursor_trail_corners` step with `dt = 10*decay_slow` and the skip policy not
firing, each corner whose displacement reaches `1e-6` on some axis, unless `min_dot` is
still the sentinel `FLT_MAX` (every score NaN), keeps on each axis its residual times
one common factor of at most `1/1024`, so its residual distance to its target corner is
at most 1/1024 of the distance before the step; a corner whose displacement is below
`1e-6` on both axes is not moved, and no corner is moved when `min_dot` is the
sentinel. -/
theorem eased_step_convergence (m : Libm) (opts : Options) (ct : CursorTrail) (w : Window)
    (now : Int) (os_window : OSWindow) (i : Fin 4)
    (hexp : ∀ x : ℚ, x ≤ -10 → 0 ≤ m.exp2f x ∧ m.exp2f x ≤ 1 / 1024)
    (hfast : 0 < opts.cursor_trail_decay_fast) (hslow : 0 < opts.cursor_trail_decay_slow)
    (hratio : opts.cursor_trail_decay_fast ≤ 10 * opts.cursor_trail_decay_slow)
    (hskip : should_skip_cursor_trail_update opts ct w os_window = false)
    (hdt : monotonic_t_to_s_double (now - ct.updated_at) = 10 * opts.cursor_trail_decay_slow) :
    let ct1 := update_cursor_trail_corners m opts ct w now os_window
    let rx : ℚ := ct.cursor_edge_x (corner_index 0 i) - ct.corner_x i
    let ry : ℚ := ct.cursor_edge_y (corner_index 1 i) - ct.corner_y i
    let rx1 : ℚ := ct1.cursor_edge_x (corner_index 0 i) - ct1.corner_x i
    let ry1 : ℚ := ct1.cursor_edge_y (corner_index 1 i) - ct1.corner_y i
    (corner_converged ct i = false → min_dot_ieee m ct ≠ FLT_MAX →
      ∃ f : ℚ, 0 ≤ f ∧ f ≤ 1 / 1024 ∧ rx1 = rx * f ∧ ry1 = ry * f ∧
        |rx1| ≤ |rx| / 1024 ∧ |ry1| ≤ |ry| / 1024 ∧
        rx1 ^ 2 + ry1 ^ 2 ≤ (rx ^ 2 + ry ^ 2) / 1024 ^ 2) ∧
    (corner_converged ct i = true →
      ct1.corner_x i = ct.corner_x i ∧ ct1.corner_y i = ct.corner_y i ∧
      |rx| < 1 / 1000000 ∧ |ry| < 1 / 1000000) ∧
    (min_dot_ieee m ct = FLT_MAX →
      ct1.corner_x i = ct.corner_x i ∧ ct1.corner_y i = ct.corner_y i) := by
  intro ct1 rx ry rx1 ry1
  have hnow : ct.updated_at < now := by
    have := pos_of_monotonic_t_to_s_double_pos (now - ct.updated_at) (by rw [hdt]; linarith)
    linarith
  refine ⟨?_, ?_, ?_⟩
  · intro hconv hsentinel
    have hdx : corner_dx ct i = rx := by simp [corner_dx, hconv, rx]
    have hdy : corner_dy ct i = ry := by simp [corner_dy, hconv, ry]
    have hnz : ¬ (rx = 0 ∧ ry = 0) := by
      rintro ⟨h1, h2⟩
      have hc : corner_converged ct i = true := by
        unfold corner_converged
        rw [Bool.and_eq_true, decide_eq_true_eq, decide_eq_true_eq]
        have e1 : ct.cursor_edge_x (corner_index 0 i) - ct.corner_x i = 0 := h1
        have e2 : ct.cursor_edge_y (corner_index 1 i) - ct.corner_y i = 0 := h2
        rw [e1, e2]
        norm_num
      rw [hconv] at hc
      cases hc
    have heased : corner_untouched m ct i = false := by
      unfold corner_untouched
      rw [hdx, hdy]
      simp only [Bool.or_eq_false_iff, Bool.and_eq_false_iff, decide_eq_false_iff_not]
      refine ⟨?_, hsentinel⟩
      by_contra hc
      push_neg at hc
      exact hnz hc
    have hd := corner_decay_pos m opts ct i hfast hslow
    have hdle : corner_decay m opts ct i ≤ 10 * opts.cursor_trail_decay_slow := by
      refine le_trans (corner_decay_between m opts ct i).2 (max_le hratio ?_)
      linarith
    have hexpo : -10 * monotonic_t_to_s_double (now - ct.updated_at) /
        corner_decay m opts ct i ≤ -10 := by
      rw [div_le_iff₀ hd, hdt]
      nlinarith
    obtain ⟨hf0, hf1⟩ := hexp _ hexpo
    obtain ⟨hx, hy⟩ := eased_residual m opts ct w now os_window i hskip hnow heased
    have hx1 : rx1 = rx * m.exp2f (-10 * monotonic_t_to_s_double (now - ct.updated_at) /
        corner_decay m opts ct i) := hx
    have hy1 : ry1 = ry * m.exp2f (-10 * monotonic_t_to_s_double (now - ct.updated_at) /
        corner_decay m opts ct i) := hy
    refine ⟨_, hf0, hf1, hx1, hy1, ?_, ?_, ?_⟩
    · rw [hx1, abs_mul, abs_of_nonneg hf0]
      have := abs_nonneg rx
      nlinarith
    · rw [hy1, abs_mul, abs_of_nonneg hf0]
      have := abs_nonneg ry
      nlinarith
    · rw [hx1, hy1]
      have hsq : m.exp2f (-10 * monotonic_t_to_s_double (now - ct.updated_at) /
          corner_decay m opts ct i) ^ 2 ≤ (1 / 1024) ^ 2 :=
        pow_le_pow_left₀ hf0 hf1 2
      have hr : 0 ≤ rx ^ 2 + ry ^ 2 := by positivity
      nlinarith
  · intro hconv
    have hun : corner_untouched m ct i = true := by
      simp [corner_untouched, corner_dx, corner_dy, hconv]
    obtain ⟨hx, hy⟩ := update_cursor_trail_corners_untouched m opts ct w now os_window i hskip hun
    unfold corner_converged at hconv
    rw [Bool.and_eq_true, decide_eq_true_eq, decide_eq_true_eq] at hconv
    exact ⟨hx, hy, hconv.1, hconv.2⟩
  · intro hs
    have hun : corner_untouched m ct i = true := by
      simp [corner_untouched, hs]
    exact update_cursor_trail_corners_untouched m opts ct w now os_window i hskip hun

/-- C18 (witness): `leading_trail` with the decays 0.1 s and 0.4 s, eased 4 s after its
last update: the residual of corner 0, which was (3,4), is at most (3/1024, 4/1024) in
magnitude. -/
theorem eased_step_convergence_witness :
    |(update_cursor_trail_corners exact_libm example_options leading_trail
        (example_window CURSOR_BLOCK 0 0 0 100 10 20) 4000000000
        (example_os_window 1 1 true false 0 0
          (example_window CURSOR_BLOCK 0 0 0 100 10 20))).cursor_edge_x (corner_index 0 0) -
      (update_cursor_trail_corners exact_libm example_options leading_trail
        (example_window CURSOR_BLOCK 0 0 0 100 10 20) 4000000000
        (example_os_window 1 1 true false 0 0
          (example_window CURSOR_BLOCK 0 0 0 100 10 20))).corner_x 0| ≤ 3 / 1024 ∧
    |(update_cursor_trail_corners exact_libm example_options leading_trail
        (example_window CURSOR_BLOCK 0 0 0 100 10 20) 4000000000
        (example_os_window 1 1 true false 0 0
          (example_window CURSOR_BLOCK 0 0 0 100 10 20))).cursor_edge_y (corner_index 1 0) -
      (update_cursor_trail_corners exact_libm example_options leading_trail
        (example_window CURSOR_BLOCK 0 0 0 100 10 20) 4000000000
        (example_os_window 1 1 true false 0 0
          (example_window CURSOR_BLOCK 0 0 0 100 10 20))).corner_y 0| ≤ 4 / 1024 := by
  obtain ⟨hskip, -, -⟩ :=
    leading_trail_facts example_options (example_window CURSOR_BLOCK 0 0 0 100 10 20)
  have hsentinel : min_dot_ieee exact_libm leading_trail ≠ FLT_MAX := by
    rw [leading_trail_ieee.2.1]; norm_num [FLT_MAX]
  have hconv : corner_converged leading_trail 0 = false := by
    norm_num [corner_converged, leading_trail, corner_index]
  obtain ⟨f, -, -, -, -, hx, hy, -⟩ := (eased_step_convergence exact_libm example_options
    leading_trail (example_window CURSOR_BLOCK 0 0 0 100 10 20) 4000000000
    (example_os_window 1 1 true false 0 0 (example_window CURSOR_BLOCK 0 0 0 100 10 20)) 0
    exact_libm_exp2f_le (by norm_num [example_options]) (by norm_num [example_options])
    (by norm_num [example_options]) hskip
    (by norm_num [example_options, leading_trail, monotonic_t_to_s_double])).1 hconv hsentinel
  constructor
  · refine le_trans hx (le_of_eq ?_)
    norm_num [leading_trail, corner_index]
  · refine le_trans hy (le_of_eq ?_)
    norm_num [leading_trail, corner_index]

/-- With `sqrtf(0) = 0`, a target rectangle whose two x edges and two y edges coincide
has the half-diagonal 0. -/
lemma cursor_diag_2_of_zero_area (m : Libm) (ct : CursorTrail) (hsqrt : m.sqrtf 0 = 0)
    (hx : ct.cursor_edge_x 0 = ct.cursor_edge_x 1)
    (hy : ct.cursor_edge_y 0 = ct.cursor_edge_y 1) : cursor_diag_2 m ct = 0 := by
  unfold cursor_diag_2 norm
  rw [hx, hy, sub_self, sub_self, mul_zero, add_zero, hsqrt, zero_mul]

/-- C20 (counterexample): `zero_area_trail`, whose target rectangle has both x edges at 6
and both y edges at 8 and whose corner 0 lies at (3,4), displaced by 3 along x, eased
0.5 s after its last update with the skip policy not firing (no live resize, start
threshold 0).  The half-diagonal is 0, corner 0 fails the test of line 135, and lines
140-142 divide its zero numerator by the zero half-diagonal: its alignment score is
NaN, not a number. -/
theorem update_cursor_trail_corners_zero_half_diagonal_counterexample :
    zero_area_trail.cursor_edge_x 0 = zero_area_trail.cursor_edge_x 1 ∧
    zero_area_trail.cursor_edge_y 0 = zero_area_trail.cursor_edge_y 1 ∧
    zero_area_trail.cursor_edge_x (corner_index 0 0) - zero_area_trail.corner_x 0 = 3 ∧
    corner_converged zero_area_trail 0 = false ∧
    should_skip_cursor_trail_update binary_options zero_area_trail
      (example_window CURSOR_BLOCK 0 0 0 100 10 20)
      (example_os_window 1 1 true false 0 0 (example_window CURSOR_BLOCK 0 0 0 100 10 20))
        = false ∧
    zero_area_trail.updated_at < 500000000 ∧
    cursor_diag_2 exact_libm zero_area_trail = 0 ∧
    corner_dot_ieee exact_libm zero_area_trail 0 = none := by
  have hconv : corner_converged zero_area_trail 0 = false := by
    norm_num [corner_converged, zero_area_trail, corner_index]
  refine ⟨rfl, rfl, ?_, hconv, ?_, ?_, zero_area_diag.2, ?_⟩
  · norm_num [zero_area_trail, corner_index]
  · simp [should_skip_cursor_trail_update, example_os_window, binary_options, example_options]
  · norm_num [zero_area_trail]
  · rw [corner_dot_ieee_of_diag_zero exact_libm zero_area_trail zero_area_diag.2, hconv]
    rfl

/-- C20 (amended): provided `sqrtf(0) = 0`, as for the binary32 `sqrtf`: for every state
in which the cached target rectangle has zero half-diagonal
(`cursor_edge_x[0] = cursor_edge_x[1]` and `cursor_edge_y[0] = cursor_edge_y[1]`), in
the eased branch of `update_cursor_trail_corners` (`now > updated_at`, skip not firing)
the division by the zero half-diagonal is not guarded: the alignment score of every
corner with a displacement of at least `1e-6` on some axis is NaN (the score of every
other corner is 0).  No NaN reaches the persistent corner state all the same: every
corner coordinate after the step is a number.  `fminf` and `fmaxf` drop the NaN scores:
if every corner has such a displacement, `min_dot` keeps the sentinel `FLT_MAX` and no
corner is moved; otherwise `min_dot = max_dot = 0` and the decay of every corner is the
number `decay_slow`. -/
theorem update_cursor_trail_corners_zero_half_diagonal (m : Libm) (opts : Options)
    (ct : CursorTrail) (w : Window) (now : Int) (os_window : OSWindow)
    (hsqrt : m.sqrtf 0 = 0)
    (hx : ct.cursor_edge_x 0 = ct.cursor_edge_x 1)
    (hy : ct.cursor_edge_y 0 = ct.cursor_edge_y 1)
    (hskip : should_skip_cursor_trail_update opts ct w os_window = false)
    (hnow : ct.updated_at < now) :
    let dt : ℚ := monotonic_t_to_s_double (now - ct.updated_at)
    let ct1 := update_cursor_trail_corners m opts ct w now os_window
    cursor_diag_2 m ct = 0 ∧
    (∀ i, corner_converged ct i = false → corner_dot_ieee m ct i = none) ∧
    (∀ i, corner_converged ct i = true → corner_dot_ieee m ct i = some 0) ∧
    (∀ i, eased_corner_x_ieee m opts ct dt i = some (ct1.corner_x i) ∧
      eased_corner_y_ieee m opts ct dt i = some (ct1.corner_y i)) ∧
    ((∀ i, corner_converged ct i = false) →
      min_dot_ieee m ct = FLT_MAX ∧ max_dot_ieee m ct = -FLT_MAX ∧
      ∀ i, ct1.corner_x i = ct.corner_x i ∧ ct1.corner_y i = ct.corner_y i) ∧
    ((∃ i, corner_converged ct i = true) →
      min_dot_ieee m ct = 0 ∧ max_dot_ieee m ct = 0 ∧
      ∀ i, corner_decay_ieee m opts ct i = some opts.cursor_trail_decay_slow) := by
  intro dt ct1
  have hd := cursor_diag_2_of_zero_area m ct hsqrt hx hy
  refine ⟨hd, ?_, ?_, ?_, ?_, ?_⟩
  · intro i hconv
    rw [corner_dot_ieee_of_diag_zero m ct hd, hconv]
    rfl
  · intro i hconv
    rw [corner_dot_ieee_of_diag_zero m ct hd, hconv]
    rfl
  · intro i
    obtain ⟨h1, h2⟩ := eased_corner_ieee_eq m opts ct dt i
    rw [h1, h2]
    constructor <;>
      simp [ct1, dt, update_cursor_trail_corners, hskip, hnow]
  · intro hall
    rcases min_max_dot_ieee_of_diag_zero m ct hd with ⟨-, hmin, hmax⟩ | ⟨⟨j, hj⟩, -, -⟩
    · refine ⟨hmin, hmax, fun i => ?_⟩
      exact update_cursor_trail_corners_untouched m opts ct w now os_window i hskip
        (by simp [corner_untouched, hmin])
    · rw [hall j] at hj
      cases hj
  · rintro ⟨j, hj⟩
    rcases min_max_dot_ieee_of_diag_zero m ct hd with ⟨hall, -, -⟩ | ⟨-, hmin, hmax⟩
    · rw [hall j] at hj
      cases hj
    · refine ⟨hmin, hmax, fun i => ?_⟩
      unfold corner_decay_ieee
      dsimp only
      rw [hmin, hmax, if_pos rfl]

/-- C20 (witness): `zero_area_trail` eased 0.5 s after its last update with
`decay_slow = 0.5` s: the score of corner 0 is NaN, the extremes of the scores are both
0, the decay of corner 0 is `decay_slow`, the step is `1 - 2^(-10) = 1023/1024`, and
the stored x coordinate of corner 0 is the number `3 + 3 * 1023/1024 = 6141/1024`. -/
theorem update_cursor_trail_corners_zero_half_diagonal_witness :
    corner_dot_ieee exact_libm zero_area_trail 0 = none ∧
    min_dot_ieee exact_libm zero_area_trail = 0 ∧
    max_dot_ieee exact_libm zero_area_trail = 0 ∧
    corner_decay_ieee exact_libm binary_options zero_area_trail 0 = some (1 / 2) ∧
    eased_corner_x_ieee exact_libm binary_options zero_area_trail
      (monotonic_t_to_s_double (500000000 - zero_area_trail.updated_at)) 0 =
        some (6141 / 1024) ∧
    (update_cursor_trail_corners exact_libm binary_options zero_area_trail
      (example_window CURSOR_BLOCK 0 0 0 100 10 20) 500000000
      (example_os_window 1 1 true false 0 0
        (example_window CURSOR_BLOCK 0 0 0 100 10 20))).corner_x 0 = 6141 / 1024 := by
  have hskip : should_skip_cursor_trail_update binary_options zero_area_trail
      (example_window CURSOR_BLOCK 0 0 0 100 10 20)
      (example_os_window 1 1 true false 0 0 (example_window CURSOR_BLOCK 0 0 0 100 10 20))
        = false := by
    simp [should_skip_cursor_trail_update, example_os_window, binary_options, example_options]
  have hnow : zero_area_trail.updated_at < 500000000 := by norm_num [zero_area_trail]
  have hconv0 : corner_converged zero_area_trail 0 = false := by
    norm_num [corner_converged, zero_area_trail, corner_index]
  have hconv1 : corner_converged zero_area_trail 1 = true := by
    norm_num [corner_converged, zero_area_trail, corner_index]
  obtain ⟨-, hnan, -, hcorner, -, hsome⟩ :=
    update_cursor_trail_corners_zero_half_diagonal exact_libm binary_options zero_area_trail
      (example_window CURSOR_BLOCK 0 0 0 100 10 20) 500000000
      (example_os_window 1 1 true false 0 0 (example_window CURSOR_BLOCK 0 0 0 100 10 20))
      (by norm_num [exact_libm]) rfl rfl hskip hnow
  obtain ⟨hmin, hmax, hdecay⟩ := hsome ⟨1, hconv1⟩
  have hdx : corner_dx zero_area_trail 0 = 3 := by
    simp only [corner_dx, hconv0]
    norm_num [zero_area_trail, corner_index]
  have hun : corner_untouched exact_libm zero_area_trail 0 = false := by
    simp only [corner_untouched, hmin, hdx]
    norm_num [FLT_MAX]
  have hdec : corner_decay exact_libm binary_options zero_area_trail 0 = 1 / 2 := by
    have h1 := corner_decay_ieee_of_eased exact_libm binary_options zero_area_trail 0 hun
    rw [hdecay 0] at h1
    have h2 := Option.some.inj h1
    rw [← h2]
    norm_num [binary_options]
  have hval : (update_cursor_trail_corners exact_libm binary_options zero_area_trail
      (example_window CURSOR_BLOCK 0 0 0 100 10 20) 500000000
      (example_os_window 1 1 true false 0 0
        (example_window CURSOR_BLOCK 0 0 0 100 10 20))).corner_x 0 = 6141 / 1024 := by
    rw [(update_cursor_trail_corners_eased exact_libm binary_options zero_area_trail _
      500000000 _ 0 hskip hnow hun).1]
    unfold corner_step
    rw [hdec]
    norm_num [exact_libm, zero_area_trail, corner_index, monotonic_t_to_s_double]
  refine ⟨hnan 0 hconv0, hmin, hmax, ?_, ?_, hval⟩
  · rw [hdecay 0]
    norm_num [binary_options]
  · rw [(hcorner 0).1, hval]

end Kitty
